import Mathlib

/-!
Shallow embedding of the Twinkle code-generation engine
(src/src/codegen/codegen.cxx, plus the line-number calculation of
src/src/compiler/src/codegen/codegen.cpp), together with proofs of the
specification claims about symbol scoping, expression and statement
lowering, function assembly, and error reporting.

LLVM is modelled by a small intermediate representation: a pool of basic
blocks (each a list of instructions, where a block's terminator is its last
item when that item is a branch or return, exactly like
llvm::BasicBlock::getTerminator), a module function table, and a builder
state with an insertion point and fresh-id counters.  External backend
services (llvm::verifyFunction, the FunctionPassManager, the JIT engine)
are opaque collaborators per the specification and are modelled as
identities.  Source positions are dropped from diagnostics: each error is
identified by its throw site and payload, and every error constructor's
doc string quotes the exact C++ message it stands for.
-/

set_option maxHeartbeats 1000000

namespace Twinkle

/-- Source type kinds, id::type_name from parse/id.hxx (as used by the codegen). -/
inductive type_name where
  | void_ | i8 | u8 | i16 | u16 | i32 | u32 | i64 | u64 | bool_
deriving Repr, DecidableEq

/-- AST type annotation: kind plus pointer flag (node.type.id and node.type.is_ptr). -/
structure type_info where
  id : type_name
  is_ptr : Bool
deriving Repr, DecidableEq

/-- Variable qualifier, id::variable_qualifier; the codegen only inspects mutable_. -/
inductive variable_qualifier where
  | mutable_
deriving Repr, DecidableEq

/-- Function linkage qualifier, id::function_linkage; the codegen only inspects private_. -/
inductive function_linkage where
  | private_
deriving Repr, DecidableEq

/-- Model of llvm::Type as produced by this engine: void, iN, or pointer. -/
inductive LType where
  | void
  | int (bits : Nat)
  | ptr (pointee : LType)
deriving Repr, DecidableEq

/-- Result of typename_to_type: an llvm type together with its signedness. -/
structure llvm_type_info where
  type : LType
  is_signed : Bool
deriving Repr, DecidableEq

/-- codegen_common::typename_to_type (codegen.cxx lines 1088-1135): maps a source
type kind and pointer flag to an llvm type plus signedness.  Booleans are
represented by u8 (an unsigned one-byte integer) instead of i1.  Unrecognized
kinds yield none. -/
def typename_to_type (type : type_name) (is_ptr : Bool) : Option llvm_type_info :=
  let tmp : llvm_type_info :=
    match type with
    | .void_ => ⟨.void, false⟩
    | .i8 => ⟨.int 8, true⟩
    | .u8 => ⟨.int 8, false⟩
    | .i16 => ⟨.int 16, true⟩
    | .u16 => ⟨.int 16, false⟩
    | .i32 => ⟨.int 32, true⟩
    | .u32 => ⟨.int 32, false⟩
    | .i64 => ⟨.int 64, true⟩
    | .u64 => ⟨.int 64, false⟩
    | .bool_ => ⟨.int 8, false⟩
  some (if is_ptr then { tmp with type := .ptr tmp.type } else tmp)

/-- Model of llvm::Value*: null (a C++ null pointer), an integer constant, an
undef value, an instruction result register, or an incoming function argument. -/
inductive Value where
  | null
  | constInt (ty : LType) (n : Int)
  | undef (ty : LType)
  | vreg (id : Nat) (ty : LType)
  | farg (idx : Nat) (ty : LType)
deriving Repr, DecidableEq

/-- Value::getType.  A null pointer has no type in C++ (dereferencing it is
undefined); the model returns void there, a case no lowered flow reaches. -/
def Value.getType : Value → LType
  | .null => .void
  | .constInt ty _ => ty
  | .undef ty => ty
  | .vreg _ ty => ty
  | .farg _ ty => ty

/-- Model of llvm::AllocaInst*: the stack slot's id and its allocated type
(AllocaInst::getAllocatedType). -/
structure AllocaInst where
  id : Nat
  allocatedType : LType
deriving Repr, DecidableEq

/-- An alloca used as an operand is a pointer to its allocated type. -/
def AllocaInst.toValue (a : AllocaInst) : Value :=
  .vreg a.id (.ptr a.allocatedType)

/-- variable_info (codegen.cxx lines 25-29): a symbol-table binding. -/
structure variable_info where
  inst : AllocaInst
  is_mutable : Bool
  is_signed : Bool
deriving Repr, DecidableEq

/-- Association-list search used to model std::unordered_map lookup. -/
def lookupName : List (String × variable_info) → String → Option variable_info
  | [], _ => none
  | (k, v) :: rest, n => if k = n then some v else lookupName rest n

/-- symbol_table (codegen.cxx lines 31-63): name-to-binding map, threaded by
value through nested scopes. -/
structure symbol_table where
  named_values : List (String × variable_info)
deriving Repr, DecidableEq

/-- symbol_table::operator[]: lookup, absence gives none. -/
def symbol_table.find (tbl : symbol_table) (name : String) : Option variable_info :=
  lookupName tbl.named_values name

/-- symbol_table::exists (count on the map): true when the name is registered. -/
def symbol_table.exists_ (tbl : symbol_table) (name : String) : Bool :=
  (lookupName tbl.named_values name).isSome

/-- symbol_table::regist, via std::unordered_map::insert: a no-op when the key
is already present. -/
def symbol_table.regist (tbl : symbol_table) (name : String) (info : variable_info) :
    symbol_table :=
  if (lookupName tbl.named_values name).isSome then tbl
  else ⟨(name, info) :: tbl.named_values⟩

/-- Integer binary operators emitted by the engine (IRBuilder CreateAdd, CreateSub,
CreateMul, CreateSDiv, CreateUDiv, CreateSRem, CreateURem). -/
inductive BinArith where
  | add | sub | mul | sdiv | udiv | srem | urem
deriving Repr, DecidableEq

/-- Integer comparison predicates emitted by the engine. -/
inductive ICmpPred where
  | eq | ne | slt | sgt | sle | sge
deriving Repr, DecidableEq

/-- Non-terminator instructions of the IR model. -/
inductive Instr where
  | alloca (res : Nat) (ty : LType) (name : String)
  | store (val : Value) (ptr : Value)
  | load (res : Nat) (ty : LType) (ptr : Value)
  | binop (res : Nat) (op : BinArith) (a b : Value)
  | icmp (res : Nat) (p : ICmpPred) (a b : Value)
  | intCast (res : Nat) (v : Value) (ty : LType) (is_signed : Bool)
  | call (res : Nat) (callee : String) (args : List Value)
deriving Repr, DecidableEq

/-- Terminator instructions of the IR model. -/
inductive Terminator where
  | br (target : Nat)
  | condBr (cond : Value) (tgt fls : Nat)
  | ret (v : Value)
  | ret_void
deriving Repr, DecidableEq

/-- One item of a basic block's instruction list. -/
inductive BItem where
  | instr (i : Instr)
  | term (t : Terminator)
deriving Repr, DecidableEq

/-- True exactly for a return terminator item. -/
def BItem.isRet : BItem → Bool
  | .term (.ret _) => true
  | .term .ret_void => true
  | _ => false

/-- Model of llvm::BasicBlock: an instruction list and the parent function's
name (none while the block is detached, before push_back attaches it). -/
structure BasicBlock where
  body : List BItem
  parent : Option String
deriving Repr, DecidableEq

/-- BasicBlock::getTerminator: the last item when it is a terminator, else none
(LLVM returns the trailing instruction cast to a terminator, or null). -/
def BasicBlock.getTerminator (bb : BasicBlock) : Option Terminator :=
  match bb.body.getLast? with
  | some (.term t) => some t
  | _ => none

/-- Model of llvm::Function: signature data, positional parameter names, and
the ids of the basic blocks attached to it, in list order (the first is the
entry block). -/
structure LFunction where
  name : String
  param_types : List LType
  param_names : List String
  return_type : LType
  is_vararg : Bool
  internal_linkage : Bool
  basic_blocks : List Nat
deriving Repr, DecidableEq

/-- First function with the given name (llvm::Module::getFunction). -/
def findFunc : List LFunction → String → Option LFunction
  | [], _ => none
  | f :: rest, n => if f.name = n then some f else findFunc rest n

/-- Replace the first function with the given name. -/
def updateFunc : List LFunction → String → (LFunction → LFunction) → List LFunction
  | [], _, _ => []
  | f :: rest, n, g => if f.name = n then g f :: rest else f :: updateFunc rest n g

/-- Association-list search for the block pool. -/
def findBlock : List (Nat × BasicBlock) → Nat → Option BasicBlock
  | [], _ => none
  | (k, bb) :: rest, bid => if k = bid then some bb else findBlock rest bid

/-- Builder/module state: the pool of created basic blocks keyed by id, the
current insertion point, fresh-id counters for blocks and values, and the
module's function table. -/
structure CGState where
  blocks : List (Nat × BasicBlock)
  insertPt : Nat
  nextBlock : Nat
  nextValue : Nat
  functions : List LFunction
deriving Repr, DecidableEq

namespace CGState

/-- Block with the given id, if created. -/
def getBlock (s : CGState) (bid : Nat) : Option BasicBlock :=
  findBlock s.blocks bid

/-- Body of the block with the given id ([] when absent). -/
def getBody (s : CGState) (bid : Nat) : List BItem :=
  ((s.getBlock bid).map (·.body)).getD []

/-- Terminator of the current insertion block
(builder.GetInsertBlock()->getTerminator()). -/
def currentTerminator (s : CGState) : Option Terminator :=
  ((s.getBlock s.insertPt).map (·.getTerminator)).getD none

/-- Module::getFunction. -/
def getFunction (s : CGState) (n : String) : Option LFunction :=
  findFunc s.functions n

/-- Parent function of the current insertion block
(builder.GetInsertBlock()->getParent()), as a name. -/
def parentName (s : CGState) : Option String :=
  (s.getBlock s.insertPt).bind (·.parent)

/-- Parent function record of the current insertion block. -/
def getParentFunc (s : CGState) : Option LFunction :=
  (s.parentName).bind s.getFunction

/-- Append one item to the current insertion block (IRBuilder insertion at the
block's end). -/
def appendToCurrent (s : CGState) (it : BItem) : CGState :=
  { s with blocks := s.blocks.map (fun p =>
      (p.1, if p.1 = s.insertPt then { p.2 with body := p.2.body ++ [it] } else p.2)) }

/-- Prepend one item to the block with the given id (a temporary IRBuilder
positioned at a block's begin, as create_entry_block_alloca does). -/
def prependToBlock (s : CGState) (bid : Nat) (it : BItem) : CGState :=
  { s with blocks := s.blocks.map (fun p =>
      (p.1, if p.1 = bid then { p.2 with body := it :: p.2.body } else p.2)) }

/-- llvm::BasicBlock::Create: a fresh empty block; when a parent function is
given the block is appended to that function's block list at once. -/
def createBlock (s : CGState) (parent : Option String) : Nat × CGState :=
  (s.nextBlock,
    { s with
      blocks := (s.nextBlock, ⟨[], parent⟩) :: s.blocks
      nextBlock := s.nextBlock + 1
      functions := match parent with
        | none => s.functions
        | some n => updateFunc s.functions n
            (fun f => { f with basic_blocks := f.basic_blocks ++ [s.nextBlock] }) })

/-- func->getBasicBlockList().push_back(bb): attach a detached block at the end
of the function's block list.  A null function pointer (no parent available)
would be undefined behaviour in C++ and never occurs in lowered flows; the
model leaves the state unchanged there. -/
def push_back (s : CGState) (funcName : Option String) (bid : Nat) : CGState :=
  match funcName with
  | none => s
  | some n =>
    { s with
      functions := updateFunc s.functions n
        (fun f => { f with basic_blocks := f.basic_blocks ++ [bid] })
      blocks := s.blocks.map
        (fun p => (p.1, if p.1 = bid then { p.2 with parent := some n } else p.2)) }

/-- builder.SetInsertPoint. -/
def setInsertPoint (s : CGState) (bid : Nat) : CGState :=
  { s with insertPt := bid }

/-- Fresh value id. -/
def freshVal (s : CGState) : Nat × CGState :=
  (s.nextValue, { s with nextValue := s.nextValue + 1 })

/-- builder.CreateStore. -/
def CreateStore (s : CGState) (v : Value) (ptr : Value) : CGState :=
  s.appendToCurrent (.instr (.store v ptr))

/-- builder.CreateLoad(type, ptr). -/
def CreateLoad (s : CGState) (ty : LType) (ptr : Value) : Value × CGState :=
  let (id, s) := s.freshVal
  (.vreg id ty, s.appendToCurrent (.instr (.load id ty ptr)))

/-- builder.CreateAdd / CreateSub / CreateMul / CreateSDiv / CreateUDiv /
CreateSRem / CreateURem; the result type is the first operand's type. -/
def CreateBinOp (s : CGState) (op : BinArith) (a b : Value) : Value × CGState :=
  let (id, s) := s.freshVal
  (.vreg id a.getType, s.appendToCurrent (.instr (.binop id op a b)))

/-- builder.CreateICmp; the result is an i1. -/
def CreateICmp (s : CGState) (p : ICmpPred) (a b : Value) : Value × CGState :=
  let (id, s) := s.freshVal
  (.vreg id (.int 1), s.appendToCurrent (.instr (.icmp id p a b)))

/-- llvm::CastInst::CreateIntegerCast / builder.CreateIntCast inserted at the
current block's end. -/
def CreateIntCast (s : CGState) (v : Value) (ty : LType) (is_signed : Bool) :
    Value × CGState :=
  let (id, s) := s.freshVal
  (.vreg id ty, s.appendToCurrent (.instr (.intCast id v ty is_signed)))

/-- builder.CreateBr. -/
def CreateBr (s : CGState) (target : Nat) : CGState :=
  s.appendToCurrent (.term (.br target))

/-- builder.CreateCondBr. -/
def CreateCondBr (s : CGState) (cond : Value) (tgt fls : Nat) : CGState :=
  s.appendToCurrent (.term (.condBr cond tgt fls))

/-- builder.CreateRet; a null argument means a void return. -/
def CreateRet (s : CGState) (v : Option Value) : CGState :=
  match v with
  | some v => s.appendToCurrent (.term (.ret v))
  | none => s.appendToCurrent (.term .ret_void)

/-- builder.CreateCall; the result register's type is the callee's return type. -/
def CreateCall (s : CGState) (callee : LFunction) (args : List Value) :
    Value × CGState :=
  let (id, s) := s.freshVal
  (.vreg id callee.return_type, s.appendToCurrent (.instr (.call id callee.name args)))

/-- builder.CreateGlobalStringPtr: creates a module-level global (not a basic
block item) and yields an i8 pointer; the model only allocates the value id. -/
def CreateGlobalStringPtr (s : CGState) (_str : String) : Value × CGState :=
  let (id, s) := s.freshVal
  (.vreg id (.ptr (.int 8)), s)

/-- codegen_common::i1_to_boolean (codegen.cxx lines 1137-1149): widen an i1 to
the canonical boolean representation, an unsigned one-byte integer. -/
def i1_to_boolean (s : CGState) (v : Value) : Value × CGState :=
  s.CreateIntCast v (.int 8) false

end CGState

/-- create_entry_block_alloca (codegen.cxx lines 67-75): insert an alloca at the
begin of the function's entry block.  The C++ version dereferences the function
pointer unconditionally; a missing function or entry block never occurs in
lowered flows and leaves the model state unchanged. -/
def create_entry_block_alloca (s : CGState) (funcName : Option String)
    (var_name : String) (ty : LType) : AllocaInst × CGState :=
  let (id, s) := s.freshVal
  let inst : AllocaInst := ⟨id, ty⟩
  match funcName with
  | none => (inst, s)
  | some n =>
    match s.getFunction n with
    | none => (inst, s)
    | some f =>
      match f.basic_blocks.head? with
      | none => (inst, s)
      | some entry => (inst, s.prependToBlock entry (.instr (.alloca id ty var_name)))

/-- Errors thrown by the codegen (std::runtime_error carrying a formatted
message).  Positions are dropped; each constructor corresponds to one throw
site and its doc string quotes the C++ message. -/
inductive CodegenErr where
  /-- message: failed to generate right-hand side -/
  | failed_to_generate_rhs
  /-- message: failed to generate left-hand side -/
  | failed_to_generate_lhs
  /-- message: unknown operator ... detected -/
  | unknown_operator_detected (op : String)
  /-- message: unknown variable name ... (assignment left-hand side) -/
  | unknown_variable_name (name : String)
  /-- message: assignment of read-only variable ... -/
  | assignment_of_read_only (name : String)
  /-- message: left-hand side was not as variable -/
  | left_hand_side_was_not_as_variable
  /-- message: unknown variable ... referenced -/
  | unknown_variable_referenced (name : String)
  /-- message: unknown function ... referenced -/
  | unknown_function_referenced (name : String)
  /-- message: incorrect arguments passed -/
  | incorrect_arguments_passed
  /-- message: argument set failed in call to the function ... -/
  | argument_set_failed (callee : String)
  /-- message: incompatible type for argument N of ...; the payload carries the
  exact number the %d format would print at the throw site. -/
  | incompatible_type_for_argument (n : Nat) (callee : String)
  /-- message: conversion to an unknown type -/
  | conversion_to_unknown_type
  /-- message: unary star requires pointer operand -/
  | requires_pointer_operand
  /-- message: failed to generate expression statement -/
  | failed_to_generate_expression_statement
  /-- message: incompatible type for result type -/
  | incompatible_type_for_result_type
  /-- message: failed to generate return value -/
  | failed_to_generate_return_value
  /-- message: redefinition of ... -/
  | redefinition_of (name : String)
  /-- message: variables of undefined type cannot be defined -/
  | variables_of_undefined_type
  /-- message: failed to generate initializer for ... -/
  | failed_to_generate_initializer (name : String)
  /-- message: invalid condition in if statement -/
  | invalid_condition_in_if
  /-- message: failed to generate condition expression -/
  | failed_to_generate_condition
  /-- message: failed to generate initialization expression -/
  | failed_to_generate_initialization
  /-- message: failed to generate loop expression -/
  | failed_to_generate_loop_expression
  /-- message: requires a named argument before the vararg marker -/
  | requires_named_argument_before_vararg
  /-- message: cannot have multiple variable arguments -/
  | cannot_have_multiple_varargs
  /-- message: failed to create function ... -/
  | failed_to_create_function (name : String)
  /-- message: arguments of undefined types cannot be declared -/
  | arguments_of_undefined_types
  /-- message: return type cannot be an undefined type -/
  | return_type_cannot_be_undefined
  /-- Models the C++ dereference of an empty optional when a declaration's
  parameter or return type does not resolve (undefined behaviour in the
  source; kept as an explicit error so the model stays total). -/
  | unresolved_type_dereferenced
  /-- Models the C++ dereference of a null parent-function pointer in the
  return-statement type check (undefined behaviour in the source; unreachable
  in lowered flows where the insertion block always has a parent). -/
  | null_parent_function
deriving Repr, DecidableEq

/-- Expression AST (ast::expression, a boost::variant): literals, unary and
binary operators (operators are the source's strings), variable references,
function calls, type conversions, address-of and indirection. -/
inductive expression where
  | nil
  | uint32 (n : Nat)
  | int32 (n : Int)
  | boolean (b : Bool)
  | string_literal (str : String)
  | char_literal (ch : Char)
  | unary_op_expr (op : String) (rhs : expression)
  | bin_op_expr (lhs : expression) (op : String) (rhs : expression)
  | variable_ref (name : String)
  | function_call_expr (callee : String) (args : List expression)
  | conv_expr (lhs : expression) (as_type : type_info)
  | addr_of_expr (lhs : expression)
  | indirection_expr (lhs : expression)
deriving Repr

/-- True when the expression is syntactically a variable reference (the shape
boost::get of ast::variable_ref accepts). -/
def expression.is_variable_ref : expression → Bool
  | .variable_ref _ => true
  | _ => false

/-- llvm::getPointerOperand: for a value produced by a load instruction, its
pointer operand; null for anything else.  The model recovers the defining
instruction from the block pool. -/
def getPointerOperandIn : List (Nat × BasicBlock) → Nat → Value
  | [], _ => .null
  | (_, bb) :: rest, id =>
    match bb.body.findSome? (fun it =>
      match it with
      | .instr (.load res _ ptr) => if res = id then some ptr else none
      | _ => none) with
    | some ptr => ptr
    | none => getPointerOperandIn rest id

/-- llvm::getPointerOperand on a model value. -/
def getPointerOperand (s : CGState) (v : Value) : Value :=
  match v with
  | .vreg id _ => getPointerOperandIn s.blocks id
  | _ => .null

/-- Argument type verification loop of the call case (codegen.cxx lines
367-377): idx starts at 0, args_value is subscripted with idx and idx is then
post-incremented, and the error message prints idx + 1 after that increment,
so the value reported for the i-th (0-based) argument is i + 2. -/
def verify_args_loop (callee : String) (param_types : List LType)
    (args_value : List Value) (idx : Nat) : Option CodegenErr :=
  match param_types with
  | [] => none
  | ty :: rest =>
    if (args_value.getD idx Value.null).getType ≠ ty then
      some (.incompatible_type_for_argument (idx + 2) callee)
    else
      verify_args_loop callee rest args_value (idx + 1)

mutual

/-- expression_visitor (codegen.cxx lines 81-443): lowers one expression to a
value, or fails; errors carry the state at the throw point (emitted
instructions persist, as with C++ exceptions). -/
def expression_visitor (e : expression) (scope : symbol_table) (s : CGState) :
    Except CodegenErr Value × CGState :=
  match e with
  | .nil =>
    -- BOOST_ASSERT(0) is inert in release builds; the case returns nullptr.
    (.ok .null, s)
  | .uint32 n => (.ok (.constInt (.int 32) (Int.ofNat n)), s)
  | .int32 n => (.ok (.constInt (.int 32) n), s)
  | .boolean b =>
    let (v, s) := s.i1_to_boolean (.constInt (.int 1) (if b then 1 else 0))
    (.ok v, s)
  | .string_literal str =>
    let (v, s) := s.CreateGlobalStringPtr str
    (.ok v, s)
  | .char_literal ch => (.ok (.constInt (.int 8) (Int.ofNat ch.toNat)), s)
  | .unary_op_expr op rhs =>
    match expression_visitor rhs scope s with
    | (.error e, s) => (.error e, s)
    | (.ok rhs_v, s) =>
      if rhs_v = .null then (.error .failed_to_generate_rhs, s)
      else
        if op == "+" then (.ok rhs_v, s)
        else if op == "-" then
          -- minus x is lowered to (0 - x)
          let (v, s) := s.CreateBinOp .sub (.constInt (.int 32) 0) rhs_v
          (.ok v, s)
        else (.error (.unknown_operator_detected op), s)
  | .bin_op_expr lhs op rhs =>
    if op == "=" || op == "+=" || op == "-=" || op == "*=" || op == "/="
        || op == "%=" then
      -- assignment branch: boost::get on the left operand (a failing get
      -- throws bad_get before the right-hand side is lowered)
      match lhs with
      | .variable_ref name =>
        match expression_visitor rhs scope s with
        | (.error e, s) => (.error e, s)
        | (.ok rhs_v, s) =>
          if rhs_v = .null then (.error .failed_to_generate_rhs, s)
          else
            match scope.find name with
            | none => (.error (.unknown_variable_name name), s)
            | some var_info =>
              if var_info.is_mutable = false then
                (.error (.assignment_of_read_only name), s)
              else
                let s := if op == "=" then
                    s.CreateStore rhs_v var_info.inst.toValue
                  else s
                let (lhs_v, s) :=
                  s.CreateLoad var_info.inst.allocatedType var_info.inst.toValue
                let s := if op == "+=" then
                    let (v, s) := s.CreateBinOp .add lhs_v rhs_v
                    s.CreateStore v var_info.inst.toValue
                  else s
                let s := if op == "-=" then
                    let (v, s) := s.CreateBinOp .sub lhs_v rhs_v
                    s.CreateStore v var_info.inst.toValue
                  else s
                let s := if op == "*=" then
                    let (v, s) := s.CreateBinOp .mul lhs_v rhs_v
                    s.CreateStore v var_info.inst.toValue
                  else s
                let s := if op == "/=" then
                    let (v, s) := s.CreateBinOp
                      (if var_info.is_signed then .sdiv else .udiv) lhs_v rhs_v
                    s.CreateStore v var_info.inst.toValue
                  else s
                let s := if op == "%=" then
                    let (v, s) := s.CreateBinOp
                      (if var_info.is_signed then .srem else .urem) lhs_v rhs_v
                    s.CreateStore v var_info.inst.toValue
                  else s
                let (ret_v, s) :=
                  s.CreateLoad var_info.inst.allocatedType var_info.inst.toValue
                (.ok ret_v, s)
      | _ => (.error .left_hand_side_was_not_as_variable, s)
    else
      match expression_visitor lhs scope s with
      | (.error e, s) => (.error e, s)
      | (.ok lhs_v, s) =>
        match expression_visitor rhs scope s with
        | (.error e, s) => (.error e, s)
        | (.ok rhs_v, s) =>
          if lhs_v = .null then (.error .failed_to_generate_lhs, s)
          else
            if rhs_v = .null then (.error .failed_to_generate_rhs, s)
            else
              if op == "+" then
                let (v, s) := s.CreateBinOp .add lhs_v rhs_v
                (.ok v, s)
              else if op == "-" then
                let (v, s) := s.CreateBinOp .sub lhs_v rhs_v
                (.ok v, s)
              else if op == "*" then
                let (v, s) := s.CreateBinOp .mul lhs_v rhs_v
                (.ok v, s)
              else if op == "/" then
                -- the plain division always uses the signed family
                let (v, s) := s.CreateBinOp .sdiv lhs_v rhs_v
                (.ok v, s)
              else if op == "%" then
                -- the plain remainder always uses the signed family
                let (v, s) := s.CreateBinOp .srem lhs_v rhs_v
                (.ok v, s)
              else if op == "==" then
                let (v, s) := s.CreateICmp .eq lhs_v rhs_v
                let (v, s) := s.i1_to_boolean v
                (.ok v, s)
              else if op == "!=" then
                let (v, s) := s.CreateICmp .ne lhs_v rhs_v
                let (v, s) := s.i1_to_boolean v
                (.ok v, s)
              else if op == "<" then
                let (v, s) := s.CreateICmp .slt lhs_v rhs_v
                let (v, s) := s.i1_to_boolean v
                (.ok v, s)
              else if op == ">" then
                let (v, s) := s.CreateICmp .sgt lhs_v rhs_v
                let (v, s) := s.i1_to_boolean v
                (.ok v, s)
              else if op == "<=" then
                let (v, s) := s.CreateICmp .sle lhs_v rhs_v
                let (v, s) := s.i1_to_boolean v
                (.ok v, s)
              else if op == ">=" then
                let (v, s) := s.CreateICmp .sge lhs_v rhs_v
                let (v, s) := s.i1_to_boolean v
                (.ok v, s)
              else (.error (.unknown_operator_detected op), s)
  | .variable_ref name =>
    match scope.find name with
    | none => (.error (.unknown_variable_referenced name), s)
    | some var_info =>
      let (v, s) := s.CreateLoad var_info.inst.allocatedType var_info.inst.toValue
      (.ok v, s)
  | .function_call_expr callee args =>
    match s.getFunction callee with
    | none => (.error (.unknown_function_referenced callee), s)
    | some callee_func =>
      if callee_func.is_vararg = false
          ∧ callee_func.param_types.length ≠ args.length then
        (.error .incorrect_arguments_passed, s)
      else
        match codegen_call_args callee args scope s with
        | (.error e, s) => (.error e, s)
        | (.ok args_value, s) =>
          match verify_args_loop callee callee_func.param_types args_value 0 with
          | some e => (.error e, s)
          | none =>
            let (v, s) := s.CreateCall callee_func args_value
            (.ok v, s)
  | .conv_expr lhs as_type =>
    match expression_visitor lhs scope s with
    | (.error e, s) => (.error e, s)
    | (.ok lhs_v, s) =>
      if lhs_v = .null then (.error .failed_to_generate_lhs, s)
      else
        match typename_to_type as_type.id as_type.is_ptr with
        | none => (.error .conversion_to_unknown_type, s)
        | some as_info =>
          let (v, s) := s.CreateIntCast lhs_v as_info.type as_info.is_signed
          (.ok v, s)
  | .addr_of_expr lhs =>
    match expression_visitor lhs scope s with
    | (.error e, s) => (.error e, s)
    | (.ok lhs_v, s) =>
      if lhs_v = .null then (.error .failed_to_generate_rhs, s)
      else (.ok (getPointerOperand s lhs_v), s)
  | .indirection_expr lhs =>
    match expression_visitor lhs scope s with
    | (.error e, s) => (.error e, s)
    | (.ok lhs_v, s) =>
      if lhs_v = .null then (.error .failed_to_generate_rhs, s)
      else
        match lhs_v.getType with
        | .ptr pointee =>
          let (v, s) := s.CreateLoad pointee lhs_v
          (.ok v, s)
        | _ => (.error .requires_pointer_operand, s)

/-- Argument-lowering loop of the call case (codegen.cxx lines 355-365):
arguments are lowered left to right and each is null-checked right after it is
lowered. -/
def codegen_call_args (callee : String) (args : List expression)
    (scope : symbol_table) (s : CGState) :
    Except CodegenErr (List Value) × CGState :=
  match args with
  | [] => (.ok [], s)
  | a :: rest =>
    match expression_visitor a scope s with
    | (.error e, s) => (.error e, s)
    | (.ok v, s) =>
      if v = .null then (.error (.argument_set_failed callee), s)
      else
        match codegen_call_args callee rest scope s with
        | (.error e, s) => (.error e, s)
        | (.ok vs, s) => (.ok (v :: vs), s)

end

/-- Statement AST (ast::statement, a boost::variant). -/
inductive statement where
  | nil
  | compound_statement (stmts : List statement)
  | expr_statement (e : expression)
  | return_statement (rhs : Option expression)
  | variable_def_statement (name : String) (type : type_info)
      (qualifier : Option variable_qualifier) (initializer : Option expression)
  | if_statement (condition : expression) (then_statement : statement)
      (else_statement : Option statement)
  | loop_statement (body : statement)
  | while_statement (cond_expr : expression) (body : statement)
  | for_statement (init_expr : Option expression) (cond_expr : Option expression)
      (loop_expr : Option expression) (body : statement)
  | break_statement
  | continue_statement
deriving Repr

/-- Context threaded through statement lowering: the function's single return
slot (null for void functions), its single exit block, and the innermost
loop's break and continue targets (null outside loops). -/
structure stmt_context where
  retvar : Option AllocaInst
  end_bb : Nat
  break_bb : Option Nat
  continue_bb : Option Nat
deriving Repr, DecidableEq

mutual

/-- statement_visitor (codegen.cxx lines 457-821): lowers one statement.  The
scope is the C++ reference parameter, so the possibly extended table is
returned on success.  Sub-statements are lowered through codegen_statement,
which copies the scope by value and dispatches back to the visitor; since the
model passes scopes by value everywhere, those calls appear directly as
statement_visitor calls whose returned scope is discarded, and the compound
case appears as the statement list loop of codegen_statement. -/
def statement_visitor (st : statement) (scope : symbol_table)
    (ctx : stmt_context) (s : CGState) :
    Except CodegenErr symbol_table × CGState :=
  match st with
  | .nil =>
    -- empty statement, not processed
    (.ok scope, s)
  | .compound_statement stmts =>
    -- codegen_statement on a compound: fresh by-value scope, then the loop
    match codegen_statement_list stmts scope ctx s with
    | (.error e, s) => (.error e, s)
    | (.ok _, s) => (.ok scope, s)
  | .expr_statement e =>
    match expression_visitor e scope s with
    | (.error er, s) => (.error er, s)
    | (.ok v, s) =>
      if v = .null then (.error .failed_to_generate_expression_statement, s)
      else (.ok scope, s)
  | .return_statement rhs =>
    match rhs with
    | some re =>
      match expression_visitor re scope s with
      | (.error e, s) => (.error e, s)
      | (.ok retval, s) =>
        match s.getParentFunc with
        | none => (.error .null_parent_function, s)
        | some func =>
          -- the type check precedes the null check in the source
          if func.return_type ≠ retval.getType then
            (.error .incompatible_type_for_result_type, s)
          else
            if retval = .null then (.error .failed_to_generate_return_value, s)
            else
              let s := s.CreateStore retval
                (match ctx.retvar with
                 | some rv => rv.toValue
                 | none => .null)
              (.ok scope, s.CreateBr ctx.end_bb)
    | none => (.ok scope, s.CreateBr ctx.end_bb)
  | .variable_def_statement name type qualifier initializer =>
    if scope.exists_ name then
      (.error (.redefinition_of name), s)
    else
      let func := s.parentName
      match typename_to_type type.id type.is_ptr with
      | none => (.error .variables_of_undefined_type, s)
      | some type_inf =>
        let (inst, s) := create_entry_block_alloca s func name type_inf.type
        match initializer with
        | some ie =>
          match expression_visitor ie scope s with
          | (.error e, s) => (.error e, s)
          | (.ok init_v, s) =>
            if init_v = .null then (.error (.failed_to_generate_initializer name), s)
            else
              let s := s.CreateStore init_v inst.toValue
              match qualifier with
              | none => (.ok (scope.regist name ⟨inst, false, type_inf.is_signed⟩), s)
              | some .mutable_ =>
                (.ok (scope.regist name ⟨inst, true, type_inf.is_signed⟩), s)
        | none =>
          match qualifier with
          | none => (.ok (scope.regist name ⟨inst, false, type_inf.is_signed⟩), s)
          | some .mutable_ =>
            (.ok (scope.regist name ⟨inst, true, type_inf.is_signed⟩), s)
  | .if_statement condition then_statement else_statement =>
    match expression_visitor condition scope s with
    | (.error e, s) => (.error e, s)
    | (.ok cond_value, s) =>
      if cond_value = .null then (.error .invalid_condition_in_if, s)
      else
        -- compare the condition not-equal to the boolean zero (u8 0)
        let (cond, s) := s.CreateICmp .ne cond_value (.constInt (.int 8) 0)
        let func := s.parentName
        let (then_bb, s) := s.createBlock func
        let (else_bb, s) := s.createBlock none
        let (merge_bb, s) := s.createBlock none
        let s := s.CreateCondBr cond then_bb else_bb
        let s := s.setInsertPoint then_bb
        match statement_visitor then_statement scope ctx s with
        | (.error e, s) => (.error e, s)
        | (.ok _, s) =>
          let s := match s.currentTerminator with
            | none => s.CreateBr merge_bb
            | some _ => s
          let s := s.push_back func else_bb
          let s := s.setInsertPoint else_bb
          match else_visitor else_statement scope ctx s with
          | (.error e, s) => (.error e, s)
          | (.ok _, s) =>
            let s := match s.currentTerminator with
              | none => s.CreateBr merge_bb
              | some _ => s
            let s := s.push_back func merge_bb
            let s := s.setInsertPoint merge_bb
            (.ok scope, s)
  | .loop_statement body =>
    let func := s.parentName
    let (body_bb, s) := s.createBlock func
    let (loop_end_bb, s) := s.createBlock none
    let s := s.CreateBr body_bb
    let s := s.setInsertPoint body_bb
    match statement_visitor body scope
        { ctx with break_bb := some loop_end_bb, continue_bb := some body_bb } s with
    | (.error e, s) => (.error e, s)
    | (.ok _, s) =>
      let s := match s.currentTerminator with
        | none => s.CreateBr body_bb
        | some _ => s
      let s := s.push_back func loop_end_bb
      let s := s.setInsertPoint loop_end_bb
      (.ok scope, s)
  | .while_statement cond_expr body =>
    let func := s.parentName
    let (cond_bb, s) := s.createBlock func
    let (body_bb, s) := s.createBlock none
    let (loop_end_bb, s) := s.createBlock none
    let s := s.CreateBr cond_bb
    let s := s.setInsertPoint cond_bb
    match expression_visitor cond_expr scope s with
    | (.error e, s) => (.error e, s)
    | (.ok cond_value, s) =>
      if cond_value = .null then (.error .failed_to_generate_condition, s)
      else
        let (cond, s) := s.CreateICmp .ne cond_value (.constInt (.int 8) 0)
        let s := s.CreateCondBr cond body_bb loop_end_bb
        let s := s.push_back func body_bb
        let s := s.setInsertPoint body_bb
        match statement_visitor body scope
            { ctx with break_bb := some loop_end_bb, continue_bb := some cond_bb } s with
        | (.error e, s) => (.error e, s)
        | (.ok _, s) =>
          let s := match s.currentTerminator with
            | none => s.CreateBr cond_bb
            | some _ => s
          let s := s.push_back func loop_end_bb
          let s := s.setInsertPoint loop_end_bb
          (.ok scope, s)
  | .for_statement init_expr cond_expr loop_expr body =>
    let init_step : Except CodegenErr Unit × CGState :=
      match init_expr with
      | some ie =>
        match expression_visitor ie scope s with
        | (.error e, s) => (.error e, s)
        | (.ok init_value, s) =>
          if init_value = .null then (.error .failed_to_generate_initialization, s)
          else (.ok (), s)
      | none => (.ok (), s)
    match init_step with
    | (.error e, s) => (.error e, s)
    | (.ok _, s) =>
      let func := s.parentName
      let (cond_bb, s) := s.createBlock func
      let (loop_bb, s) := s.createBlock none
      let (body_bb, s) := s.createBlock none
      let (loop_end_bb, s) := s.createBlock none
      let s := s.CreateBr cond_bb
      let s := s.setInsertPoint cond_bb
      let cond_step : Except CodegenErr Unit × CGState :=
        match cond_expr with
        | some ce =>
          match expression_visitor ce scope s with
          | (.error e, s) => (.error e, s)
          | (.ok cond_value, s) =>
            if cond_value = .null then (.error .failed_to_generate_condition, s)
            else
              let (cond, s) := s.CreateICmp .ne cond_value (.constInt (.int 8) 0)
              (.ok (), s.CreateCondBr cond body_bb loop_end_bb)
        | none =>
          -- an absent condition is unconditionally true
          (.ok (), s.CreateCondBr (.constInt (.int 1) 1) body_bb loop_end_bb)
      match cond_step with
      | (.error e, s) => (.error e, s)
      | (.ok _, s) =>
        let s := s.push_back func body_bb
        let s := s.setInsertPoint body_bb
        match statement_visitor body scope
            { ctx with break_bb := some loop_end_bb, continue_bb := some loop_bb } s with
        | (.error e, s) => (.error e, s)
        | (.ok _, s) =>
          let s := match s.currentTerminator with
            | none => s.CreateBr loop_bb
            | some _ => s
          let s := s.push_back func loop_bb
          let s := s.setInsertPoint loop_bb
          let loop_step : Except CodegenErr Unit × CGState :=
            match loop_expr with
            | some le =>
              match expression_visitor le scope s with
              | (.error e, s) => (.error e, s)
              | (.ok loop_value, s) =>
                if loop_value = .null then (.error .failed_to_generate_loop_expression, s)
                else (.ok (), s)
            | none => (.ok (), s)
          match loop_step with
          | (.error e, s) => (.error e, s)
          | (.ok _, s) =>
            let s := s.CreateBr cond_bb
            let s := s.push_back func loop_end_bb
            let s := s.setInsertPoint loop_end_bb
            (.ok scope, s)
  | .break_statement =>
    -- only branches when inside a loop
    match ctx.break_bb with
    | some b => (.ok scope, s.CreateBr b)
    | none => (.ok scope, s)
  | .continue_statement =>
    -- only branches when inside a loop
    match ctx.continue_bb with
    | some b => (.ok scope, s.CreateBr b)
    | none => (.ok scope, s)

/-- Optional else-arm dispatch of the if case (codegen.cxx lines 615-623):
when an else statement is present it is lowered through codegen_statement
(scope copied by value, result scope discarded), otherwise nothing happens. -/
def else_visitor (else_statement : Option statement) (scope : symbol_table)
    (ctx : stmt_context) (s : CGState) :
    Except CodegenErr symbol_table × CGState :=
  match else_statement with
  | some es => statement_visitor es scope ctx s
  | none => (.ok scope, s)

/-- Statement loop of codegen_statement (codegen.cxx lines 834-853): lower the
compound's statements in order against the block-local scope, and stop as soon
as the current insertion block has acquired a terminator. -/
def codegen_statement_list (stmts : List statement) (scope : symbol_table)
    (ctx : stmt_context) (s : CGState) : Except CodegenErr Unit × CGState :=
  match stmts with
  | [] => (.ok (), s)
  | st :: rest =>
    match statement_visitor st scope ctx s with
    | (.error e, s) => (.error e, s)
    | (.ok scope', s) =>
      match s.currentTerminator with
      | some _ => (.ok (), s)
      | none => codegen_statement_list rest scope' ctx s

end

/-- codegen_statement (codegen.cxx lines 823-859): copy the scope by value
(new_scope), then run the statement list loop for a compound statement or
dispatch the visitor for any other statement; the block-local scope is
discarded either way. -/
def codegen_statement (st : statement) (scope : symbol_table)
    (ctx : stmt_context) (s : CGState) : Except CodegenErr Unit × CGState :=
  match statement_visitor st scope ctx s with
  | (.error e, s) => (.error e, s)
  | (.ok _, s) => (.ok (), s)

/-- AST function parameter (name, type, mutability qualifier, vararg flag). -/
structure func_parameter where
  name : String
  type : type_info
  qualifier : Option variable_qualifier
  is_vararg : Bool
deriving Repr

/-- Placeholder parameter for out-of-range indexing (the C++ operator[] on a
parameter list would be undefined behaviour there; unreachable in lowered
flows because indices stay below the declared counts). -/
def default_parameter : func_parameter :=
  ⟨"", ⟨.void_, false⟩, none, false⟩

/-- AST function declaration. -/
structure function_declare where
  linkage : Option function_linkage
  name : String
  params : List func_parameter
  return_type : type_info
deriving Repr

/-- AST function definition: a declaration plus a body. -/
structure function_define where
  decl : function_declare
  body : statement
deriving Repr

/-- Vararg-marker scan of the declaration case (codegen.cxx lines 890-901):
walks the parameters keeping an is_vararg flag and fails on a second marker. -/
def check_multiple_varargs : List func_parameter → Bool → Option CodegenErr
  | [], _ => none
  | p :: rest, seen =>
    if p.is_vararg then
      if seen then some .cannot_have_multiple_varargs
      else check_multiple_varargs rest true
    else check_multiple_varargs rest seen

/-- Resolve the first n parameters' types (codegen.cxx lines 903-911).  The C++
dereferences each typename_to_type result without a check; an unresolvable
type is surfaced as unresolved_type_dereferenced to keep the model total. -/
def resolve_param_types : List func_parameter → Nat → Option (List LType)
  | _, 0 => some []
  | [], _ + 1 => none
  | p :: rest, n + 1 =>
    match typename_to_type p.type.id p.type.is_ptr with
    | none => none
    | some ti => (resolve_param_types rest n).map (ti.type :: ·)

/-- top_level_visitor::operator() on ast::function_declare (codegen.cxx lines
880-941): validates the vararg markers, builds the function type from the
resolved parameter and return types, chooses the linkage (absent qualifier
means external), creates the module function and names its parameters
positionally after the source parameters. -/
def top_level_declare (node : function_declare) (s : CGState) :
    Except CodegenErr LFunction × CGState :=
  let ps := node.params
  if ps.length ≠ 0 ∧ (ps.headD default_parameter).is_vararg then
    (.error .requires_named_argument_before_vararg, s)
  else
    match check_multiple_varargs ps false with
    | some e => (.error e, s)
    | none =>
      let is_vararg := ps.any (·.is_vararg)
      let named_params_length := if is_vararg then ps.length - 1 else ps.length
      match resolve_param_types ps named_params_length with
      | none => (.error .unresolved_type_dereferenced, s)
      | some param_types =>
        match typename_to_type node.return_type.id node.return_type.is_ptr with
        | none => (.error .unresolved_type_dereferenced, s)
        | some ret_info =>
          let internal :=
            match node.linkage with
            | none => false
            | some .private_ => true
          let func : LFunction :=
            { name := node.name
              param_types := param_types
              param_names := (ps.take named_params_length).map (·.name)
              return_type := ret_info.type
              is_vararg := is_vararg
              internal_linkage := internal
              basic_blocks := [] }
          (.ok func, { s with functions := s.functions ++ [func] })

/-- Parameter materialization loop of the definition case (codegen.cxx lines
961-989): for each function argument, resolve the declared type, allocate an
entry-block slot, store the incoming value, and register the binding with the
declared mutability.  The variable_info initializer in the source omits the
is_signed field, so parameter bindings are always recorded as unsigned. -/
def define_args_loop (decl_params : List func_parameter) (func : LFunction)
    (n : Nat) (idx : Nat) (scope : symbol_table) (s : CGState) :
    Except CodegenErr symbol_table × CGState :=
  match n with
  | 0 => (.ok scope, s)
  | n + 1 =>
    let param_node := decl_params.getD idx default_parameter
    match typename_to_type param_node.type.id param_node.type.is_ptr with
    | none => (.error .arguments_of_undefined_types, s)
    | some arg_type =>
      let arg_name := func.param_names.getD idx ""
      let (inst, s) := create_entry_block_alloca s (some func.name) arg_name arg_type.type
      let s := s.CreateStore (.farg idx (func.param_types.getD idx .void)) inst.toValue
      let scope :=
        match param_node.qualifier with
        | none => scope.regist arg_name ⟨inst, false, false⟩
        | some .mutable_ => scope.regist arg_name ⟨inst, true, false⟩
      define_args_loop decl_params func n (idx + 1) scope s

/-- Prologue of the definition case (codegen.cxx lines 956-1014 up to the body):
create and enter the entry block, materialize the parameters, resolve the
return type, create the single detached exit block, and create the return slot
(none for void). -/
def define_prolog (decl : function_declare) (func : LFunction) (s : CGState) :
    Except CodegenErr (symbol_table × Option AllocaInst × Nat) × CGState :=
  let (entry_bb, s) := s.createBlock (some func.name)
  let s := s.setInsertPoint entry_bb
  match define_args_loop decl.params func func.param_types.length 0 ⟨[]⟩ s with
  | (.error e, s) => (.error e, s)
  | (.ok argument_values, s) =>
    match typename_to_type decl.return_type.id decl.return_type.is_ptr with
    | none => (.error .return_type_cannot_be_undefined, s)
    | some return_info =>
      let (end_bb, s) := s.createBlock none
      if decl.return_type.id = type_name.void_ then
        (.ok (argument_values, none, end_bb), s)
      else
        let (retvar, s) := create_entry_block_alloca s (some func.name) "" return_info.type
        (.ok (argument_values, some retvar, end_bb), s)

/-- Return synthesis after the body (codegen.cxx lines 1016-1038): if the
current block is unterminated and the return type is non-void, store a literal
zero (for a function named main) or an undef of the return type into the
return slot and branch to the exit block; if the return type is void and the
current block is unterminated, branch directly to the exit block. -/
def synthesize_return (func_name : String) (ret_id : type_name)
    (func_ret_ty : LType) (retvar : Option AllocaInst) (end_bb : Nat)
    (s : CGState) : CGState :=
  let s :=
    if s.currentTerminator = none ∧ ret_id ≠ type_name.void_ then
      let rvv : Value :=
        match retvar with
        | some rv => rv.toValue
        | none => .null
      if func_name = "main" then
        (s.CreateStore (.constInt func_ret_ty 0) rvv).CreateBr end_bb
      else
        (s.CreateStore (.undef func_ret_ty) rvv).CreateBr end_bb
    else s
  if ret_id = type_name.void_ ∧ s.currentTerminator = none then
    s.CreateBr end_bb
  else s

/-- Body and epilogue of the definition case (codegen.cxx lines 1008-1065):
lower the body, synthesize the missing terminator, attach and enter the exit
block, and emit the single return (a load of the return slot, or a void
return).  llvm::verifyFunction and the pass manager are opaque backend
services and modelled as identities. -/
def define_body (node : function_define) (func : LFunction) (s : CGState) :
    Except CodegenErr String × CGState :=
  match define_prolog node.decl func s with
  | (.error e, s) => (.error e, s)
  | (.ok (argument_values, retvar, end_bb), s) =>
    match codegen_statement node.body argument_values ⟨retvar, end_bb, none, none⟩ s with
    | (.error e, s) => (.error e, s)
    | (.ok _, s) =>
      let s := synthesize_return node.decl.name node.decl.return_type.id
        func.return_type retvar end_bb s
      let s := s.push_back (some func.name) end_bb
      let s := s.setInsertPoint end_bb
      let s :=
        match retvar with
        | some rv =>
          let (retval, s) := s.CreateLoad rv.allocatedType rv.toValue
          s.CreateRet (some retval)
        | none => s.CreateRet none
      (.ok func.name, s)

/-- top_level_visitor::operator() on ast::function_define (codegen.cxx lines
943-1066): reuse the module's function of that name or create one from the
declaration, then lower the definition around it. -/
def top_level_define (node : function_define) (s : CGState) :
    Except CodegenErr String × CGState :=
  match s.getFunction node.decl.name with
  | some func => define_body node func s
  | none =>
    match top_level_declare node.decl s with
    | (.error e, s) => (.error e, s)
    | (.ok func, s) => define_body node func s

/-- Backward scan of CGContext::calcRows (compiler codegen.cpp lines 93-107)
and of codegen_common::format_error (codegen.cxx lines 1156-1166): starting at
the span's first character, walk backward one character at a time, increment
the row count at every newline seen (including one at the span's start
itself), and stop only at the start of the input, adding one there. -/
def calcRowsGo (input : List Char) : Nat → Nat → Nat
  | i, rows =>
    let rows := if input.getD i ' ' = '\n' then rows + 1 else rows
    match i with
    | 0 => rows + 1
    | i' + 1 => calcRowsGo input i' rows

/-- CGContext::calcRows: the 1-based line number of the position start in the
given input. -/
def calcRows (input : List Char) (start : Nat) : Nat :=
  calcRowsGo input start 0

/-- codegen_common::format_error (codegen.cxx lines 1151-1188): the formatted
diagnostic.  The span is [posBegin, posEnd) over the input; when with_code is
set the span's source text is appended.  Terminal colour escapes are omitted,
and the interactive (isatty) branch is the one modelled, the only branch that
prints the header on the supported platforms. -/
def format_error (file : String) (input : List Char) (posBegin posEnd : Nat)
    (message : String) (with_code : Bool) : String :=
  let rows := calcRows input posBegin
  let header := "In file " ++ file ++ ", line " ++ toString rows ++ ":\n"
    ++ "error: " ++ message ++ "\n"
  if with_code then
    header ++ String.mk ((input.drop posBegin).take (posEnd - posBegin))
  else header

/-- Number of return terminators in the block with the given id. -/
def retsIn (s : CGState) (bid : Nat) : Nat :=
  (s.getBody bid).countP (·.isRet)

/-- Well-formedness of a builder state: every block id attached to a function
and every created block id is below the fresh-block counter. -/
def wfState (s : CGState) : Prop :=
  (∀ f ∈ s.functions, ∀ bid ∈ f.basic_blocks, bid < s.nextBlock)
    ∧ ∀ p ∈ s.blocks, p.1 < s.nextBlock

/-- Effect footprint of expression lowering: the insertion point, block
counter and function table are untouched, blocks other than the insertion
block are unchanged, no block gains or loses return terminators, and an
unterminated insertion block stays unterminated (expressions append only
non-terminator instructions there). -/
structure exprRel (s s' : CGState) : Prop where
  insertPt_eq : s'.insertPt = s.insertPt
  nextBlock_eq : s'.nextBlock = s.nextBlock
  functions_eq : s'.functions = s.functions
  getBlock_other : ∀ bid, bid ≠ s.insertPt → s'.getBlock bid = s.getBlock bid
  rets_eq : ∀ bid, retsIn s' bid = retsIn s bid
  term_none : s.currentTerminator = none → s'.currentTerminator = none

/-- Pool well-formedness: the insertion point is a created id and every id at
or above the fresh-block counter is absent from the pool. -/
def wfPool (s : CGState) : Prop :=
  s.insertPt < s.nextBlock ∧ ∀ bid, s.nextBlock ≤ bid → s.getBlock bid = none

/-- Effect footprint of statement lowering, relative to a baseline n of block
ids that existed before the enclosing lowering began: the block counter grows,
the insertion point is unchanged or moves to a block at or above the baseline,
no block gains or loses return terminators, baseline detached blocks other
than the insertion block are untouched and stay detached, and pool
well-formedness is preserved. -/
structure stmtRelN (n : Nat) (s s' : CGState) : Prop where
  nextBlock_le : s.nextBlock ≤ s'.nextBlock
  insertPt_ok : s'.insertPt = s.insertPt ∨ n ≤ s'.insertPt
  rets_eq : ∀ bid, retsIn s' bid = retsIn s bid
  untouched : ∀ bid, bid < n → bid ≠ s.insertPt →
    (∀ f ∈ s.functions, bid ∉ f.basic_blocks) →
    s'.getBlock bid = s.getBlock bid ∧ ∀ f ∈ s'.functions, bid ∉ f.basic_blocks
  wf_pres : wfPool s → wfPool s'

theorem findBlock_map_if (l : List (Nat × BasicBlock)) (k bid : Nat)
    (g : BasicBlock → BasicBlock) :
    findBlock (l.map (fun p => (p.1, if p.1 = k then g p.2 else p.2))) bid
      = if bid = k then (findBlock l bid).map g else findBlock l bid := by
  induction l with
  | nil => simp [findBlock]
  | cons p rest ih =>
    obtain ⟨a, b⟩ := p
    by_cases h2 : a = bid
    · subst h2
      by_cases h1 : a = k
      · subst h1; simp [findBlock]
      · have h3 : ¬ a = k := h1
        simp [findBlock, h1, h3]
    · simp [findBlock, h2, ih]

theorem getBlock_appendToCurrent (s : CGState) (it : BItem) (bid : Nat) :
    (s.appendToCurrent it).getBlock bid =
      if bid = s.insertPt then
        (s.getBlock bid).map (fun b => { b with body := b.body ++ [it] })
      else s.getBlock bid := by
  simpa [CGState.appendToCurrent, CGState.getBlock] using
    findBlock_map_if s.blocks s.insertPt bid (fun b => { b with body := b.body ++ [it] })

theorem getBlock_prependToBlock (s : CGState) (tgt : Nat) (it : BItem) (bid : Nat) :
    (s.prependToBlock tgt it).getBlock bid =
      if bid = tgt then (s.getBlock bid).map (fun b => { b with body := it :: b.body })
      else s.getBlock bid := by
  simpa [CGState.prependToBlock, CGState.getBlock] using
    findBlock_map_if s.blocks tgt bid (fun b => { b with body := it :: b.body })

theorem getBlock_createBlock (s : CGState) (parent : Option String) (bid : Nat) :
    (s.createBlock parent).2.getBlock bid =
      if bid = s.nextBlock then some ⟨[], parent⟩ else s.getBlock bid := by
  by_cases h : bid = s.nextBlock <;>
    simp [CGState.createBlock, CGState.getBlock, findBlock, h, eq_comm]

theorem getBlock_push_back (s : CGState) (fn : Option String) (bid tgt : Nat) :
    ((s.push_back fn tgt).getBlock bid).map (·.body) = (s.getBlock bid).map (·.body) := by
  match fn with
  | none => rfl
  | some n =>
    have h := findBlock_map_if s.blocks tgt bid (fun b => { b with parent := some n })
    show (findBlock (s.blocks.map _) bid).map (·.body) = _
    rw [h]
    split
    · simp [CGState.getBlock, Option.map_map]
      rfl
    · rfl

theorem retsIn_appendToCurrent (s : CGState) (it : BItem) (h : it.isRet = false)
    (bid : Nat) : retsIn (s.appendToCurrent it) bid = retsIn s bid := by
  unfold retsIn CGState.getBody
  rw [getBlock_appendToCurrent]
  split
  · cases hb : s.getBlock bid <;> simp [List.countP_append, List.countP_cons, h]
  · rfl

theorem retsIn_prependToBlock (s : CGState) (tgt : Nat) (it : BItem)
    (h : it.isRet = false) (bid : Nat) :
    retsIn (s.prependToBlock tgt it) bid = retsIn s bid := by
  unfold retsIn CGState.getBody
  rw [getBlock_prependToBlock]
  split
  · cases hb : s.getBlock bid <;> simp [List.countP_cons, h]
  · rfl

theorem retsIn_createBlock (s : CGState) (parent : Option String)
    (h : s.getBlock s.nextBlock = none) (bid : Nat) :
    retsIn (s.createBlock parent).2 bid = retsIn s bid := by
  unfold retsIn CGState.getBody
  rw [getBlock_createBlock]
  split
  · next heq => subst heq; rw [h]; simp [List.countP]
  · rfl

theorem getBody_push_back (s : CGState) (fn : Option String) (tgt bid : Nat) :
    (s.push_back fn tgt).getBody bid = s.getBody bid := by
  unfold CGState.getBody
  rw [getBlock_push_back]

theorem retsIn_push_back (s : CGState) (fn : Option String) (tgt bid : Nat) :
    retsIn (s.push_back fn tgt) bid = retsIn s bid := by
  unfold retsIn
  rw [getBody_push_back]

theorem currentTerminator_appendInstr (s : CGState) (i : Instr) :
    (s.appendToCurrent (.instr i)).currentTerminator = none := by
  unfold CGState.currentTerminator
  rw [show (s.appendToCurrent (.instr i)).insertPt = s.insertPt from rfl,
    getBlock_appendToCurrent, if_pos rfl]
  cases hb : s.getBlock s.insertPt <;> simp [BasicBlock.getTerminator]

theorem getTerminator_cons_instr (i : Instr) (l : List BItem) (p p' : Option String)
    (h : BasicBlock.getTerminator ⟨l, p⟩ = none) :
    BasicBlock.getTerminator ⟨.instr i :: l, p'⟩ = none := by
  unfold BasicBlock.getTerminator at *
  cases l with
  | nil => rfl
  | cons x xs => simpa [List.getLast?_cons_cons] using h

theorem currentTerminator_prependInstr_none (s : CGState) (tgt : Nat) (i : Instr)
    (h : s.currentTerminator = none) :
    (s.prependToBlock tgt (.instr i)).currentTerminator = none := by
  unfold CGState.currentTerminator at *
  rw [show (s.prependToBlock tgt (.instr i)).insertPt = s.insertPt from rfl,
    getBlock_prependToBlock]
  split
  · cases hb : s.getBlock s.insertPt with
    | none => simp
    | some b =>
      rw [hb] at h
      exact getTerminator_cons_instr i b.body b.parent _ h
  · exact h

theorem stmtRelN_refl (n : Nat) (s : CGState) : stmtRelN n s s :=
  ⟨Nat.le_refl _, .inl rfl, fun _ => rfl, fun _ _ _ h => ⟨rfl, h⟩, id⟩

theorem stmtRelN_trans {n : Nat} {s₁ s₂ s₃ : CGState}
    (h1 : stmtRelN n s₁ s₂) (h2 : stmtRelN n s₂ s₃) : stmtRelN n s₁ s₃ := by
  refine ⟨Nat.le_trans h1.nextBlock_le h2.nextBlock_le, ?_, ?_, ?_, ?_⟩
  · rcases h2.insertPt_ok with h | h
    · rw [h]; exact h1.insertPt_ok
    · exact .inr h
  · intro bid; rw [h2.rets_eq, h1.rets_eq]
  · intro bid hn hip hdet
    obtain ⟨hb1, hd1⟩ := h1.untouched bid hn hip hdet
    have hip2 : bid ≠ s₂.insertPt := by
      rcases h1.insertPt_ok with h | h
      · rw [h]; exact hip
      · omega
    obtain ⟨hb2, hd2⟩ := h2.untouched bid hn hip2 hd1
    exact ⟨hb2.trans hb1, hd2⟩
  · exact fun h => h2.wf_pres (h1.wf_pres h)

theorem stmtRelN_of_exprRel {s s' : CGState} (n : Nat) (h : exprRel s s') :
    stmtRelN n s s' := by
  refine ⟨Nat.le_of_eq h.nextBlock_eq.symm, .inl h.insertPt_eq, h.rets_eq, ?_, ?_⟩
  · intro bid _ hip hdet
    refine ⟨h.getBlock_other bid hip, ?_⟩
    rw [h.functions_eq]
    exact hdet
  · intro hwf
    refine ⟨by rw [h.insertPt_eq, h.nextBlock_eq]; exact hwf.1, ?_⟩
    intro bid hb
    rw [h.nextBlock_eq] at hb
    have hne : bid ≠ s.insertPt := by
      have := hwf.1
      omega
    rw [h.getBlock_other bid hne]
    exact hwf.2 bid hb

theorem getBlock_freshVal (s : CGState) (bid : Nat) :
    (s.freshVal.2).getBlock bid = s.getBlock bid := rfl

theorem stmtRelN_freshVal (n : Nat) (s : CGState) : stmtRelN n s s.freshVal.2 :=
  ⟨Nat.le_refl _, .inl rfl, fun _ => rfl, fun _ _ _ h => ⟨rfl, h⟩, id⟩

theorem stmtRelN_append (n : Nat) (s : CGState) (it : BItem) (h : it.isRet = false) :
    stmtRelN n s (s.appendToCurrent it) := by
  refine ⟨Nat.le_refl _, .inl rfl, retsIn_appendToCurrent s it h, ?_, ?_⟩
  · intro bid _ hip hdet
    rw [getBlock_appendToCurrent, if_neg hip]
    exact ⟨rfl, hdet⟩
  · intro hwf
    refine ⟨hwf.1, ?_⟩
    intro bid hb
    have hb2 : s.nextBlock ≤ bid := hb
    have hip : ¬ bid = s.insertPt := by
      have := hwf.1
      omega
    rw [getBlock_appendToCurrent, if_neg hip]
    exact hwf.2 bid hb2

/-- Membership in the updated function list. -/
theorem mem_updateFunc {l : List LFunction} {nm : String}
    {g : LFunction → LFunction} {f' : LFunction} (h : f' ∈ updateFunc l nm g) :
    f' ∈ l ∨ ∃ f ∈ l, f' = g f := by
  induction l with
  | nil => simp [updateFunc] at h
  | cons f rest ih =>
    unfold updateFunc at h
    by_cases hf : f.name = nm
    · rw [if_pos hf] at h
      rcases List.mem_cons.mp h with h | h
      · exact .inr ⟨f, List.mem_cons_self f rest, h⟩
      · exact .inl (List.mem_cons_of_mem f h)
    · rw [if_neg hf] at h
      rcases List.mem_cons.mp h with h | h
      · exact .inl (h ▸ List.mem_cons_self f rest)
      · rcases ih h with h | ⟨f0, hf0, he⟩
        · exact .inl (List.mem_cons_of_mem f h)
        · exact .inr ⟨f0, List.mem_cons_of_mem f hf0, he⟩

theorem stmtRelN_createBlock (n : Nat) (s : CGState) (p : Option String)
    (hn : n ≤ s.nextBlock) (hwf : wfPool s) :
    stmtRelN n s (s.createBlock p).2 := by
  refine ⟨Nat.le_succ _, .inl rfl, retsIn_createBlock s p (hwf.2 _ (Nat.le_refl _)), ?_, ?_⟩
  · intro bid hbn hip hdet
    have hne : ¬ bid = s.nextBlock := by omega
    rw [getBlock_createBlock, if_neg hne]
    refine ⟨rfl, ?_⟩
    intro f' hf'
    show bid ∉ f'.basic_blocks
    cases p with
    | none => exact hdet f' hf'
    | some nm =>
      rcases mem_updateFunc hf' with hmem | ⟨f0, hf0, he⟩
      · exact hdet f' hmem
      · rw [he]
        simp only [List.mem_append, List.mem_singleton]
        push_neg
        exact ⟨hdet f0 hf0, by omega⟩
  · intro _
    refine ⟨Nat.lt_succ_of_lt hwf.1, ?_⟩
    intro bid hb
    have hb2 : s.nextBlock + 1 ≤ bid := hb
    have hne : ¬ bid = s.nextBlock := by omega
    rw [getBlock_createBlock, if_neg hne]
    exact hwf.2 bid (by omega)

theorem getBlock_push_back_ne (s : CGState) (fn : Option String) (tgt bid : Nat)
    (h : bid ≠ tgt) : (s.push_back fn tgt).getBlock bid = s.getBlock bid := by
  cases fn with
  | none => rfl
  | some nm =>
    show findBlock (s.blocks.map _) bid = _
    rw [findBlock_map_if s.blocks tgt bid (fun b => { b with parent := some nm })]
    rw [if_neg h]
    rfl

theorem getBlock_push_back_none (s : CGState) (fn : Option String) (tgt bid : Nat)
    (h : s.getBlock bid = none) : (s.push_back fn tgt).getBlock bid = none := by
  cases fn with
  | none => exact h
  | some nm =>
    show findBlock (s.blocks.map _) bid = _
    rw [findBlock_map_if s.blocks tgt bid (fun b => { b with parent := some nm })]
    split
    · show (CGState.getBlock s bid).map _ = none
      rw [h]
      rfl
    · exact h

theorem stmtRelN_push_back (n : Nat) (s : CGState) (fn : Option String) (tgt : Nat)
    (hn : n ≤ tgt) : stmtRelN n s (s.push_back fn tgt) := by
  cases fn with
  | none => exact stmtRelN_refl n s
  | some nm =>
    refine ⟨Nat.le_refl _, .inl rfl, retsIn_push_back s (some nm) tgt, ?_, ?_⟩
    · intro bid hbn hip hdet
      refine ⟨getBlock_push_back_ne s (some nm) tgt bid (by omega), ?_⟩
      intro f' hf'
      show bid ∉ f'.basic_blocks
      rcases mem_updateFunc hf' with hmem | ⟨f0, hf0, he⟩
      · exact hdet f' hmem
      · rw [he]
        simp only [List.mem_append, List.mem_singleton]
        push_neg
        exact ⟨hdet f0 hf0, by omega⟩
    · intro hwf
      exact ⟨hwf.1, fun bid hb =>
        getBlock_push_back_none s (some nm) tgt bid (hwf.2 bid hb)⟩

theorem stmtRelN_setInsertPoint (n : Nat) (s : CGState) (tgt : Nat)
    (h : tgt = s.insertPt ∨ n ≤ tgt) (hlt : tgt < s.nextBlock) :
    stmtRelN n s (s.setInsertPoint tgt) := by
  refine ⟨Nat.le_refl _, ?_, fun _ => rfl, ?_, ?_⟩
  · exact h
  · intro bid hbn hip hdet
    exact ⟨rfl, hdet⟩
  · intro hwf
    exact ⟨hlt, hwf.2⟩

/-- First function found is a member of the list. -/
theorem findFunc_mem {l : List LFunction} {nm : String} {f : LFunction}
    (h : findFunc l nm = some f) : f ∈ l := by
  induction l with
  | nil => simp [findFunc] at h
  | cons g rest ih =>
    unfold findFunc at h
    by_cases hg : g.name = nm
    · rw [if_pos hg] at h
      cases h
      exact List.mem_cons_self _ _
    · rw [if_neg hg] at h
      exact List.mem_cons_of_mem g (ih h)

theorem stmtRelN_alloca (n : Nat) (s : CGState) (fn : Option String)
    (nm : String) (ty : LType) :
    stmtRelN n s (create_entry_block_alloca s fn nm ty).2 := by
  unfold create_entry_block_alloca
  cases fn with
  | none => exact stmtRelN_freshVal n s
  | some fname =>
    cases hf : s.freshVal.2.getFunction fname with
    | none => simp only [hf]; exact stmtRelN_freshVal n s
    | some f =>
      simp only [hf]
      cases hh : f.basic_blocks.head? with
      | none => simp only [hh]; exact stmtRelN_freshVal n s
      | some entry =>
        simp only [hh]
        refine stmtRelN_trans (stmtRelN_freshVal n s) ?_
        have hmem : entry ∈ f.basic_blocks := by
          cases hbb : f.basic_blocks with
          | nil => rw [hbb] at hh; simp at hh
          | cons b bs =>
            rw [hbb] at hh
            simp only [List.head?_cons, Option.some.injEq] at hh
            rw [hh]
            exact List.mem_cons_self _ _
        refine ⟨Nat.le_refl _, .inl rfl,
          retsIn_prependToBlock _ entry _ rfl, ?_, ?_⟩
        · intro bid hbn hip hdet
          have hne : ¬ bid = entry := by
            intro he
            exact hdet f (findFunc_mem hf) (he ▸ hmem)
          rw [getBlock_prependToBlock, if_neg hne]
          exact ⟨rfl, hdet⟩
        · intro hwf
          refine ⟨hwf.1, ?_⟩
          intro bid hb
          rw [getBlock_prependToBlock]
          split
          · show (CGState.getBlock _ bid).map _ = none
            rw [hwf.2 bid hb]
            rfl
          · exact hwf.2 bid hb

theorem exprRel_refl (s : CGState) : exprRel s s :=
  ⟨rfl, rfl, rfl, fun _ _ => rfl, fun _ => rfl, id⟩

theorem exprRel_trans {s₁ s₂ s₃ : CGState} (h1 : exprRel s₁ s₂) (h2 : exprRel s₂ s₃) :
    exprRel s₁ s₃ where
  insertPt_eq := h2.insertPt_eq.trans h1.insertPt_eq
  nextBlock_eq := h2.nextBlock_eq.trans h1.nextBlock_eq
  functions_eq := h2.functions_eq.trans h1.functions_eq
  getBlock_other bid hb := by
    rw [h2.getBlock_other bid (h1.insertPt_eq ▸ hb), h1.getBlock_other bid hb]
  rets_eq bid := (h2.rets_eq bid).trans (h1.rets_eq bid)
  term_none h := h2.term_none (h1.term_none h)

theorem exprRel_appendInstr (s : CGState) (i : Instr) :
    exprRel s (s.appendToCurrent (.instr i)) where
  insertPt_eq := rfl
  nextBlock_eq := rfl
  functions_eq := rfl
  getBlock_other bid h := by rw [getBlock_appendToCurrent]; exact if_neg h
  rets_eq bid := retsIn_appendToCurrent s (.instr i) rfl bid
  term_none _ := currentTerminator_appendInstr s i

theorem exprRel_freshVal (s : CGState) : exprRel s s.freshVal.2 :=
  ⟨rfl, rfl, rfl, fun _ _ => rfl, fun _ => rfl, id⟩

theorem exprRel_CreateStore (s : CGState) (v p : Value) :
    exprRel s (s.CreateStore v p) :=
  exprRel_appendInstr s _

theorem exprRel_CreateLoad (s : CGState) (ty : LType) (p : Value) :
    exprRel s (s.CreateLoad ty p).2 :=
  exprRel_trans (exprRel_freshVal s) (exprRel_appendInstr _ _)

theorem exprRel_CreateBinOp (s : CGState) (op : BinArith) (a b : Value) :
    exprRel s (s.CreateBinOp op a b).2 :=
  exprRel_trans (exprRel_freshVal s) (exprRel_appendInstr _ _)

theorem exprRel_CreateICmp (s : CGState) (p : ICmpPred) (a b : Value) :
    exprRel s (s.CreateICmp p a b).2 :=
  exprRel_trans (exprRel_freshVal s) (exprRel_appendInstr _ _)

theorem exprRel_CreateIntCast (s : CGState) (v : Value) (ty : LType) (sg : Bool) :
    exprRel s (s.CreateIntCast v ty sg).2 :=
  exprRel_trans (exprRel_freshVal s) (exprRel_appendInstr _ _)

theorem exprRel_i1_to_boolean (s : CGState) (v : Value) :
    exprRel s (s.i1_to_boolean v).2 :=
  exprRel_CreateIntCast s v _ _

theorem exprRel_CreateCall (s : CGState) (f : LFunction) (args : List Value) :
    exprRel s (s.CreateCall f args).2 :=
  exprRel_trans (exprRel_freshVal s) (exprRel_appendInstr _ _)

theorem exprRel_CreateGlobalStringPtr (s : CGState) (str : String) :
    exprRel s (s.CreateGlobalStringPtr str).2 :=
  exprRel_freshVal s

theorem exprRel_i1_eq {s : CGState} {c v : Value} {s' : CGState}
    (he : s.i1_to_boolean c = (v, s')) : exprRel s s' := by
  have h2 : (s.i1_to_boolean c).2 = s' := by rw [he]
  rw [← h2]; exact exprRel_i1_to_boolean s c

theorem exprRel_gsp_eq {s : CGState} {str : String} {v : Value} {s' : CGState}
    (he : s.CreateGlobalStringPtr str = (v, s')) : exprRel s s' := by
  have h2 : (s.CreateGlobalStringPtr str).2 = s' := by rw [he]
  rw [← h2]; exact exprRel_CreateGlobalStringPtr s str

theorem exprRel_binop_eq {s₀ s₁ : CGState} {op : BinArith} {a b v : Value}
    {s₂ : CGState} (h : exprRel s₀ s₁) (he : s₁.CreateBinOp op a b = (v, s₂)) :
    exprRel s₀ s₂ := by
  have h2 : (s₁.CreateBinOp op a b).2 = s₂ := by rw [he]
  rw [← h2]; exact exprRel_trans h (exprRel_CreateBinOp s₁ op a b)

theorem exprRel_load_eq {s₀ s₁ : CGState} {ty : LType} {p v : Value}
    {s₂ : CGState} (h : exprRel s₀ s₁) (he : s₁.CreateLoad ty p = (v, s₂)) :
    exprRel s₀ s₂ := by
  have h2 : (s₁.CreateLoad ty p).2 = s₂ := by rw [he]
  rw [← h2]; exact exprRel_trans h (exprRel_CreateLoad s₁ ty p)

theorem exprRel_cast_eq {s₀ s₁ : CGState} {w : Value} {ty : LType} {sg : Bool}
    {v : Value} {s₂ : CGState} (h : exprRel s₀ s₁)
    (he : s₁.CreateIntCast w ty sg = (v, s₂)) : exprRel s₀ s₂ := by
  have h2 : (s₁.CreateIntCast w ty sg).2 = s₂ := by rw [he]
  rw [← h2]; exact exprRel_trans h (exprRel_CreateIntCast s₁ w ty sg)

theorem exprRel_call_eq {s₀ s₁ : CGState} {f : LFunction} {args : List Value}
    {v : Value} {s₂ : CGState} (h : exprRel s₀ s₁)
    (he : s₁.CreateCall f args = (v, s₂)) : exprRel s₀ s₂ := by
  have h2 : (s₁.CreateCall f args).2 = s₂ := by rw [he]
  rw [← h2]; exact exprRel_trans h (exprRel_CreateCall s₁ f args)

theorem exprRel_icmp_bool_eq {s₀ s₁ : CGState} {p : ICmpPred} {a b v : Value}
    {s₂ : CGState} {v₂ : Value} {s₃ : CGState} (h : exprRel s₀ s₁)
    (he : s₁.CreateICmp p a b = (v, s₂)) (hb : s₂.i1_to_boolean v = (v₂, s₃)) :
    exprRel s₀ s₃ := by
  refine exprRel_trans (exprRel_trans h ?_) (exprRel_i1_eq hb)
  have h2 : (s₁.CreateICmp p a b).2 = s₂ := by rw [he]
  rw [← h2]; exact exprRel_CreateICmp s₁ p a b

set_option maxHeartbeats 4000000 in
theorem expr_args_rel :
    (∀ (e : expression) (scope : symbol_table) (s : CGState),
        exprRel s (expression_visitor e scope s).2) ∧
    (∀ (callee : String) (args : List expression) (scope : symbol_table) (s : CGState),
        exprRel s (codegen_call_args callee args scope s).2) := by
  apply @expression_visitor.mutual_induct
    (fun e scope s => exprRel s (expression_visitor e scope s).2)
    (fun callee args scope s => exprRel s (codegen_call_args callee args scope s).2)
  all_goals intros
  all_goals try simp_all only [expression_visitor, codegen_call_args]
  all_goals try first
    | assumption
    | exact exprRel_refl _
    | exact exprRel_i1_eq (by assumption)
    | exact exprRel_gsp_eq (by assumption)
    | exact exprRel_binop_eq (by assumption) (by assumption)
    | exact exprRel_binop_eq (exprRel_refl _) (by assumption)
    | exact exprRel_load_eq (by assumption) (by assumption)
    | exact exprRel_load_eq (exprRel_refl _) (by assumption)
    | exact exprRel_cast_eq (by assumption) (by assumption)
    | exact exprRel_call_eq (by assumption) (by assumption)
    | exact exprRel_icmp_bool_eq (by assumption) (by assumption) (by assumption)
    | exact exprRel_trans (by assumption) (by assumption)

  -- assignment branch: right-hand side failed
  case case12 =>
    rename_i hguard name e s1 heq ih
    rw [expression_visitor.eq_def]
    simp only [hguard, heq, if_true]
    simpa [heq] using ih
  -- assignment branch: right-hand side was null
  case case13 =>
    rename_i hguard name s1 heq ih
    rw [expression_visitor.eq_def]
    simp only [hguard, heq, if_true]
    simpa [heq] using ih
  -- assignment branch: read-only variable
  case case15 =>
    rename_i hguard name rhs_v s1 heq hnull vinfo hfind hmut ih
    rw [expression_visitor.eq_def]
    simp only [hguard, heq, hnull, hfind, hmut, if_true, if_false, reduceIte]
    simpa [heq] using ih
  -- assignment branch: the full store/load chain of a mutable binding
  case case16 =>
    rename_i op rhs_e hguard name rhs_v s1 heq hnull vinfo hfind hmut s2 v s3 hld1
      s4 s5 s6 s7 s8 v2 s9 hld2 ih
    clear hld1 hld2
    rw [expression_visitor.eq_def]
    simp only [hguard, heq, hnull, hfind, hmut, if_true, if_false, reduceIte]
    rw [heq] at ih
    generalize h1g : (if (op == "=") = true then s1.CreateStore rhs_v vinfo.inst.toValue else s1) = t1
    generalize h2g : t1.CreateLoad vinfo.inst.allocatedType vinfo.inst.toValue = p
    generalize h3g : p.2.CreateBinOp BinArith.add p.1 rhs_v = q1
    generalize h4g : (if (op == "+=") = true then q1.2.CreateStore q1.1 vinfo.inst.toValue else p.2) = t2
    generalize h5g : t2.CreateBinOp BinArith.sub p.1 rhs_v = q2
    generalize h6g : (if (op == "-=") = true then q2.2.CreateStore q2.1 vinfo.inst.toValue else t2) = t3
    generalize h7g : t3.CreateBinOp BinArith.mul p.1 rhs_v = q3
    generalize h8g : (if (op == "*=") = true then q3.2.CreateStore q3.1 vinfo.inst.toValue else t3) = t4
    generalize h9g : t4.CreateBinOp (if vinfo.is_signed = true then BinArith.sdiv else BinArith.udiv) p.1 rhs_v = q4
    generalize h10g : (if (op == "/=") = true then q4.2.CreateStore q4.1 vinfo.inst.toValue else t4) = t5
    generalize h11g : t5.CreateBinOp (if vinfo.is_signed = true then BinArith.srem else BinArith.urem) p.1 rhs_v = q5
    generalize h12g : (if (op == "%=") = true then q5.2.CreateStore q5.1 vinfo.inst.toValue else t5) = t6
    generalize h13g : t6.CreateLoad vinfo.inst.allocatedType vinfo.inst.toValue = r
    have a1 : exprRel s1 t1 := by
      rw [← h1g]; split
      · exact exprRel_CreateStore _ _ _
      · exact exprRel_refl _
    have a2 : exprRel t1 p.2 := by
      rw [← h2g]; exact exprRel_CreateLoad _ _ _
    have a3 : exprRel p.2 t2 := by
      rw [← h4g]; split
      · rw [← h3g]
        exact exprRel_trans (exprRel_CreateBinOp _ _ _ _) (exprRel_CreateStore _ _ _)
      · exact exprRel_refl _
    have a4 : exprRel t2 t3 := by
      rw [← h6g]; split
      · rw [← h5g]
        exact exprRel_trans (exprRel_CreateBinOp _ _ _ _) (exprRel_CreateStore _ _ _)
      · exact exprRel_refl _
    have a5 : exprRel t3 t4 := by
      rw [← h8g]; split
      · rw [← h7g]
        exact exprRel_trans (exprRel_CreateBinOp _ _ _ _) (exprRel_CreateStore _ _ _)
      · exact exprRel_refl _
    have a6 : exprRel t4 t5 := by
      rw [← h10g]; split
      · rw [← h9g]
        exact exprRel_trans (exprRel_CreateBinOp _ _ _ _) (exprRel_CreateStore _ _ _)
      · exact exprRel_refl _
    have a7 : exprRel t5 t6 := by
      rw [← h12g]; split
      · rw [← h11g]
        exact exprRel_trans (exprRel_CreateBinOp _ _ _ _) (exprRel_CreateStore _ _ _)
      · exact exprRel_refl _
    have a8 : exprRel t6 r.2 := by
      rw [← h13g]; exact exprRel_CreateLoad _ _ _
    exact exprRel_trans ih (exprRel_trans a1 (exprRel_trans a2 (exprRel_trans a3
      (exprRel_trans a4 (exprRel_trans a5 (exprRel_trans a6 (exprRel_trans a7 a8)))))))
  -- assignment branch: the left-hand side was not a variable reference
  case case17 =>
    rename_i hguard x hnotvar
    rw [expression_visitor.eq_def]
    simp only [hguard, if_true]
    cases x <;> first
      | exact (hnotvar _ rfl).elim
      | exact exprRel_refl _
  -- plain branch: left operand failed
  case case18 =>
    rename_i hng e s1 heq ih
    rw [expression_visitor.eq_def]
    simp only [hng, heq, if_false, reduceIte]
    simpa [heq] using ih
  -- plain branch: right operand failed
  case case19 =>
    rename_i hng lv s1 heqL e s2 heqR ihL ihR
    rw [expression_visitor.eq_def]
    simp only [hng, heqL, heqR, if_false, reduceIte]
    exact exprRel_trans (by simpa [heqL] using ihL) (by simpa [heqR] using ihR)
  -- plain branch: left value was null
  case case20 =>
    rename_i hng s1 rv s2 heqR heqL ihL ihR
    rw [expression_visitor.eq_def]
    simp only [hng, heqL, heqR, if_false, reduceIte]
    exact exprRel_trans (by simpa [heqL] using ihL) (by simpa [heqR] using ihR)
  -- plain branch: right value was null
  case case21 =>
    rename_i hng lv s1 heqL s2 hnl heqR ihL ihR
    rw [expression_visitor.eq_def]
    simp only [hng, heqL, heqR, hnl, if_false, reduceIte]
    exact exprRel_trans (by simpa [heqL] using ihL) (by simpa [heqR] using ihR)
  case case22 =>
    rename_i hng lv s1 heqL rv s2 heqR hnl hnr hop v s3 hbo ihL ihR
    rw [expression_visitor.eq_def]
    simp only [hng, heqL, heqR, hnl, hnr, hop, if_false, if_true, reduceIte]
    exact exprRel_trans (exprRel_trans (by simpa [heqL] using ihL) (by simpa [heqR] using ihR)) (exprRel_CreateBinOp _ _ _ _)
  case case23 =>
    rename_i hng lv s1 heqL rv s2 heqR hnl hnr hn1 hop v s3 hbo ihL ihR
    rw [expression_visitor.eq_def]
    simp only [hng, heqL, heqR, hnl, hnr, hn1, hop, if_false, if_true, reduceIte]
    exact exprRel_trans (exprRel_trans (by simpa [heqL] using ihL) (by simpa [heqR] using ihR)) (exprRel_CreateBinOp _ _ _ _)
  case case24 =>
    rename_i hng lv s1 heqL rv s2 heqR hnl hnr hn1 hn2 hop v s3 hbo ihL ihR
    rw [expression_visitor.eq_def]
    simp only [hng, heqL, heqR, hnl, hnr, hn1, hn2, hop, if_false, if_true, reduceIte]
    exact exprRel_trans (exprRel_trans (by simpa [heqL] using ihL) (by simpa [heqR] using ihR)) (exprRel_CreateBinOp _ _ _ _)
  case case25 =>
    rename_i hng lv s1 heqL rv s2 heqR hnl hnr hn1 hn2 hn3 hop v s3 hbo ihL ihR
    rw [expression_visitor.eq_def]
    simp only [hng, heqL, heqR, hnl, hnr, hn1, hn2, hn3, hop, if_false, if_true, reduceIte]
    exact exprRel_trans (exprRel_trans (by simpa [heqL] using ihL) (by simpa [heqR] using ihR)) (exprRel_CreateBinOp _ _ _ _)
  case case26 =>
    rename_i hng lv s1 heqL rv s2 heqR hnl hnr hn1 hn2 hn3 hn4 hop v s3 hbo ihL ihR
    rw [expression_visitor.eq_def]
    simp only [hng, heqL, heqR, hnl, hnr, hn1, hn2, hn3, hn4, hop, if_false, if_true, reduceIte]
    exact exprRel_trans (exprRel_trans (by simpa [heqL] using ihL) (by simpa [heqR] using ihR)) (exprRel_CreateBinOp _ _ _ _)
  case case27 =>
    rename_i hng lv s1 heqL rv s2 heqR hnl hnr hn1 hn2 hn3 hn4 hn5 hop v s3 hic v2 s4 hib ihL ihR
    rw [expression_visitor.eq_def]
    simp only [hng, heqL, heqR, hnl, hnr, hn1, hn2, hn3, hn4, hn5, hop, if_false, if_true, reduceIte]
    exact exprRel_trans (exprRel_trans (by simpa [heqL] using ihL) (by simpa [heqR] using ihR)) (exprRel_trans (exprRel_CreateICmp _ _ _ _) (exprRel_i1_to_boolean _ _))
  case case28 =>
    rename_i hng lv s1 heqL rv s2 heqR hnl hnr hn1 hn2 hn3 hn4 hn5 hn6 hop v s3 hic v2 s4 hib ihL ihR
    rw [expression_visitor.eq_def]
    simp only [hng, heqL, heqR, hnl, hnr, hn1, hn2, hn3, hn4, hn5, hn6, hop, if_false, if_true, reduceIte]
    exact exprRel_trans (exprRel_trans (by simpa [heqL] using ihL) (by simpa [heqR] using ihR)) (exprRel_trans (exprRel_CreateICmp _ _ _ _) (exprRel_i1_to_boolean _ _))
  case case29 =>
    rename_i hng lv s1 heqL rv s2 heqR hnl hnr hn1 hn2 hn3 hn4 hn5 hn6 hn7 hop v s3 hic v2 s4 hib ihL ihR
    rw [expression_visitor.eq_def]
    simp only [hng, heqL, heqR, hnl, hnr, hn1, hn2, hn3, hn4, hn5, hn6, hn7, hop, if_false, if_true, reduceIte]
    exact exprRel_trans (exprRel_trans (by simpa [heqL] using ihL) (by simpa [heqR] using ihR)) (exprRel_trans (exprRel_CreateICmp _ _ _ _) (exprRel_i1_to_boolean _ _))
  case case30 =>
    rename_i hng lv s1 heqL rv s2 heqR hnl hnr hn1 hn2 hn3 hn4 hn5 hn6 hn7 hn8 hop v s3 hic v2 s4 hib ihL ihR
    rw [expression_visitor.eq_def]
    simp only [hng, heqL, heqR, hnl, hnr, hn1, hn2, hn3, hn4, hn5, hn6, hn7, hn8, hop, if_false, if_true, reduceIte]
    exact exprRel_trans (exprRel_trans (by simpa [heqL] using ihL) (by simpa [heqR] using ihR)) (exprRel_trans (exprRel_CreateICmp _ _ _ _) (exprRel_i1_to_boolean _ _))
  case case31 =>
    rename_i hng lv s1 heqL rv s2 heqR hnl hnr hn1 hn2 hn3 hn4 hn5 hn6 hn7 hn8 hn9 hop v s3 hic v2 s4 hib ihL ihR
    rw [expression_visitor.eq_def]
    simp only [hng, heqL, heqR, hnl, hnr, hn1, hn2, hn3, hn4, hn5, hn6, hn7, hn8, hn9, hop, if_false, if_true, reduceIte]
    exact exprRel_trans (exprRel_trans (by simpa [heqL] using ihL) (by simpa [heqR] using ihR)) (exprRel_trans (exprRel_CreateICmp _ _ _ _) (exprRel_i1_to_boolean _ _))
  case case32 =>
    rename_i hng lv s1 heqL rv s2 heqR hnl hnr hn1 hn2 hn3 hn4 hn5 hn6 hn7 hn8 hn9 hn10 hop v s3 hic v2 s4 hib ihL ihR
    rw [expression_visitor.eq_def]
    simp only [hng, heqL, heqR, hnl, hnr, hn1, hn2, hn3, hn4, hn5, hn6, hn7, hn8, hn9, hn10, hop, if_false, if_true, reduceIte]
    exact exprRel_trans (exprRel_trans (by simpa [heqL] using ihL) (by simpa [heqR] using ihR)) (exprRel_trans (exprRel_CreateICmp _ _ _ _) (exprRel_i1_to_boolean _ _))
  case case33 =>
    rename_i hng lv s1 heqL rv s2 heqR hnl hnr hn1 hn2 hn3 hn4 hn5 hn6 hn7 hn8 hn9 hn10 hn11 ihL ihR
    rw [expression_visitor.eq_def]
    simp only [hng, heqL, heqR, hnl, hnr, hn1, hn2, hn3, hn4, hn5, hn6, hn7, hn8, hn9, hn10, hn11, if_false, if_true, reduceIte]
    exact exprRel_trans (by simpa [heqL] using ihL) (by simpa [heqR] using ihR)
  case case37 =>
    rename_i f hf hcond
    rw [if_pos ⟨trivial, hcond.2⟩]
    exact exprRel_refl _

theorem stmtRelN_expr (n : Nat) (e : expression) (scope : symbol_table)
    {s s' : CGState} {r : Except CodegenErr Value}
    (hx : expression_visitor e scope s = (r, s')) : stmtRelN n s s' := by
  have h := stmtRelN_of_exprRel n (expr_args_rel.1 e scope s)
  rw [hx] at h
  exact h

theorem stmtRelN_icmp (n : Nat) {s : CGState} {p : ICmpPred} {a b v : Value}
    {s' : CGState} (hx : s.CreateICmp p a b = (v, s')) : stmtRelN n s s' := by
  have h := stmtRelN_of_exprRel n (exprRel_CreateICmp s p a b)
  rw [hx] at h
  exact h

theorem stmtRelN_createBlock_eq (n : Nat) {s : CGState} {p : Option String}
    {id : Nat} {s' : CGState} (hx : s.createBlock p = (id, s'))
    (hn : n ≤ s.nextBlock) (hwf : wfPool s) :
    stmtRelN n s s' ∧ id = s.nextBlock ∧ s'.nextBlock = s.nextBlock + 1
      ∧ s'.insertPt = s.insertPt := by
  refine ⟨?_, ?_, ?_, ?_⟩
  · have h := stmtRelN_createBlock n s p hn hwf
    rw [hx] at h
    exact h
  · exact (congrArg Prod.fst hx).symm
  · exact (show s.nextBlock + 1 = s'.nextBlock from
      congrArg (fun q => CGState.nextBlock q.2) hx).symm
  · exact (show s.insertPt = s'.insertPt from
      congrArg (fun q => CGState.insertPt q.2) hx).symm

theorem alloca_nextBlock (s : CGState) (fn : Option String) (nm : String) (ty : LType) :
    (create_entry_block_alloca s fn nm ty).2.nextBlock = s.nextBlock := by
  unfold create_entry_block_alloca
  cases fn with
  | none => rfl
  | some f =>
    cases hf : s.freshVal.2.getFunction f with
    | none =>
      simp only [hf]
      rfl
    | some g =>
      simp only [hf]
      cases hh : g.basic_blocks.head? with
      | none =>
        simp only [hh]
        rfl
      | some e =>
        simp only [hh]
        rfl

theorem alloca_insertPt (s : CGState) (fn : Option String) (nm : String) (ty : LType) :
    (create_entry_block_alloca s fn nm ty).2.insertPt = s.insertPt := by
  unfold create_entry_block_alloca
  cases fn with
  | none => rfl
  | some f =>
    cases hf : s.freshVal.2.getFunction f with
    | none =>
      simp only [hf]
      rfl
    | some g =>
      simp only [hf]
      cases hh : g.basic_blocks.head? with
      | none =>
        simp only [hh]
        rfl
      | some e =>
        simp only [hh]
        rfl

theorem stmtRelN_alloca_eq (n : Nat) {s : CGState} {fn : Option String}
    {nm : String} {ty : LType} {inst : AllocaInst} {s' : CGState}
    (hx : create_entry_block_alloca s fn nm ty = (inst, s')) :
    stmtRelN n s s' ∧ s'.nextBlock = s.nextBlock ∧ s'.insertPt = s.insertPt := by
  refine ⟨?_, ?_, ?_⟩
  · have h := stmtRelN_alloca n s fn nm ty
    rw [hx] at h
    exact h
  · have h : (create_entry_block_alloca s fn nm ty).2.nextBlock = s'.nextBlock :=
      congrArg (fun q => CGState.nextBlock q.2) hx
    rw [alloca_nextBlock] at h
    exact h.symm
  · have h : (create_entry_block_alloca s fn nm ty).2.insertPt = s'.insertPt :=
      congrArg (fun q => CGState.insertPt q.2) hx
    rw [alloca_insertPt] at h
    exact h.symm

theorem optExprStep_rel (n : Nat) (oe : Option expression) (scope : symbol_table)
    (s : CGState) (err : CodegenErr) {r : Except CodegenErr Unit} {s' : CGState}
    (hx : (match oe with
      | some ie =>
        match expression_visitor ie scope s with
        | (Except.error e, s) => ((Except.error e : Except CodegenErr Unit), s)
        | (Except.ok v, s) =>
          if v = Value.null then (Except.error err, s)
          else (Except.ok (), s)
      | none => ((Except.ok () : Except CodegenErr Unit), s)) = (r, s')) :
    stmtRelN n s s' := by
  cases oe with
  | none =>
    have h2 : s = s' := congrArg Prod.snd hx
    rw [← h2]
    exact stmtRelN_refl n s
  | some ie =>
    cases hie : expression_visitor ie scope s with
    | mk rr s2 =>
      simp only [hie] at hx
      cases rr with
      | error e =>
        have h2 : s2 = s' := congrArg Prod.snd hx
        rw [← h2]
        exact stmtRelN_expr n ie scope hie
      | ok v =>
        by_cases hv : v = Value.null
        · simp only [hv, reduceIte] at hx
          have h2 : s2 = s' := congrArg Prod.snd hx
          rw [← h2]
          exact stmtRelN_expr n ie scope hie
        · simp only [if_neg hv] at hx
          have h2 : s2 = s' := congrArg Prod.snd hx
          rw [← h2]
          exact stmtRelN_expr n ie scope hie

theorem condStep_rel (n : Nat) (oc : Option expression) (scope : symbol_table)
    (s : CGState) (bb fb : Nat) {r : Except CodegenErr Unit} {s' : CGState}
    (hx : (match oc with
      | some ce =>
        match expression_visitor ce scope s with
        | (Except.error e, s) => ((Except.error e : Except CodegenErr Unit), s)
        | (Except.ok v, s) =>
          if v = Value.null then
            (Except.error CodegenErr.failed_to_generate_condition, s)
          else
            match s.CreateICmp ICmpPred.ne v (Value.constInt (LType.int 8) 0) with
            | (cond, s) => (Except.ok (), s.CreateCondBr cond bb fb)
      | none => ((Except.ok () : Except CodegenErr Unit),
          s.CreateCondBr (Value.constInt (LType.int 1) 1) bb fb)) = (r, s')) :
    stmtRelN n s s' := by
  cases oc with
  | none =>
    have h2 : s.CreateCondBr (Value.constInt (LType.int 1) 1) bb fb = s' :=
      congrArg Prod.snd hx
    rw [← h2]
    exact stmtRelN_append n s _ rfl
  | some ce =>
    cases hie : expression_visitor ce scope s with
    | mk rr s2 =>
      simp only [hie] at hx
      cases rr with
      | error e =>
        have h2 : s2 = s' := congrArg Prod.snd hx
        rw [← h2]
        exact stmtRelN_expr n ce scope hie
      | ok v =>
        by_cases hv : v = Value.null
        · simp only [hv, reduceIte] at hx
          have h2 : s2 = s' := congrArg Prod.snd hx
          rw [← h2]
          exact stmtRelN_expr n ce scope hie
        · simp only [if_neg hv] at hx
          cases hic : s2.CreateICmp ICmpPred.ne v (Value.constInt (LType.int 8) 0) with
          | mk cnd s3 =>
            simp only [hic] at hx
            have h2 : s3.CreateCondBr cnd bb fb = s' := congrArg Prod.snd hx
            rw [← h2]
            exact stmtRelN_trans (stmtRelN_expr n ce scope hie)
              (stmtRelN_trans (stmtRelN_icmp n hic) (stmtRelN_append n s3 _ rfl))

theorem push_back_nextBlock (s : CGState) (fn : Option String) (tgt : Nat) :
    (s.push_back fn tgt).nextBlock = s.nextBlock := by
  cases fn <;> rfl

set_option maxHeartbeats 4000000 in
theorem stmt_rel_all :
    (∀ (st : statement) (scope : symbol_table) (ctx : stmt_context) (s : CGState),
        ∀ n, n ≤ s.nextBlock → wfPool s →
          stmtRelN n s (statement_visitor st scope ctx s).2) ∧
    (∀ (os : Option statement) (scope : symbol_table) (ctx : stmt_context) (s : CGState),
        ∀ n, n ≤ s.nextBlock → wfPool s →
          stmtRelN n s (else_visitor os scope ctx s).2) ∧
    (∀ (stmts : List statement) (scope : symbol_table) (ctx : stmt_context) (s : CGState),
        ∀ n, n ≤ s.nextBlock → wfPool s →
          stmtRelN n s (codegen_statement_list stmts scope ctx s).2) := by
  apply @statement_visitor.mutual_induct
    (fun st scope ctx s => ∀ n, n ≤ s.nextBlock → wfPool s →
      stmtRelN n s (statement_visitor st scope ctx s).2)
    (fun os scope ctx s => ∀ n, n ≤ s.nextBlock → wfPool s →
      stmtRelN n s (else_visitor os scope ctx s).2)
    (fun stmts scope ctx s => ∀ n, n ≤ s.nextBlock → wfPool s →
      stmtRelN n s (codegen_statement_list stmts scope ctx s).2)
  all_goals intros
  case case1 =>
    rename_i scope ctx s0 n hn hwf
    rw [statement_visitor.eq_def]
    exact stmtRelN_refl n s0
  case case2 =>
    rename_i scope ctx s0 sts e s1 hls ih n hn hwf
    have h := ih n hn hwf
    rw [hls] at h
    rw [statement_visitor.eq_def]
    simp only [hls]
    exact h
  case case3 =>
    rename_i scope ctx s0 sts u s1 hls ih n hn hwf
    have h := ih n hn hwf
    rw [hls] at h
    rw [statement_visitor.eq_def]
    simp only [hls]
    exact h
  case case4 =>
    rename_i scope ctx s0 e0 er s1 hx n hn hwf
    rw [statement_visitor.eq_def]
    simp only [hx]
    exact stmtRelN_expr n e0 scope hx
  case case5 =>
    rename_i scope ctx s0 e0 s1 hx n hn hwf
    rw [statement_visitor.eq_def]
    simp only [hx, reduceIte]
    exact stmtRelN_expr n e0 scope hx
  case case6 =>
    rename_i scope ctx s0 e0 v s1 hx hnv n hn hwf
    rw [statement_visitor.eq_def]
    simp only [hx]
    rw [if_neg hnv]
    exact stmtRelN_expr n e0 scope hx
  case case7 =>
    rename_i scope ctx s0 re er s1 hx n hn hwf
    rw [statement_visitor.eq_def]
    simp only [hx]
    exact stmtRelN_expr n re scope hx
  case case8 =>
    rename_i scope ctx s0 re v s1 hx hpf n hn hwf
    rw [statement_visitor.eq_def]
    simp only [hx, hpf]
    exact stmtRelN_expr n re scope hx
  case case9 =>
    rename_i scope ctx s0 re v s1 hx f hpf hty n hn hwf
    rw [statement_visitor.eq_def]
    simp only [hx, hpf]
    rw [if_pos hty]
    exact stmtRelN_expr n re scope hx
  case case10 =>
    rename_i scope ctx s0 re s1 f hpf hx hne n hn hwf
    rw [statement_visitor.eq_def]
    simp only [hx, hpf]
    rw [if_neg hne]
    simp only [reduceIte]
    exact stmtRelN_expr n re scope hx
  case case11 =>
    rename_i scope ctx s0 re v s1 hx f hpf hty hnv n hn hwf
    rw [statement_visitor.eq_def]
    simp only [hx, hpf]
    rw [if_neg hty, if_neg hnv]
    exact stmtRelN_trans (stmtRelN_expr n re scope hx)
      (stmtRelN_trans (stmtRelN_append n s1 (BItem.instr (Instr.store v _)) rfl)
        (stmtRelN_append n _ (BItem.term (Terminator.br _)) rfl))
  case case12 =>
    rename_i scope ctx s0 n hn hwf
    rw [statement_visitor.eq_def]
    exact stmtRelN_append n s0 _ rfl
  case case13 =>
    rename_i scope ctx s0 x t q init hex n hn hwf
    rw [statement_visitor.eq_def]
    simp only [hex, reduceIte, if_true]
    exact stmtRelN_refl n s0
  case case14 =>
    rename_i scope ctx s0 x t q init hex htt n hn hwf
    rw [statement_visitor.eq_def]
    simp only [hex, htt, reduceIte, if_false, Bool.false_eq_true]
    exact stmtRelN_refl n s0
  case case15 =>
    rename_i scope ctx s0 x t q hex fc asi htt inst s1 hal re er s2 hx n hn hwf
    have hal2 : create_entry_block_alloca s0 s0.parentName x asi.type = (inst, s1) := hal
    rw [statement_visitor.eq_def]
    simp only [hex, htt, reduceIte, if_false, Bool.false_eq_true, hal2, hx]
    exact stmtRelN_trans (stmtRelN_alloca_eq n hal2).1 (stmtRelN_expr n re scope hx)
  case case16 =>
    rename_i scope ctx s0 x t q hex fc asi htt inst s1 hal re s2 hx n hn hwf
    have hal2 : create_entry_block_alloca s0 s0.parentName x asi.type = (inst, s1) := hal
    rw [statement_visitor.eq_def]
    simp only [hex, htt, reduceIte, if_false, Bool.false_eq_true, hal2, hx]
    exact stmtRelN_trans (stmtRelN_alloca_eq n hal2).1 (stmtRelN_expr n re scope hx)
  case case17 =>
    rename_i scope ctx s0 x t hex fc asi htt inst s1 hal re v s2 hx hnv n hn hwf
    have hal2 : create_entry_block_alloca s0 s0.parentName x asi.type = (inst, s1) := hal
    rw [statement_visitor.eq_def]
    simp only [hex, htt, reduceIte, if_false, Bool.false_eq_true, hal2, hx]
    rw [if_neg hnv]
    exact stmtRelN_trans (stmtRelN_alloca_eq n hal2).1
      (stmtRelN_trans (stmtRelN_expr n re scope hx) (stmtRelN_append n s2 _ rfl))
  case case18 =>
    rename_i scope ctx s0 x t hex fc asi htt inst s1 hal re v s2 hx hnv n hn hwf
    have hal2 : create_entry_block_alloca s0 s0.parentName x asi.type = (inst, s1) := hal
    rw [statement_visitor.eq_def]
    simp only [hex, htt, reduceIte, if_false, Bool.false_eq_true, hal2, hx]
    rw [if_neg hnv]
    exact stmtRelN_trans (stmtRelN_alloca_eq n hal2).1
      (stmtRelN_trans (stmtRelN_expr n re scope hx) (stmtRelN_append n s2 _ rfl))
  case case19 =>
    rename_i scope ctx s0 x t hex fc asi htt inst s1 hal n hn hwf
    have hal2 : create_entry_block_alloca s0 s0.parentName x asi.type = (inst, s1) := hal
    rw [statement_visitor.eq_def]
    simp only [hex, htt, reduceIte, if_false, Bool.false_eq_true, hal2]
    exact (stmtRelN_alloca_eq n hal2).1
  case case20 =>
    rename_i scope ctx s0 x t hex fc asi htt inst s1 hal n hn hwf
    have hal2 : create_entry_block_alloca s0 s0.parentName x asi.type = (inst, s1) := hal
    rw [statement_visitor.eq_def]
    simp only [hex, htt, reduceIte, if_false, Bool.false_eq_true, hal2]
    exact (stmtRelN_alloca_eq n hal2).1
  case case21 =>
    rename_i scope ctx s0 ce th el er s1 hx n hn hwf
    rw [statement_visitor.eq_def]
    simp only [hx]
    exact stmtRelN_expr n ce scope hx
  case case22 =>
    rename_i scope ctx s0 ce th el s1 hx n hn hwf
    rw [statement_visitor.eq_def]
    simp only [hx, reduceIte]
    exact stmtRelN_expr n ce scope hx
  case case37 =>
    rename_i scope ctx s0 b hx n hn hwf
    rw [statement_visitor.eq_def]
    simp only [hx]
    exact stmtRelN_append n s0 _ rfl
  case case38 =>
    rename_i scope ctx s0 hx n hn hwf
    rw [statement_visitor.eq_def]
    simp only [hx]
    exact stmtRelN_refl n s0
  case case39 =>
    rename_i scope ctx s0 b hx n hn hwf
    rw [statement_visitor.eq_def]
    simp only [hx]
    exact stmtRelN_append n s0 _ rfl
  case case40 =>
    rename_i scope ctx s0 hx n hn hwf
    rw [statement_visitor.eq_def]
    simp only [hx]
    exact stmtRelN_refl n s0
  case case41 =>
    rename_i scope ctx s0 n hn hwf
    rw [codegen_statement_list.eq_def]
    exact stmtRelN_refl n s0
  case case42 =>
    rename_i scope ctx s0 st rest e s1 hx ih n hn hwf
    have h := ih n hn hwf
    rw [hx] at h
    rw [codegen_statement_list.eq_def]
    simp only [hx]
    exact h
  case case43 =>
    rename_i scope ctx s0 st rest scp2 s1 hx1 tm hct ih n hn hwf
    have h := ih n hn hwf
    rw [hx1] at h
    rw [codegen_statement_list.eq_def]
    simp only [hx1, hct]
    exact h
  case case44 =>
    rename_i scope ctx s0 st rest scp2 s1 hx1 hct ih2 ih1 n hn hwf
    have h := ih2 n hn hwf
    rw [hx1] at h
    have h2 := ih1 n (le_trans hn h.nextBlock_le) (h.wf_pres hwf)
    rw [codegen_statement_list.eq_def]
    simp only [hx1, hct]
    exact stmtRelN_trans h h2
  case case45 =>
    rename_i scope ctx s0 es ih n hn hwf
    rw [else_visitor.eq_def]
    exact ih n hn hwf
  case case46 =>
    rename_i scope ctx s0 n hn hwf
    rw [else_visitor.eq_def]
    exact stmtRelN_refl n s0
  case case32 =>
    rename_i scope ctx s1 oe1 oe2 oe3 body istep e sE hx n hn hwf
    simp only [statement_visitor]
    split
    next e1 st1 heq =>
      have h5 : istep = (Except.error e1, st1) := heq
      rw [hx] at h5
      injection h5 with h6 h7
      subst h7
      injection h6 with h8
      have hx2 : (match oe1 with
        | some ie =>
          match expression_visitor ie scope s1 with
          | (Except.error e, s) => ((Except.error e : Except CodegenErr Unit), s)
          | (Except.ok init_value, s) =>
            if init_value = Value.null then
              (Except.error CodegenErr.failed_to_generate_initialization, s)
            else (Except.ok (), s)
        | none => ((Except.ok () : Except CodegenErr Unit), s1)) = (Except.error e, sE) := hx
      exact optExprStep_rel n oe1 scope s1 CodegenErr.failed_to_generate_initialization hx2
    next a st1 heq =>
      have h5 : istep = (Except.ok a, st1) := heq
      rw [hx] at h5
      exact absurd h5 (by simp)
  case case23 =>
    rename_i scope ctx s8 ce th el v0 s7 hx5 hnv v s6 hx4 fc id2 s5 hx3 id1 s4 hx2 id0 s3 hx1 sCB sSI e s9 hx ih n hn hwf
    have hfc : fc = s6.parentName := rfl
    rw [hfc] at hx3
    have hsi : sSI = (s3.CreateCondBr v id2 id1).setInsertPoint id2 := rfl
    rw [hsi] at hx ih
    have r1 : stmtRelN n s8 s7 := stmtRelN_expr n ce scope hx5
    have r2 : stmtRelN n s8 s6 := stmtRelN_trans r1 (stmtRelN_icmp n hx4)
    obtain ⟨rc1, hid2, hnb5, hip5⟩ := stmtRelN_createBlock_eq n hx3
      (le_trans hn r2.nextBlock_le) (r2.wf_pres hwf)
    have r3 : stmtRelN n s8 s5 := stmtRelN_trans r2 rc1
    obtain ⟨rc2, hid1, hnb4, hip4⟩ := stmtRelN_createBlock_eq n hx2
      (le_trans hn r3.nextBlock_le) (r3.wf_pres hwf)
    have r4 : stmtRelN n s8 s4 := stmtRelN_trans r3 rc2
    obtain ⟨rc3, hid0, hnb3, hip3⟩ := stmtRelN_createBlock_eq n hx1
      (le_trans hn r4.nextBlock_le) (r4.wf_pres hwf)
    have r5 : stmtRelN n s8 s3 := stmtRelN_trans r4 rc3
    have r6 : stmtRelN n s8 (s3.CreateCondBr v id2 id1) :=
      stmtRelN_trans r5 (stmtRelN_append n s3 (BItem.term (Terminator.condBr v id2 id1)) rfl)
    have e1 : (s3.CreateCondBr v id2 id1).nextBlock = s3.nextBlock := rfl
    have hn6 : n ≤ s6.nextBlock := le_trans hn r2.nextBlock_le
    have r7 := stmtRelN_trans r6
      (stmtRelN_setInsertPoint n (s3.CreateCondBr v id2 id1) id2 (Or.inr (by omega)) (by omega))
    have hb := ih n (le_trans hn r7.nextBlock_le) (r7.wf_pres hwf)
    rw [hx] at hb
    simp only [statement_visitor, hx5]
    rw [if_neg hnv]
    simp only [hx4, hx3, hx2, hx1, hx]
    exact stmtRelN_trans r7 hb
  case case24 =>
    rename_i scope ctx s12 ce th el v0 s11 hx6 hnv v s10 hx5 fc id2 s9 hx4 id1 s8 hx3 id0 s7 hx2 sCB sSI scp2 s4b hx1 sM sPB sSI2 e sE hx ih2 ih1 n hn hwf
    have hfc : fc = s10.parentName := rfl
    rw [hfc] at hx4
    have hsi : sSI = (s7.CreateCondBr v id2 id1).setInsertPoint id2 := rfl
    rw [hsi] at hx1 ih2
    have r1 : stmtRelN n s12 s11 := stmtRelN_expr n ce scope hx6
    have r2 : stmtRelN n s12 s10 := stmtRelN_trans r1 (stmtRelN_icmp n hx5)
    obtain ⟨rc1, hid2, hnb9, hip9⟩ := stmtRelN_createBlock_eq n hx4
      (le_trans hn r2.nextBlock_le) (r2.wf_pres hwf)
    have r3 : stmtRelN n s12 s9 := stmtRelN_trans r2 rc1
    obtain ⟨rc2, hid1, hnb8, hip8⟩ := stmtRelN_createBlock_eq n hx3
      (le_trans hn r3.nextBlock_le) (r3.wf_pres hwf)
    have r4 : stmtRelN n s12 s8 := stmtRelN_trans r3 rc2
    obtain ⟨rc3, hid0, hnb7, hip7⟩ := stmtRelN_createBlock_eq n hx2
      (le_trans hn r4.nextBlock_le) (r4.wf_pres hwf)
    have r5 : stmtRelN n s12 s7 := stmtRelN_trans r4 rc3
    have r6 : stmtRelN n s12 (s7.CreateCondBr v id2 id1) :=
      stmtRelN_trans r5 (stmtRelN_append n s7 (BItem.term (Terminator.condBr v id2 id1)) rfl)
    have e1 : (s7.CreateCondBr v id2 id1).nextBlock = s7.nextBlock := rfl
    have hn10 : n ≤ s10.nextBlock := le_trans hn r2.nextBlock_le
    have r7 := stmtRelN_trans r6
      (stmtRelN_setInsertPoint n (s7.CreateCondBr v id2 id1) id2 (Or.inr (by omega)) (by omega))
    have hb := ih2 n (le_trans hn r7.nextBlock_le) (r7.wf_pres hwf)
    rw [hx1] at hb
    have r8 := stmtRelN_trans r7 hb
    have e2 : ((s7.CreateCondBr v id2 id1).setInsertPoint id2).nextBlock = s7.nextBlock := rfl
    have hble : ((s7.CreateCondBr v id2 id1).setInsertPoint id2).nextBlock ≤ s4b.nextBlock :=
      hb.nextBlock_le
    cases hct : s4b.currentTerminator with
    | none =>
      have hpb : sSI2 = ((s4b.CreateBr id0).push_back s10.parentName id1).setInsertPoint id1 := by
        have hsm : sM = (match s4b.currentTerminator with
          | none => s4b.CreateBr id0
          | some t => s4b) := rfl
        rw [hct] at hsm
        show (sM.push_back fc id1).setInsertPoint id1 = _
        rw [hsm, hfc]
      rw [hpb] at hx ih1
      have r9 : stmtRelN n s12 (s4b.CreateBr id0) :=
        stmtRelN_trans r8 (stmtRelN_append n s4b (BItem.term (Terminator.br id0)) rfl)
      have r10 := stmtRelN_trans r9
        (stmtRelN_push_back n (s4b.CreateBr id0) (s10.parentName) id1 (by omega))
      have e3 : (s4b.CreateBr id0).nextBlock = s4b.nextBlock := rfl
      have e4 := push_back_nextBlock (s4b.CreateBr id0) (s10.parentName) id1
      have r11 := stmtRelN_trans r10
        (stmtRelN_setInsertPoint n ((s4b.CreateBr id0).push_back (s10.parentName) id1) id1
          (Or.inr (by omega)) (by omega))
      have hel := ih1 n (le_trans hn r11.nextBlock_le) (r11.wf_pres hwf)
      rw [hx] at hel
      simp only [statement_visitor, hx6]
      rw [if_neg hnv]
      simp only [hx5, hx4, hx3, hx2, hx1, hct, hx]
      exact stmtRelN_trans r11 hel
    | some tm =>
      have hpb : sSI2 = (s4b.push_back s10.parentName id1).setInsertPoint id1 := by
        have hsm : sM = (match s4b.currentTerminator with
          | none => s4b.CreateBr id0
          | some t => s4b) := rfl
        rw [hct] at hsm
        show (sM.push_back fc id1).setInsertPoint id1 = _
        rw [hsm, hfc]
      rw [hpb] at hx ih1
      have r10 := stmtRelN_trans r8
        (stmtRelN_push_back n s4b (s10.parentName) id1 (by omega))
      have e4 := push_back_nextBlock s4b (s10.parentName) id1
      have r11 := stmtRelN_trans r10
        (stmtRelN_setInsertPoint n (s4b.push_back (s10.parentName) id1) id1
          (Or.inr (by omega)) (by omega))
      have hel := ih1 n (le_trans hn r11.nextBlock_le) (r11.wf_pres hwf)
      rw [hx] at hel
      simp only [statement_visitor, hx6]
      rw [if_neg hnv]
      simp only [hx5, hx4, hx3, hx2, hx1, hct, hx]
      exact stmtRelN_trans r11 hel
  case case25 =>
    rename_i scope ctx s12 ce th el v0 s11 hx6 hnv v s10 hx5 fc id2 s9 hx4 id1 s8 hx3 id0 s7 hx2 sCB sSI scp2 s4b hx1 sM sPB sSI2 scp3 sE hx ih2 ih1 n hn hwf
    have hfc : fc = s10.parentName := rfl
    rw [hfc] at hx4
    have hsi : sSI = (s7.CreateCondBr v id2 id1).setInsertPoint id2 := rfl
    rw [hsi] at hx1 ih2
    have r1 : stmtRelN n s12 s11 := stmtRelN_expr n ce scope hx6
    have r2 : stmtRelN n s12 s10 := stmtRelN_trans r1 (stmtRelN_icmp n hx5)
    obtain ⟨rc1, hid2, hnb9, hip9⟩ := stmtRelN_createBlock_eq n hx4
      (le_trans hn r2.nextBlock_le) (r2.wf_pres hwf)
    have r3 : stmtRelN n s12 s9 := stmtRelN_trans r2 rc1
    obtain ⟨rc2, hid1, hnb8, hip8⟩ := stmtRelN_createBlock_eq n hx3
      (le_trans hn r3.nextBlock_le) (r3.wf_pres hwf)
    have r4 : stmtRelN n s12 s8 := stmtRelN_trans r3 rc2
    obtain ⟨rc3, hid0, hnb7, hip7⟩ := stmtRelN_createBlock_eq n hx2
      (le_trans hn r4.nextBlock_le) (r4.wf_pres hwf)
    have r5 : stmtRelN n s12 s7 := stmtRelN_trans r4 rc3
    have r6 : stmtRelN n s12 (s7.CreateCondBr v id2 id1) :=
      stmtRelN_trans r5 (stmtRelN_append n s7 (BItem.term (Terminator.condBr v id2 id1)) rfl)
    have e1 : (s7.CreateCondBr v id2 id1).nextBlock = s7.nextBlock := rfl
    have hn10 : n ≤ s10.nextBlock := le_trans hn r2.nextBlock_le
    have r7 := stmtRelN_trans r6
      (stmtRelN_setInsertPoint n (s7.CreateCondBr v id2 id1) id2 (Or.inr (by omega)) (by omega))
    have hb := ih2 n (le_trans hn r7.nextBlock_le) (r7.wf_pres hwf)
    rw [hx1] at hb
    have r8 := stmtRelN_trans r7 hb
    have e2 : ((s7.CreateCondBr v id2 id1).setInsertPoint id2).nextBlock = s7.nextBlock := rfl
    have hble : ((s7.CreateCondBr v id2 id1).setInsertPoint id2).nextBlock ≤ s4b.nextBlock :=
      hb.nextBlock_le
    cases hct : s4b.currentTerminator with
    | none =>
      have hpb : sSI2 = ((s4b.CreateBr id0).push_back s10.parentName id1).setInsertPoint id1 := by
        have hsm : sM = (match s4b.currentTerminator with
          | none => s4b.CreateBr id0
          | some t => s4b) := rfl
        rw [hct] at hsm
        show (sM.push_back fc id1).setInsertPoint id1 = _
        rw [hsm, hfc]
      rw [hpb] at hx ih1
      have r9 : stmtRelN n s12 (s4b.CreateBr id0) :=
        stmtRelN_trans r8 (stmtRelN_append n s4b (BItem.term (Terminator.br id0)) rfl)
      have r10 := stmtRelN_trans r9
        (stmtRelN_push_back n (s4b.CreateBr id0) (s10.parentName) id1 (by omega))
      have e3 : (s4b.CreateBr id0).nextBlock = s4b.nextBlock := rfl
      have e4 := push_back_nextBlock (s4b.CreateBr id0) (s10.parentName) id1
      have r11 := stmtRelN_trans r10
        (stmtRelN_setInsertPoint n ((s4b.CreateBr id0).push_back (s10.parentName) id1) id1
          (Or.inr (by omega)) (by omega))
      have hel := ih1 n (le_trans hn r11.nextBlock_le) (r11.wf_pres hwf)
      rw [hx] at hel
      have r12 := stmtRelN_trans r11 hel
      have e5 : ((((s4b.CreateBr id0).push_back (s10.parentName) id1).setInsertPoint id1).nextBlock)
          = ((s4b.CreateBr id0).push_back (s10.parentName) id1).nextBlock := rfl
      have hble2 : ((((s4b.CreateBr id0).push_back (s10.parentName) id1).setInsertPoint id1).nextBlock)
          ≤ sE.nextBlock := hel.nextBlock_le
      cases hct2 : sE.currentTerminator with
      | none =>
        have r13 : stmtRelN n s12 (sE.CreateBr id0) :=
          stmtRelN_trans r12 (stmtRelN_append n sE (BItem.term (Terminator.br id0)) rfl)
        have r14 := stmtRelN_trans r13
          (stmtRelN_push_back n (sE.CreateBr id0) (s10.parentName) id0 (by omega))
        have e6 : (sE.CreateBr id0).nextBlock = sE.nextBlock := rfl
        have e7 := push_back_nextBlock (sE.CreateBr id0) (s10.parentName) id0
        have r15 := stmtRelN_trans r14
          (stmtRelN_setInsertPoint n ((sE.CreateBr id0).push_back (s10.parentName) id0) id0
            (Or.inr (by omega)) (by omega))
        simp only [statement_visitor, hx6]
        rw [if_neg hnv]
        simp only [hx5, hx4, hx3, hx2, hx1, hct, hx, hct2]
        exact r15
      | some tm2 =>
        have r14 := stmtRelN_trans r12
          (stmtRelN_push_back n sE (s10.parentName) id0 (by omega))
        have e7 := push_back_nextBlock sE (s10.parentName) id0
        have r15 := stmtRelN_trans r14
          (stmtRelN_setInsertPoint n (sE.push_back (s10.parentName) id0) id0
            (Or.inr (by omega)) (by omega))
        simp only [statement_visitor, hx6]
        rw [if_neg hnv]
        simp only [hx5, hx4, hx3, hx2, hx1, hct, hx, hct2]
        exact r15
    | some tm =>
      have hpb : sSI2 = (s4b.push_back s10.parentName id1).setInsertPoint id1 := by
        have hsm : sM = (match s4b.currentTerminator with
          | none => s4b.CreateBr id0
          | some t => s4b) := rfl
        rw [hct] at hsm
        show (sM.push_back fc id1).setInsertPoint id1 = _
        rw [hsm, hfc]
      rw [hpb] at hx ih1
      have r10 := stmtRelN_trans r8
        (stmtRelN_push_back n s4b (s10.parentName) id1 (by omega))
      have e4 := push_back_nextBlock s4b (s10.parentName) id1
      have r11 := stmtRelN_trans r10
        (stmtRelN_setInsertPoint n (s4b.push_back (s10.parentName) id1) id1
          (Or.inr (by omega)) (by omega))
      have hel := ih1 n (le_trans hn r11.nextBlock_le) (r11.wf_pres hwf)
      rw [hx] at hel
      have r12 := stmtRelN_trans r11 hel
      have e5 : (((s4b.push_back (s10.parentName) id1).setInsertPoint id1).nextBlock)
          = ((s4b.push_back (s10.parentName) id1).nextBlock) := rfl
      have hble2 : (((s4b.push_back (s10.parentName) id1).setInsertPoint id1).nextBlock)
          ≤ sE.nextBlock := hel.nextBlock_le
      cases hct2 : sE.currentTerminator with
      | none =>
        have r13 : stmtRelN n s12 (sE.CreateBr id0) :=
          stmtRelN_trans r12 (stmtRelN_append n sE (BItem.term (Terminator.br id0)) rfl)
        have r14 := stmtRelN_trans r13
          (stmtRelN_push_back n (sE.CreateBr id0) (s10.parentName) id0 (by omega))
        have e6 : (sE.CreateBr id0).nextBlock = sE.nextBlock := rfl
        have e7 := push_back_nextBlock (sE.CreateBr id0) (s10.parentName) id0
        have r15 := stmtRelN_trans r14
          (stmtRelN_setInsertPoint n ((sE.CreateBr id0).push_back (s10.parentName) id0) id0
            (Or.inr (by omega)) (by omega))
        simp only [statement_visitor, hx6]
        rw [if_neg hnv]
        simp only [hx5, hx4, hx3, hx2, hx1, hct, hx, hct2]
        exact r15
      | some tm2 =>
        have r14 := stmtRelN_trans r12
          (stmtRelN_push_back n sE (s10.parentName) id0 (by omega))
        have e7 := push_back_nextBlock sE (s10.parentName) id0
        have r15 := stmtRelN_trans r14
          (stmtRelN_setInsertPoint n (sE.push_back (s10.parentName) id0) id0
            (Or.inr (by omega)) (by omega))
        simp only [statement_visitor, hx6]
        rw [if_neg hnv]
        simp only [hx5, hx4, hx3, hx2, hx1, hct, hx, hct2]
        exact r15
  case case26 =>
    rename_i scope ctx s5 body fc id1 s4 hx2 id0 s3 hx1 sBR sSI e sE hx ih n hn hwf
    have hfc : fc = s5.parentName := rfl
    rw [hfc] at hx2
    have hsi : sSI = (s3.CreateBr id1).setInsertPoint id1 := rfl
    rw [hsi] at hx ih
    obtain ⟨rc1, hid1, hnb4, hip4⟩ := stmtRelN_createBlock_eq n hx2 hn hwf
    obtain ⟨rc2, hid0, hnb3, hip3⟩ := stmtRelN_createBlock_eq n hx1
      (le_trans hn rc1.nextBlock_le) (rc1.wf_pres hwf)
    have r2 : stmtRelN n s5 s3 := stmtRelN_trans rc1 rc2
    have r3 := stmtRelN_trans r2 (stmtRelN_append n s3 (BItem.term (Terminator.br id1)) rfl)
    have e1 : (s3.CreateBr id1).nextBlock = s3.nextBlock := rfl
    have r4 := stmtRelN_trans r3
      (stmtRelN_setInsertPoint n (s3.CreateBr id1) id1 (Or.inr (by omega)) (by omega))
    have hb := ih n (le_trans hn r4.nextBlock_le) (r4.wf_pres hwf)
    rw [hx] at hb
    simp only [statement_visitor, hx2, hx1, hx]
    exact stmtRelN_trans r4 hb
  case case27 =>
    rename_i scope ctx s5 body fc id1 s4 hx2 id0 s3 hx1 sBR sSI scp2 sE hx ih n hn hwf
    have hfc : fc = s5.parentName := rfl
    rw [hfc] at hx2
    have hsi : sSI = (s3.CreateBr id1).setInsertPoint id1 := rfl
    rw [hsi] at hx ih
    obtain ⟨rc1, hid1, hnb4, hip4⟩ := stmtRelN_createBlock_eq n hx2 hn hwf
    obtain ⟨rc2, hid0, hnb3, hip3⟩ := stmtRelN_createBlock_eq n hx1
      (le_trans hn rc1.nextBlock_le) (rc1.wf_pres hwf)
    have r2 : stmtRelN n s5 s3 := stmtRelN_trans rc1 rc2
    have r3 := stmtRelN_trans r2 (stmtRelN_append n s3 (BItem.term (Terminator.br id1)) rfl)
    have e1 : (s3.CreateBr id1).nextBlock = s3.nextBlock := rfl
    have r4 := stmtRelN_trans r3
      (stmtRelN_setInsertPoint n (s3.CreateBr id1) id1 (Or.inr (by omega)) (by omega))
    have hb := ih n (le_trans hn r4.nextBlock_le) (r4.wf_pres hwf)
    rw [hx] at hb
    have r5 := stmtRelN_trans r4 hb
    have e2 : ((s3.CreateBr id1).setInsertPoint id1).nextBlock = s3.nextBlock := rfl
    have hble : ((s3.CreateBr id1).setInsertPoint id1).nextBlock ≤ sE.nextBlock :=
      hb.nextBlock_le
    cases hct : sE.currentTerminator with
    | none =>
      have r6 := stmtRelN_trans r5
        (stmtRelN_append n sE (BItem.term (Terminator.br id1)) rfl)
      have e3 : (sE.CreateBr id1).nextBlock = sE.nextBlock := rfl
      have r7 := stmtRelN_trans r6
        (stmtRelN_push_back n (sE.CreateBr id1) (s5.parentName) id0 (by omega))
      have e4 := push_back_nextBlock (sE.CreateBr id1) (s5.parentName) id0
      have r8 := stmtRelN_trans r7
        (stmtRelN_setInsertPoint n ((sE.CreateBr id1).push_back (s5.parentName) id0) id0
          (Or.inr (by omega)) (by omega))
      simp only [statement_visitor, hx2, hx1, hx, hct]
      exact r8
    | some tm =>
      have r7 := stmtRelN_trans r5
        (stmtRelN_push_back n sE (s5.parentName) id0 (by omega))
      have e4 := push_back_nextBlock sE (s5.parentName) id0
      have r8 := stmtRelN_trans r7
        (stmtRelN_setInsertPoint n (sE.push_back (s5.parentName) id0) id0
          (Or.inr (by omega)) (by omega))
      simp only [statement_visitor, hx2, hx1, hx, hct]
      exact r8
  case case28 =>
    rename_i scope ctx s6 ce body fc id2 s5 hx3 id1 s4 hx2 id0 s3 hx1 sBR sSI e sE hx n hn hwf
    have hfc : fc = s6.parentName := rfl
    rw [hfc] at hx3
    have hsi : sSI = (s3.CreateBr id2).setInsertPoint id2 := rfl
    rw [hsi] at hx
    obtain ⟨rc1, hid2, hnbA, hipA⟩ := stmtRelN_createBlock_eq n hx3 hn hwf
    obtain ⟨rc2, hid1, hnbB, hipB⟩ := stmtRelN_createBlock_eq n hx2
      (le_trans hn rc1.nextBlock_le) (rc1.wf_pres hwf)
    have r2 : stmtRelN n s6 s4 := stmtRelN_trans rc1 rc2
    obtain ⟨rc3, hid0, hnbC, hipC⟩ := stmtRelN_createBlock_eq n hx1
      (le_trans hn r2.nextBlock_le) (r2.wf_pres hwf)
    have r3 : stmtRelN n s6 s3 := stmtRelN_trans r2 rc3
    have r4 := stmtRelN_trans r3 (stmtRelN_append n s3 (BItem.term (Terminator.br id2)) rfl)
    have e1 : (s3.CreateBr id2).nextBlock = s3.nextBlock := rfl
    have r5 := stmtRelN_trans r4
      (stmtRelN_setInsertPoint n (s3.CreateBr id2) id2 (Or.inr (by omega)) (by omega))
    have hb := stmtRelN_expr n ce scope hx
    simp only [statement_visitor, hx3, hx2, hx1, hx]
    exact stmtRelN_trans r5 hb
  case case29 =>
    rename_i scope ctx s6 ce body fc id2 s5 hx3 id1 s4 hx2 id0 s3 hx1 sBR sSI sE hx n hn hwf
    have hfc : fc = s6.parentName := rfl
    rw [hfc] at hx3
    have hsi : sSI = (s3.CreateBr id2).setInsertPoint id2 := rfl
    rw [hsi] at hx
    obtain ⟨rc1, hid2, hnbA, hipA⟩ := stmtRelN_createBlock_eq n hx3 hn hwf
    obtain ⟨rc2, hid1, hnbB, hipB⟩ := stmtRelN_createBlock_eq n hx2
      (le_trans hn rc1.nextBlock_le) (rc1.wf_pres hwf)
    have r2 : stmtRelN n s6 s4 := stmtRelN_trans rc1 rc2
    obtain ⟨rc3, hid0, hnbC, hipC⟩ := stmtRelN_createBlock_eq n hx1
      (le_trans hn r2.nextBlock_le) (r2.wf_pres hwf)
    have r3 : stmtRelN n s6 s3 := stmtRelN_trans r2 rc3
    have r4 := stmtRelN_trans r3 (stmtRelN_append n s3 (BItem.term (Terminator.br id2)) rfl)
    have e1 : (s3.CreateBr id2).nextBlock = s3.nextBlock := rfl
    have r5 := stmtRelN_trans r4
      (stmtRelN_setInsertPoint n (s3.CreateBr id2) id2 (Or.inr (by omega)) (by omega))
    have hb := stmtRelN_expr n ce scope hx
    simp only [statement_visitor, hx3, hx2, hx1, hx, reduceIte]
    exact stmtRelN_trans r5 hb
  case case30 =>
    rename_i scope ctx s11 ce body fc id2 s10 hx5 id1 s9 hx4 id0 s8 hx3 sBR sSI v0 s5 hx2 hnv v s4 hx1 sCB sPB sSI2 e sE hx ih n hn hwf
    have hfc : fc = s11.parentName := rfl
    rw [hfc] at hx5
    have hsi : sSI = (s8.CreateBr id2).setInsertPoint id2 := rfl
    rw [hsi] at hx2
    have hsi2 : sSI2 = ((s4.CreateCondBr v id1 id0).push_back s11.parentName id1).setInsertPoint id1 := rfl
    rw [hsi2] at hx ih
    obtain ⟨rc1, hid2, hnbA, hipA⟩ := stmtRelN_createBlock_eq n hx5 hn hwf
    obtain ⟨rc2, hid1, hnbB, hipB⟩ := stmtRelN_createBlock_eq n hx4
      (le_trans hn rc1.nextBlock_le) (rc1.wf_pres hwf)
    have r2 : stmtRelN n s11 s9 := stmtRelN_trans rc1 rc2
    obtain ⟨rc3, hid0, hnbC, hipC⟩ := stmtRelN_createBlock_eq n hx3
      (le_trans hn r2.nextBlock_le) (r2.wf_pres hwf)
    have r3 : stmtRelN n s11 s8 := stmtRelN_trans r2 rc3
    have r4 := stmtRelN_trans r3 (stmtRelN_append n s8 (BItem.term (Terminator.br id2)) rfl)
    have e1 : (s8.CreateBr id2).nextBlock = s8.nextBlock := rfl
    have r5 := stmtRelN_trans r4
      (stmtRelN_setInsertPoint n (s8.CreateBr id2) id2 (Or.inr (by omega)) (by omega))
    have hbE := stmtRelN_expr n ce scope hx2
    have hble1 : ((s8.CreateBr id2).setInsertPoint id2).nextBlock ≤ s5.nextBlock :=
      hbE.nextBlock_le
    have e3 : ((s8.CreateBr id2).setInsertPoint id2).nextBlock = s8.nextBlock := rfl
    have r6 := stmtRelN_trans r5 hbE
    have hicmp := stmtRelN_icmp n hx1
    have hble2 : s5.nextBlock ≤ s4.nextBlock := hicmp.nextBlock_le
    have r7 := stmtRelN_trans r6 hicmp
    have r8 := stmtRelN_trans r7
      (stmtRelN_append n s4 (BItem.term (Terminator.condBr v id1 id0)) rfl)
    have e2 : (s4.CreateCondBr v id1 id0).nextBlock = s4.nextBlock := rfl
    have r9 := stmtRelN_trans r8
      (stmtRelN_push_back n (s4.CreateCondBr v id1 id0) (s11.parentName) id1 (by omega))
    have e4 := push_back_nextBlock (s4.CreateCondBr v id1 id0) (s11.parentName) id1
    have r10 := stmtRelN_trans r9
      (stmtRelN_setInsertPoint n ((s4.CreateCondBr v id1 id0).push_back (s11.parentName) id1) id1
        (Or.inr (by omega)) (by omega))
    have hbody := ih n (le_trans hn r10.nextBlock_le) (r10.wf_pres hwf)
    rw [hx] at hbody
    simp only [statement_visitor, hx5, hx4, hx3, hx2]
    rw [if_neg hnv]
    simp only [hx1, hx]
    exact stmtRelN_trans r10 hbody
  case case31 =>
    rename_i scope ctx s11 ce body fc id2 s10 hx5 id1 s9 hx4 id0 s8 hx3 sBR sSI v0 s5 hx2 hnv v s4 hx1 sCB sPB sSI2 scp2 sE hx ih n hn hwf
    have hfc : fc = s11.parentName := rfl
    rw [hfc] at hx5
    have hsi : sSI = (s8.CreateBr id2).setInsertPoint id2 := rfl
    rw [hsi] at hx2
    have hsi2 : sSI2 = ((s4.CreateCondBr v id1 id0).push_back s11.parentName id1).setInsertPoint id1 := rfl
    rw [hsi2] at hx ih
    obtain ⟨rc1, hid2, hnbA, hipA⟩ := stmtRelN_createBlock_eq n hx5 hn hwf
    obtain ⟨rc2, hid1, hnbB, hipB⟩ := stmtRelN_createBlock_eq n hx4
      (le_trans hn rc1.nextBlock_le) (rc1.wf_pres hwf)
    have r2 : stmtRelN n s11 s9 := stmtRelN_trans rc1 rc2
    obtain ⟨rc3, hid0, hnbC, hipC⟩ := stmtRelN_createBlock_eq n hx3
      (le_trans hn r2.nextBlock_le) (r2.wf_pres hwf)
    have r3 : stmtRelN n s11 s8 := stmtRelN_trans r2 rc3
    have r4 := stmtRelN_trans r3 (stmtRelN_append n s8 (BItem.term (Terminator.br id2)) rfl)
    have e1 : (s8.CreateBr id2).nextBlock = s8.nextBlock := rfl
    have r5 := stmtRelN_trans r4
      (stmtRelN_setInsertPoint n (s8.CreateBr id2) id2 (Or.inr (by omega)) (by omega))
    have hbE := stmtRelN_expr n ce scope hx2
    have hble1 : ((s8.CreateBr id2).setInsertPoint id2).nextBlock ≤ s5.nextBlock :=
      hbE.nextBlock_le
    have e3 : ((s8.CreateBr id2).setInsertPoint id2).nextBlock = s8.nextBlock := rfl
    have r6 := stmtRelN_trans r5 hbE
    have hicmp := stmtRelN_icmp n hx1
    have hble2 : s5.nextBlock ≤ s4.nextBlock := hicmp.nextBlock_le
    have r7 := stmtRelN_trans r6 hicmp
    have r8 := stmtRelN_trans r7
      (stmtRelN_append n s4 (BItem.term (Terminator.condBr v id1 id0)) rfl)
    have e2 : (s4.CreateCondBr v id1 id0).nextBlock = s4.nextBlock := rfl
    have r9 := stmtRelN_trans r8
      (stmtRelN_push_back n (s4.CreateCondBr v id1 id0) (s11.parentName) id1 (by omega))
    have e4 := push_back_nextBlock (s4.CreateCondBr v id1 id0) (s11.parentName) id1
    have r10 := stmtRelN_trans r9
      (stmtRelN_setInsertPoint n ((s4.CreateCondBr v id1 id0).push_back (s11.parentName) id1) id1
        (Or.inr (by omega)) (by omega))
    have hbody := ih n (le_trans hn r10.nextBlock_le) (r10.wf_pres hwf)
    rw [hx] at hbody
    have r11 := stmtRelN_trans r10 hbody
    have e5 : ((((s4.CreateCondBr v id1 id0).push_back (s11.parentName) id1).setInsertPoint id1).nextBlock)
        = (((s4.CreateCondBr v id1 id0).push_back (s11.parentName) id1).nextBlock) := rfl
    have hble3 : ((((s4.CreateCondBr v id1 id0).push_back (s11.parentName) id1).setInsertPoint id1).nextBlock)
        ≤ sE.nextBlock := hbody.nextBlock_le
    cases hct : sE.currentTerminator with
    | none =>
      have r12 := stmtRelN_trans r11
        (stmtRelN_append n sE (BItem.term (Terminator.br id2)) rfl)
      have e6 : (sE.CreateBr id2).nextBlock = sE.nextBlock := rfl
      have r13 := stmtRelN_trans r12
        (stmtRelN_push_back n (sE.CreateBr id2) (s11.parentName) id0 (by omega))
      have e7 := push_back_nextBlock (sE.CreateBr id2) (s11.parentName) id0
      have r14 := stmtRelN_trans r13
        (stmtRelN_setInsertPoint n ((sE.CreateBr id2).push_back (s11.parentName) id0) id0
          (Or.inr (by omega)) (by omega))
      simp only [statement_visitor, hx5, hx4, hx3, hx2]
      rw [if_neg hnv]
      simp only [hx1, hx, hct]
      exact r14
    | some tm =>
      have r13 := stmtRelN_trans r11
        (stmtRelN_push_back n sE (s11.parentName) id0 (by omega))
      have e7 := push_back_nextBlock sE (s11.parentName) id0
      have r14 := stmtRelN_trans r13
        (stmtRelN_setInsertPoint n (sE.push_back (s11.parentName) id0) id0
          (Or.inr (by omega)) (by omega))
      simp only [statement_visitor, hx5, hx4, hx3, hx2]
      rw [if_neg hnv]
      simp only [hx1, hx, hct]
      exact r14
  case case33 =>
    rename_i scope ctx s8 oe1 oe2 oe3 body istep u s7 hxi fc id3 s6 hx4 id2 s5 hx3 id1 s4 hx2 id0 s3 hx1 sBR sSI cstep e sE hx n hn hwf
    have hxi2 : (match oe1 with
      | some ie =>
        match expression_visitor ie scope s8 with
        | (Except.error e, s) => ((Except.error e : Except CodegenErr Unit), s)
        | (Except.ok init_value, s) =>
          if init_value = Value.null then
            (Except.error CodegenErr.failed_to_generate_initialization, s)
          else (Except.ok (), s)
      | none => ((Except.ok () : Except CodegenErr Unit), s8)) = (Except.ok u, s7) := hxi
    have r1 : stmtRelN n s8 s7 :=
      optExprStep_rel n oe1 scope s8 CodegenErr.failed_to_generate_initialization hxi2
    have hfc : fc = s7.parentName := rfl
    rw [hfc] at hx4
    obtain ⟨rc1, hid3, hnbA, hipA⟩ := stmtRelN_createBlock_eq n hx4
      (le_trans hn r1.nextBlock_le) (r1.wf_pres hwf)
    have r2 := stmtRelN_trans r1 rc1
    obtain ⟨rc2, hid2, hnbB, hipB⟩ := stmtRelN_createBlock_eq n hx3
      (le_trans hn r2.nextBlock_le) (r2.wf_pres hwf)
    have r3 := stmtRelN_trans r2 rc2
    obtain ⟨rc3, hid1, hnbC, hipC⟩ := stmtRelN_createBlock_eq n hx2
      (le_trans hn r3.nextBlock_le) (r3.wf_pres hwf)
    have r4 := stmtRelN_trans r3 rc3
    obtain ⟨rc4, hid0, hnbD, hipD⟩ := stmtRelN_createBlock_eq n hx1
      (le_trans hn r4.nextBlock_le) (r4.wf_pres hwf)
    have r5 := stmtRelN_trans r4 rc4
    have r6 := stmtRelN_trans r5 (stmtRelN_append n s3 (BItem.term (Terminator.br id3)) rfl)
    have e1 : (s3.CreateBr id3).nextBlock = s3.nextBlock := rfl
    have hn7 : n ≤ s7.nextBlock := le_trans hn r1.nextBlock_le
    have r7 := stmtRelN_trans r6
      (stmtRelN_setInsertPoint n (s3.CreateBr id3) id3 (Or.inr (by omega)) (by omega))
    have hx2c : (match oe2 with
      | some ce =>
        match expression_visitor ce scope ((s3.CreateBr id3).setInsertPoint id3) with
        | (Except.error e, s) => ((Except.error e : Except CodegenErr Unit), s)
        | (Except.ok cond_value, s) =>
          if cond_value = Value.null then
            (Except.error CodegenErr.failed_to_generate_condition, s)
          else
            match s.CreateICmp ICmpPred.ne cond_value (Value.constInt (LType.int 8) 0) with
            | (cond, s) => (Except.ok (), s.CreateCondBr cond id1 id0)
      | none => ((Except.ok () : Except CodegenErr Unit),
          ((s3.CreateBr id3).setInsertPoint id3).CreateCondBr (Value.constInt (LType.int 1) 1) id1 id0)) = (Except.error e, sE) := hx
    have hb := condStep_rel n oe2 scope ((s3.CreateBr id3).setInsertPoint id3) id1 id0 hx2c
    simp only [statement_visitor]
    split
    next e1x st1 heq =>
      have h5 : istep = (Except.error e1x, st1) := heq
      rw [hxi] at h5
      exact absurd h5 (by simp)
    next a st1 heq =>
      have h5 : istep = (Except.ok a, st1) := heq
      rw [hxi] at h5
      injection h5 with h6 h7
      subst h7
      simp only [hx4, hx3, hx2, hx1]
      split
      next e2x st2 heq2 =>
        have h8 : cstep = (Except.error e2x, st2) := heq2
        rw [hx] at h8
        injection h8 with h9 h10
        subst h10
        exact stmtRelN_trans r7 hb
      next a2 st2 heq2 =>
        have h8 : cstep = (Except.ok a2, st2) := heq2
        rw [hx] at h8
        exact absurd h8 (by simp)
  case case34 =>
    rename_i scope ctx s11 oe1 oe2 oe3 body istep u s10 hxi fc id3 s9 hx5 id2 s8 hx4 id1 s7 hx3 id0 s6 hx2 sBR sSI cstep u2 s3n hxc sPB sSI2 e sE hx ih n hn hwf
    have hxi2 : (match oe1 with
      | some ie =>
        match expression_visitor ie scope s11 with
        | (Except.error e, s) => ((Except.error e : Except CodegenErr Unit), s)
        | (Except.ok init_value, s) =>
          if init_value = Value.null then
            (Except.error CodegenErr.failed_to_generate_initialization, s)
          else (Except.ok (), s)
      | none => ((Except.ok () : Except CodegenErr Unit), s11)) = (Except.ok u, s10) := hxi
    have r1 : stmtRelN n s11 s10 :=
      optExprStep_rel n oe1 scope s11 CodegenErr.failed_to_generate_initialization hxi2
    have hfc : fc = s10.parentName := rfl
    rw [hfc] at hx5
    obtain ⟨rc1, hid3, hnbA, hipA⟩ := stmtRelN_createBlock_eq n hx5
      (le_trans hn r1.nextBlock_le) (r1.wf_pres hwf)
    have r2 := stmtRelN_trans r1 rc1
    obtain ⟨rc2, hid2, hnbB, hipB⟩ := stmtRelN_createBlock_eq n hx4
      (le_trans hn r2.nextBlock_le) (r2.wf_pres hwf)
    have r3 := stmtRelN_trans r2 rc2
    obtain ⟨rc3, hid1, hnbC, hipC⟩ := stmtRelN_createBlock_eq n hx3
      (le_trans hn r3.nextBlock_le) (r3.wf_pres hwf)
    have r4 := stmtRelN_trans r3 rc3
    obtain ⟨rc4, hid0, hnbD, hipD⟩ := stmtRelN_createBlock_eq n hx2
      (le_trans hn r4.nextBlock_le) (r4.wf_pres hwf)
    have r5 := stmtRelN_trans r4 rc4
    have r6 := stmtRelN_trans r5 (stmtRelN_append n s6 (BItem.term (Terminator.br id3)) rfl)
    have e1 : (s6.CreateBr id3).nextBlock = s6.nextBlock := rfl
    have hn10 : n ≤ s10.nextBlock := le_trans hn r1.nextBlock_le
    have r7 := stmtRelN_trans r6
      (stmtRelN_setInsertPoint n (s6.CreateBr id3) id3 (Or.inr (by omega)) (by omega))
    have hxc2 : (match oe2 with
      | some ce =>
        match expression_visitor ce scope ((s6.CreateBr id3).setInsertPoint id3) with
        | (Except.error e, s) => ((Except.error e : Except CodegenErr Unit), s)
        | (Except.ok cond_value, s) =>
          if cond_value = Value.null then
            (Except.error CodegenErr.failed_to_generate_condition, s)
          else
            match s.CreateICmp ICmpPred.ne cond_value (Value.constInt (LType.int 8) 0) with
            | (cond, s) => (Except.ok (), s.CreateCondBr cond id1 id0)
      | none => ((Except.ok () : Except CodegenErr Unit),
          ((s6.CreateBr id3).setInsertPoint id3).CreateCondBr (Value.constInt (LType.int 1) 1) id1 id0)) = (Except.ok u2, s3n) := hxc
    have hbc := condStep_rel n oe2 scope ((s6.CreateBr id3).setInsertPoint id3) id1 id0 hxc2
    have r8 := stmtRelN_trans r7 hbc
    have e2 : ((s6.CreateBr id3).setInsertPoint id3).nextBlock = s6.nextBlock := rfl
    have hblec : ((s6.CreateBr id3).setInsertPoint id3).nextBlock ≤ s3n.nextBlock :=
      hbc.nextBlock_le
    have hsi2 : sSI2 = (s3n.push_back s10.parentName id1).setInsertPoint id1 := by
      show (s3n.push_back fc id1).setInsertPoint id1 = _
      rw [hfc]
    rw [hsi2] at hx ih
    have r9 := stmtRelN_trans r8
      (stmtRelN_push_back n s3n (s10.parentName) id1 (by omega))
    have e4 := push_back_nextBlock s3n (s10.parentName) id1
    have r10 := stmtRelN_trans r9
      (stmtRelN_setInsertPoint n (s3n.push_back (s10.parentName) id1) id1
        (Or.inr (by omega)) (by omega))
    have hbody := ih n (le_trans hn r10.nextBlock_le) (r10.wf_pres hwf)
    rw [hx] at hbody
    simp only [statement_visitor]
    split
    next e1x st1 heq =>
      have h5 : istep = (Except.error e1x, st1) := heq
      rw [hxi] at h5
      exact absurd h5 (by simp)
    next a st1 heq =>
      have h5 : istep = (Except.ok a, st1) := heq
      rw [hxi] at h5
      injection h5 with h6 h7
      subst h7
      simp only [hx5, hx4, hx3, hx2]
      split
      next e2x st2 heq2 =>
        have h8 : cstep = (Except.error e2x, st2) := heq2
        rw [hxc] at h8
        exact absurd h8 (by simp)
      next a2 st2 heq2 =>
        have h8 : cstep = (Except.ok a2, st2) := heq2
        rw [hxc] at h8
        injection h8 with h9 h10
        subst h10
        simp only [hx]
        exact stmtRelN_trans r10 hbody
  case case35 =>
    rename_i scope ctx s15 oe1 oe2 oe3 body istep u s14 hxi fc id3 s13 hx6 id2 s12 hx5 id1 s11 hx4 id0 s10 hx3 sBR sSI cstep u2 s7 hxc sPB sSI2 scp2 s4 hxb sM sPB2 sSI3 lstep e sE hx ih n hn hwf
    have hxi2 : (match oe1 with
      | some ie =>
        match expression_visitor ie scope s15 with
        | (Except.error e, s) => ((Except.error e : Except CodegenErr Unit), s)
        | (Except.ok init_value, s) =>
          if init_value = Value.null then
            (Except.error CodegenErr.failed_to_generate_initialization, s)
          else (Except.ok (), s)
      | none => ((Except.ok () : Except CodegenErr Unit), s15)) = (Except.ok u, s14) := hxi
    have r1 : stmtRelN n s15 s14 :=
      optExprStep_rel n oe1 scope s15 CodegenErr.failed_to_generate_initialization hxi2
    have hfc : fc = s14.parentName := rfl
    rw [hfc] at hx6
    obtain ⟨rc1, hid3, hnbA, hipA⟩ := stmtRelN_createBlock_eq n hx6
      (le_trans hn r1.nextBlock_le) (r1.wf_pres hwf)
    have r2 := stmtRelN_trans r1 rc1
    obtain ⟨rc2, hid2, hnbB, hipB⟩ := stmtRelN_createBlock_eq n hx5
      (le_trans hn r2.nextBlock_le) (r2.wf_pres hwf)
    have r3 := stmtRelN_trans r2 rc2
    obtain ⟨rc3, hid1, hnbC, hipC⟩ := stmtRelN_createBlock_eq n hx4
      (le_trans hn r3.nextBlock_le) (r3.wf_pres hwf)
    have r4 := stmtRelN_trans r3 rc3
    obtain ⟨rc4, hid0, hnbD, hipD⟩ := stmtRelN_createBlock_eq n hx3
      (le_trans hn r4.nextBlock_le) (r4.wf_pres hwf)
    have r5 := stmtRelN_trans r4 rc4
    have r6 := stmtRelN_trans r5 (stmtRelN_append n s10 (BItem.term (Terminator.br id3)) rfl)
    have e1 : (s10.CreateBr id3).nextBlock = s10.nextBlock := rfl
    have hn14 : n ≤ s14.nextBlock := le_trans hn r1.nextBlock_le
    have r7 := stmtRelN_trans r6
      (stmtRelN_setInsertPoint n (s10.CreateBr id3) id3 (Or.inr (by omega)) (by omega))
    have hxc2 : (match oe2 with
      | some ce =>
        match expression_visitor ce scope ((s10.CreateBr id3).setInsertPoint id3) with
        | (Except.error e, s) => ((Except.error e : Except CodegenErr Unit), s)
        | (Except.ok cond_value, s) =>
          if cond_value = Value.null then
            (Except.error CodegenErr.failed_to_generate_condition, s)
          else
            match s.CreateICmp ICmpPred.ne cond_value (Value.constInt (LType.int 8) 0) with
            | (cond, s) => (Except.ok (), s.CreateCondBr cond id1 id0)
      | none => ((Except.ok () : Except CodegenErr Unit),
          ((s10.CreateBr id3).setInsertPoint id3).CreateCondBr (Value.constInt (LType.int 1) 1) id1 id0)) = (Except.ok u2, s7) := hxc
    have hbc := condStep_rel n oe2 scope ((s10.CreateBr id3).setInsertPoint id3) id1 id0 hxc2
    have r8 := stmtRelN_trans r7 hbc
    have e2 : ((s10.CreateBr id3).setInsertPoint id3).nextBlock = s10.nextBlock := rfl
    have hblec : ((s10.CreateBr id3).setInsertPoint id3).nextBlock ≤ s7.nextBlock :=
      hbc.nextBlock_le
    have hsi2 : sSI2 = (s7.push_back s14.parentName id1).setInsertPoint id1 := by
      show (s7.push_back fc id1).setInsertPoint id1 = _
      rw [hfc]
    rw [hsi2] at hxb ih
    have r9 := stmtRelN_trans r8
      (stmtRelN_push_back n s7 (s14.parentName) id1 (by omega))
    have e4 := push_back_nextBlock s7 (s14.parentName) id1
    have r10 := stmtRelN_trans r9
      (stmtRelN_setInsertPoint n (s7.push_back (s14.parentName) id1) id1
        (Or.inr (by omega)) (by omega))
    have hbody := ih n (le_trans hn r10.nextBlock_le) (r10.wf_pres hwf)
    rw [hxb] at hbody
    have r11 := stmtRelN_trans r10 hbody
    have e5 : (((s7.push_back (s14.parentName) id1).setInsertPoint id1).nextBlock)
        = ((s7.push_back (s14.parentName) id1).nextBlock) := rfl
    have hbleb : (((s7.push_back (s14.parentName) id1).setInsertPoint id1).nextBlock)
        ≤ s4.nextBlock := hbody.nextBlock_le
    cases hct : s4.currentTerminator with
    | none =>
      have hsm : sM = (s4.CreateBr id2) := by
        rw [show sM = (match s4.currentTerminator with
          | none => s4.CreateBr id2
          | some t => s4) from rfl, hct]
      have hsi3 : sSI3 = ((s4.CreateBr id2).push_back (s14.parentName) id2).setInsertPoint id2 := by
        show (sM.push_back fc id2).setInsertPoint id2 = _
        rw [hsm, hfc]
      have hxl0 : (match oe3 with
      | some le =>
        match expression_visitor le scope (sSI3) with
        | (Except.error e, s) => ((Except.error e : Except CodegenErr Unit), s)
        | (Except.ok loop_value, s) =>
          if loop_value = Value.null then
            (Except.error CodegenErr.failed_to_generate_loop_expression, s)
          else (Except.ok (), s)
      | none => ((Except.ok () : Except CodegenErr Unit), sSI3)) = (Except.error e, sE) := hx
      rw [hsi3] at hxl0
      have r12 := stmtRelN_trans r11
        (stmtRelN_append n s4 (BItem.term (Terminator.br id2)) rfl)
      have e6 : (s4.CreateBr id2).nextBlock = s4.nextBlock := rfl
      have r13 := stmtRelN_trans r12
        (stmtRelN_push_back n (s4.CreateBr id2) (s14.parentName) id2 (by omega))
      have e7 := push_back_nextBlock (s4.CreateBr id2) (s14.parentName) id2
      have r14 := stmtRelN_trans r13
        (stmtRelN_setInsertPoint n ((s4.CreateBr id2).push_back (s14.parentName) id2) id2
          (Or.inr (by omega)) (by omega))
      have hlp := optExprStep_rel n oe3 scope
        (((s4.CreateBr id2).push_back (s14.parentName) id2).setInsertPoint id2)
        CodegenErr.failed_to_generate_loop_expression hxl0
      simp only [statement_visitor]
      split
      next e1x st1 heq =>
        have h5 : istep = (Except.error e1x, st1) := heq
        rw [hxi] at h5
        exact absurd h5 (by simp)
      next a st1 heq =>
        have h5 : istep = (Except.ok a, st1) := heq
        rw [hxi] at h5
        injection h5 with h6 h7
        subst h7
        simp only [hx6, hx5, hx4, hx3]
        split
        next e2x st2 heq2 =>
          have h8 : cstep = (Except.error e2x, st2) := heq2
          rw [hxc] at h8
          exact absurd h8 (by simp)
        next a2 st2 heq2 =>
          have h8 : cstep = (Except.ok a2, st2) := heq2
          rw [hxc] at h8
          injection h8 with h9 h10
          subst h10
          simp only [hxb, hct]
          split
          next e3x st3 heq3 =>
            have h11 : (match oe3 with
            | some le =>
              match expression_visitor le scope (((s4.CreateBr id2).push_back (s14.parentName) id2).setInsertPoint id2) with
              | (Except.error e, s) => ((Except.error e : Except CodegenErr Unit), s)
              | (Except.ok loop_value, s) =>
                if loop_value = Value.null then
                  (Except.error CodegenErr.failed_to_generate_loop_expression, s)
                else (Except.ok (), s)
            | none => ((Except.ok () : Except CodegenErr Unit), ((s4.CreateBr id2).push_back (s14.parentName) id2).setInsertPoint id2)) = (Except.error e3x, st3) := heq3
            have h12 := h11.symm.trans hxl0
            injection h12 with h13 h14
            subst h14
            exact stmtRelN_trans r14 hlp
          next a3 st3 heq3 =>
            have h11 : (match oe3 with
            | some le =>
              match expression_visitor le scope (((s4.CreateBr id2).push_back (s14.parentName) id2).setInsertPoint id2) with
              | (Except.error e, s) => ((Except.error e : Except CodegenErr Unit), s)
              | (Except.ok loop_value, s) =>
                if loop_value = Value.null then
                  (Except.error CodegenErr.failed_to_generate_loop_expression, s)
                else (Except.ok (), s)
            | none => ((Except.ok () : Except CodegenErr Unit), ((s4.CreateBr id2).push_back (s14.parentName) id2).setInsertPoint id2)) = (Except.ok a3, st3) := heq3
            have h12 := h11.symm.trans hxl0
            exact absurd h12 (by simp)
    | some tm =>
      have hsm : sM = s4 := by
        rw [show sM = (match s4.currentTerminator with
          | none => s4.CreateBr id2
          | some t => s4) from rfl, hct]
      have hsi3 : sSI3 = (s4.push_back (s14.parentName) id2).setInsertPoint id2 := by
        show (sM.push_back fc id2).setInsertPoint id2 = _
        rw [hsm, hfc]
      have hxl0 : (match oe3 with
      | some le =>
        match expression_visitor le scope (sSI3) with
        | (Except.error e, s) => ((Except.error e : Except CodegenErr Unit), s)
        | (Except.ok loop_value, s) =>
          if loop_value = Value.null then
            (Except.error CodegenErr.failed_to_generate_loop_expression, s)
          else (Except.ok (), s)
      | none => ((Except.ok () : Except CodegenErr Unit), sSI3)) = (Except.error e, sE) := hx
      rw [hsi3] at hxl0
      have r13 := stmtRelN_trans r11
        (stmtRelN_push_back n s4 (s14.parentName) id2 (by omega))
      have e7 := push_back_nextBlock s4 (s14.parentName) id2
      have r14 := stmtRelN_trans r13
        (stmtRelN_setInsertPoint n (s4.push_back (s14.parentName) id2) id2
          (Or.inr (by omega)) (by omega))
      have hlp := optExprStep_rel n oe3 scope
        ((s4.push_back (s14.parentName) id2).setInsertPoint id2)
        CodegenErr.failed_to_generate_loop_expression hxl0
      simp only [statement_visitor]
      split
      next e1x st1 heq =>
        have h5 : istep = (Except.error e1x, st1) := heq
        rw [hxi] at h5
        exact absurd h5 (by simp)
      next a st1 heq =>
        have h5 : istep = (Except.ok a, st1) := heq
        rw [hxi] at h5
        injection h5 with h6 h7
        subst h7
        simp only [hx6, hx5, hx4, hx3]
        split
        next e2x st2 heq2 =>
          have h8 : cstep = (Except.error e2x, st2) := heq2
          rw [hxc] at h8
          exact absurd h8 (by simp)
        next a2 st2 heq2 =>
          have h8 : cstep = (Except.ok a2, st2) := heq2
          rw [hxc] at h8
          injection h8 with h9 h10
          subst h10
          simp only [hxb, hct]
          split
          next e3x st3 heq3 =>
            have h11 : (match oe3 with
            | some le =>
              match expression_visitor le scope ((s4.push_back (s14.parentName) id2).setInsertPoint id2) with
              | (Except.error e, s) => ((Except.error e : Except CodegenErr Unit), s)
              | (Except.ok loop_value, s) =>
                if loop_value = Value.null then
                  (Except.error CodegenErr.failed_to_generate_loop_expression, s)
                else (Except.ok (), s)
            | none => ((Except.ok () : Except CodegenErr Unit), (s4.push_back (s14.parentName) id2).setInsertPoint id2)) = (Except.error e3x, st3) := heq3
            have h12 := h11.symm.trans hxl0
            injection h12 with h13 h14
            subst h14
            exact stmtRelN_trans r14 hlp
          next a3 st3 heq3 =>
            have h11 : (match oe3 with
            | some le =>
              match expression_visitor le scope ((s4.push_back (s14.parentName) id2).setInsertPoint id2) with
              | (Except.error e, s) => ((Except.error e : Except CodegenErr Unit), s)
              | (Except.ok loop_value, s) =>
                if loop_value = Value.null then
                  (Except.error CodegenErr.failed_to_generate_loop_expression, s)
                else (Except.ok (), s)
            | none => ((Except.ok () : Except CodegenErr Unit), (s4.push_back (s14.parentName) id2).setInsertPoint id2)) = (Except.ok a3, st3) := heq3
            have h12 := h11.symm.trans hxl0
            exact absurd h12 (by simp)
  case case36 =>
    rename_i scope ctx s15 oe1 oe2 oe3 body istep u s14 hxi fc id3 s13 hx6 id2 s12 hx5 id1 s11 hx4 id0 s10 hx3 sBR sSI cstep u2 s7 hxc sPB sSI2 scp2 s4 hxb sM sPB2 sSI3 lstep u3 sE hx ih n hn hwf
    have hxi2 : (match oe1 with
      | some ie =>
        match expression_visitor ie scope s15 with
        | (Except.error e, s) => ((Except.error e : Except CodegenErr Unit), s)
        | (Except.ok init_value, s) =>
          if init_value = Value.null then
            (Except.error CodegenErr.failed_to_generate_initialization, s)
          else (Except.ok (), s)
      | none => ((Except.ok () : Except CodegenErr Unit), s15)) = (Except.ok u, s14) := hxi
    have r1 : stmtRelN n s15 s14 :=
      optExprStep_rel n oe1 scope s15 CodegenErr.failed_to_generate_initialization hxi2
    have hfc : fc = s14.parentName := rfl
    rw [hfc] at hx6
    obtain ⟨rc1, hid3, hnbA, hipA⟩ := stmtRelN_createBlock_eq n hx6
      (le_trans hn r1.nextBlock_le) (r1.wf_pres hwf)
    have r2 := stmtRelN_trans r1 rc1
    obtain ⟨rc2, hid2, hnbB, hipB⟩ := stmtRelN_createBlock_eq n hx5
      (le_trans hn r2.nextBlock_le) (r2.wf_pres hwf)
    have r3 := stmtRelN_trans r2 rc2
    obtain ⟨rc3, hid1, hnbC, hipC⟩ := stmtRelN_createBlock_eq n hx4
      (le_trans hn r3.nextBlock_le) (r3.wf_pres hwf)
    have r4 := stmtRelN_trans r3 rc3
    obtain ⟨rc4, hid0, hnbD, hipD⟩ := stmtRelN_createBlock_eq n hx3
      (le_trans hn r4.nextBlock_le) (r4.wf_pres hwf)
    have r5 := stmtRelN_trans r4 rc4
    have r6 := stmtRelN_trans r5 (stmtRelN_append n s10 (BItem.term (Terminator.br id3)) rfl)
    have e1 : (s10.CreateBr id3).nextBlock = s10.nextBlock := rfl
    have hn14 : n ≤ s14.nextBlock := le_trans hn r1.nextBlock_le
    have r7 := stmtRelN_trans r6
      (stmtRelN_setInsertPoint n (s10.CreateBr id3) id3 (Or.inr (by omega)) (by omega))
    have hxc2 : (match oe2 with
      | some ce =>
        match expression_visitor ce scope ((s10.CreateBr id3).setInsertPoint id3) with
        | (Except.error e, s) => ((Except.error e : Except CodegenErr Unit), s)
        | (Except.ok cond_value, s) =>
          if cond_value = Value.null then
            (Except.error CodegenErr.failed_to_generate_condition, s)
          else
            match s.CreateICmp ICmpPred.ne cond_value (Value.constInt (LType.int 8) 0) with
            | (cond, s) => (Except.ok (), s.CreateCondBr cond id1 id0)
      | none => ((Except.ok () : Except CodegenErr Unit),
          ((s10.CreateBr id3).setInsertPoint id3).CreateCondBr (Value.constInt (LType.int 1) 1) id1 id0)) = (Except.ok u2, s7) := hxc
    have hbc := condStep_rel n oe2 scope ((s10.CreateBr id3).setInsertPoint id3) id1 id0 hxc2
    have r8 := stmtRelN_trans r7 hbc
    have e2 : ((s10.CreateBr id3).setInsertPoint id3).nextBlock = s10.nextBlock := rfl
    have hblec : ((s10.CreateBr id3).setInsertPoint id3).nextBlock ≤ s7.nextBlock :=
      hbc.nextBlock_le
    have hsi2 : sSI2 = (s7.push_back s14.parentName id1).setInsertPoint id1 := by
      show (s7.push_back fc id1).setInsertPoint id1 = _
      rw [hfc]
    rw [hsi2] at hxb ih
    have r9 := stmtRelN_trans r8
      (stmtRelN_push_back n s7 (s14.parentName) id1 (by omega))
    have e4 := push_back_nextBlock s7 (s14.parentName) id1
    have r10 := stmtRelN_trans r9
      (stmtRelN_setInsertPoint n (s7.push_back (s14.parentName) id1) id1
        (Or.inr (by omega)) (by omega))
    have hbody := ih n (le_trans hn r10.nextBlock_le) (r10.wf_pres hwf)
    rw [hxb] at hbody
    have r11 := stmtRelN_trans r10 hbody
    have e5 : (((s7.push_back (s14.parentName) id1).setInsertPoint id1).nextBlock)
        = ((s7.push_back (s14.parentName) id1).nextBlock) := rfl
    have hbleb : (((s7.push_back (s14.parentName) id1).setInsertPoint id1).nextBlock)
        ≤ s4.nextBlock := hbody.nextBlock_le
    cases hct : s4.currentTerminator with
    | none =>
      have hsm : sM = (s4.CreateBr id2) := by
        rw [show sM = (match s4.currentTerminator with
          | none => s4.CreateBr id2
          | some t => s4) from rfl, hct]
      have hsi3 : sSI3 = ((s4.CreateBr id2).push_back (s14.parentName) id2).setInsertPoint id2 := by
        show (sM.push_back fc id2).setInsertPoint id2 = _
        rw [hsm, hfc]
      have hxl0 : (match oe3 with
      | some le =>
        match expression_visitor le scope (sSI3) with
        | (Except.error e, s) => ((Except.error e : Except CodegenErr Unit), s)
        | (Except.ok loop_value, s) =>
          if loop_value = Value.null then
            (Except.error CodegenErr.failed_to_generate_loop_expression, s)
          else (Except.ok (), s)
      | none => ((Except.ok () : Except CodegenErr Unit), sSI3)) = (Except.ok u3, sE) := hx
      rw [hsi3] at hxl0
      have r12 := stmtRelN_trans r11
        (stmtRelN_append n s4 (BItem.term (Terminator.br id2)) rfl)
      have e6 : (s4.CreateBr id2).nextBlock = s4.nextBlock := rfl
      have r13 := stmtRelN_trans r12
        (stmtRelN_push_back n (s4.CreateBr id2) (s14.parentName) id2 (by omega))
      have e7 := push_back_nextBlock (s4.CreateBr id2) (s14.parentName) id2
      have r14 := stmtRelN_trans r13
        (stmtRelN_setInsertPoint n ((s4.CreateBr id2).push_back (s14.parentName) id2) id2
          (Or.inr (by omega)) (by omega))
      have hlp := optExprStep_rel n oe3 scope
        (((s4.CreateBr id2).push_back (s14.parentName) id2).setInsertPoint id2)
        CodegenErr.failed_to_generate_loop_expression hxl0
      have r15 := stmtRelN_trans r14 hlp
      have e8 : ((((s4.CreateBr id2).push_back (s14.parentName) id2).setInsertPoint id2).nextBlock)
          = (((s4.CreateBr id2).push_back (s14.parentName) id2).nextBlock) := rfl
      have hblel : ((((s4.CreateBr id2).push_back (s14.parentName) id2).setInsertPoint id2).nextBlock) ≤ sE.nextBlock := hlp.nextBlock_le
      have r16 := stmtRelN_trans r15
        (stmtRelN_append n sE (BItem.term (Terminator.br id3)) rfl)
      have e9 : (sE.CreateBr id3).nextBlock = sE.nextBlock := rfl
      have r17 := stmtRelN_trans r16
        (stmtRelN_push_back n (sE.CreateBr id3) (s14.parentName) id0 (by omega))
      have e10 := push_back_nextBlock (sE.CreateBr id3) (s14.parentName) id0
      have r18 := stmtRelN_trans r17
        (stmtRelN_setInsertPoint n ((sE.CreateBr id3).push_back (s14.parentName) id0) id0
          (Or.inr (by omega)) (by omega))
      simp only [statement_visitor]
      split
      next e1x st1 heq =>
        have h5 : istep = (Except.error e1x, st1) := heq
        rw [hxi] at h5
        exact absurd h5 (by simp)
      next a st1 heq =>
        have h5 : istep = (Except.ok a, st1) := heq
        rw [hxi] at h5
        injection h5 with h6 h7
        subst h7
        simp only [hx6, hx5, hx4, hx3]
        split
        next e2x st2 heq2 =>
          have h8 : cstep = (Except.error e2x, st2) := heq2
          rw [hxc] at h8
          exact absurd h8 (by simp)
        next a2 st2 heq2 =>
          have h8 : cstep = (Except.ok a2, st2) := heq2
          rw [hxc] at h8
          injection h8 with h9 h10
          subst h10
          simp only [hxb, hct]
          split
          next e3x st3 heq3 =>
            have h11 : (match oe3 with
            | some le =>
              match expression_visitor le scope (((s4.CreateBr id2).push_back (s14.parentName) id2).setInsertPoint id2) with
              | (Except.error e, s) => ((Except.error e : Except CodegenErr Unit), s)
              | (Except.ok loop_value, s) =>
                if loop_value = Value.null then
                  (Except.error CodegenErr.failed_to_generate_loop_expression, s)
                else (Except.ok (), s)
            | none => ((Except.ok () : Except CodegenErr Unit), ((s4.CreateBr id2).push_back (s14.parentName) id2).setInsertPoint id2)) = (Except.error e3x, st3) := heq3
            have h12 := h11.symm.trans hxl0
            exact absurd h12 (by simp)
          next a3 st3 heq3 =>
            have h11 : (match oe3 with
            | some le =>
              match expression_visitor le scope (((s4.CreateBr id2).push_back (s14.parentName) id2).setInsertPoint id2) with
              | (Except.error e, s) => ((Except.error e : Except CodegenErr Unit), s)
              | (Except.ok loop_value, s) =>
                if loop_value = Value.null then
                  (Except.error CodegenErr.failed_to_generate_loop_expression, s)
                else (Except.ok (), s)
            | none => ((Except.ok () : Except CodegenErr Unit), ((s4.CreateBr id2).push_back (s14.parentName) id2).setInsertPoint id2)) = (Except.ok a3, st3) := heq3
            have h12 := h11.symm.trans hxl0
            injection h12 with h13 h14
            subst h14
            exact r18
    | some tm =>
      have hsm : sM = s4 := by
        rw [show sM = (match s4.currentTerminator with
          | none => s4.CreateBr id2
          | some t => s4) from rfl, hct]
      have hsi3 : sSI3 = (s4.push_back (s14.parentName) id2).setInsertPoint id2 := by
        show (sM.push_back fc id2).setInsertPoint id2 = _
        rw [hsm, hfc]
      have hxl0 : (match oe3 with
      | some le =>
        match expression_visitor le scope (sSI3) with
        | (Except.error e, s) => ((Except.error e : Except CodegenErr Unit), s)
        | (Except.ok loop_value, s) =>
          if loop_value = Value.null then
            (Except.error CodegenErr.failed_to_generate_loop_expression, s)
          else (Except.ok (), s)
      | none => ((Except.ok () : Except CodegenErr Unit), sSI3)) = (Except.ok u3, sE) := hx
      rw [hsi3] at hxl0
      have r13 := stmtRelN_trans r11
        (stmtRelN_push_back n s4 (s14.parentName) id2 (by omega))
      have e7 := push_back_nextBlock s4 (s14.parentName) id2
      have r14 := stmtRelN_trans r13
        (stmtRelN_setInsertPoint n (s4.push_back (s14.parentName) id2) id2
          (Or.inr (by omega)) (by omega))
      have hlp := optExprStep_rel n oe3 scope
        ((s4.push_back (s14.parentName) id2).setInsertPoint id2)
        CodegenErr.failed_to_generate_loop_expression hxl0
      have r15 := stmtRelN_trans r14 hlp
      have e8 : (((s4.push_back (s14.parentName) id2).setInsertPoint id2).nextBlock)
          = ((s4.push_back (s14.parentName) id2).nextBlock) := rfl
      have hblel : (((s4.push_back (s14.parentName) id2).setInsertPoint id2).nextBlock) ≤ sE.nextBlock := hlp.nextBlock_le
      have r16 := stmtRelN_trans r15
        (stmtRelN_append n sE (BItem.term (Terminator.br id3)) rfl)
      have e9 : (sE.CreateBr id3).nextBlock = sE.nextBlock := rfl
      have r17 := stmtRelN_trans r16
        (stmtRelN_push_back n (sE.CreateBr id3) (s14.parentName) id0 (by omega))
      have e10 := push_back_nextBlock (sE.CreateBr id3) (s14.parentName) id0
      have r18 := stmtRelN_trans r17
        (stmtRelN_setInsertPoint n ((sE.CreateBr id3).push_back (s14.parentName) id0) id0
          (Or.inr (by omega)) (by omega))
      simp only [statement_visitor]
      split
      next e1x st1 heq =>
        have h5 : istep = (Except.error e1x, st1) := heq
        rw [hxi] at h5
        exact absurd h5 (by simp)
      next a st1 heq =>
        have h5 : istep = (Except.ok a, st1) := heq
        rw [hxi] at h5
        injection h5 with h6 h7
        subst h7
        simp only [hx6, hx5, hx4, hx3]
        split
        next e2x st2 heq2 =>
          have h8 : cstep = (Except.error e2x, st2) := heq2
          rw [hxc] at h8
          exact absurd h8 (by simp)
        next a2 st2 heq2 =>
          have h8 : cstep = (Except.ok a2, st2) := heq2
          rw [hxc] at h8
          injection h8 with h9 h10
          subst h10
          simp only [hxb, hct]
          split
          next e3x st3 heq3 =>
            have h11 : (match oe3 with
            | some le =>
              match expression_visitor le scope ((s4.push_back (s14.parentName) id2).setInsertPoint id2) with
              | (Except.error e, s) => ((Except.error e : Except CodegenErr Unit), s)
              | (Except.ok loop_value, s) =>
                if loop_value = Value.null then
                  (Except.error CodegenErr.failed_to_generate_loop_expression, s)
                else (Except.ok (), s)
            | none => ((Except.ok () : Except CodegenErr Unit), (s4.push_back (s14.parentName) id2).setInsertPoint id2)) = (Except.error e3x, st3) := heq3
            have h12 := h11.symm.trans hxl0
            exact absurd h12 (by simp)
          next a3 st3 heq3 =>
            have h11 : (match oe3 with
            | some le =>
              match expression_visitor le scope ((s4.push_back (s14.parentName) id2).setInsertPoint id2) with
              | (Except.error e, s) => ((Except.error e : Except CodegenErr Unit), s)
              | (Except.ok loop_value, s) =>
                if loop_value = Value.null then
                  (Except.error CodegenErr.failed_to_generate_loop_expression, s)
                else (Except.ok (), s)
            | none => ((Except.ok () : Except CodegenErr Unit), (s4.push_back (s14.parentName) id2).setInsertPoint id2)) = (Except.ok a3, st3) := heq3
            have h12 := h11.symm.trans hxl0
            injection h12 with h13 h14
            subst h14
            exact r18

/-- regist always leaves the name present (it inserts when absent). -/
theorem regist_exists_self (tbl : symbol_table) (n : String) (i : variable_info) :
    (tbl.regist n i).exists_ n = true := by
  unfold symbol_table.regist symbol_table.exists_
  split
  · assumption
  · simp [lookupName]

/-- A variable definition that succeeds leaves the name registered in the
returned scope. -/
theorem vardef_success_exists
    (x : String) (t : type_info) (q : Option variable_qualifier)
    (init : Option expression) (scope : symbol_table) (ctx : stmt_context)
    (s : CGState) (scope₁ : symbol_table) (s₁ : CGState)
    (h : statement_visitor (.variable_def_statement x t q init) scope ctx s
      = (.ok scope₁, s₁)) :
    scope₁.exists_ x = true := by
  rw [statement_visitor.eq_def] at h
  by_cases hex : scope.exists_ x = true
  · simp [hex] at h
  · simp only [hex, Bool.false_eq_true, if_false, reduceIte] at h
    cases htt : typename_to_type t.id t.is_ptr with
    | none => simp [htt] at h
    | some tinf =>
      simp only [htt] at h
      cases init with
      | none =>
        cases q with
        | none =>
          simp only [Prod.mk.injEq, Except.ok.injEq] at h
          rw [← h.1]
          exact regist_exists_self _ _ _
        | some m =>
          cases m
          simp only [Prod.mk.injEq, Except.ok.injEq] at h
          rw [← h.1]
          exact regist_exists_self _ _ _
      | some ie =>
        cases hiv : expression_visitor ie scope
            (create_entry_block_alloca s s.parentName x tinf.type).2 with
        | mk r s2 =>
          cases r with
          | error e => simp [hiv] at h
          | ok v =>
            simp only [hiv] at h
            by_cases hnull : v = .null
            · simp [hnull] at h
            · simp only [hnull, if_false, reduceIte] at h
              cases q with
              | none =>
                simp only [Prod.mk.injEq, Except.ok.injEq] at h
                rw [← h.1]
                exact regist_exists_self _ _ _
              | some m =>
                cases m
                simp only [Prod.mk.injEq, Except.ok.injEq] at h
                rw [← h.1]
                exact regist_exists_self _ _ _



/-- C1: a second variable definition with the same name in the same block
always fails with the redefinition error (both directly under the threaded
scope and inside the compound-statement loop), and because codegen_statement
hands each block a by-value copy of the scope that is discarded on exit,
defining the name again after a nested block that defined it succeeds. -/
theorem C1_redefinition_same_block :
    (∀ (x : String) (t t2 : type_info) (q q2 : Option variable_qualifier)
        (init init2 : Option expression) (scope : symbol_table)
        (ctx : stmt_context) (s : CGState) (scope₁ : symbol_table) (s₁ : CGState),
      statement_visitor (.variable_def_statement x t q init) scope ctx s
        = (.ok scope₁, s₁) →
      statement_visitor (.variable_def_statement x t2 q2 init2) scope₁ ctx s₁
        = (.error (.redefinition_of x), s₁) ∧
      (s₁.currentTerminator = none →
        codegen_statement (.compound_statement
          [.variable_def_statement x t q init,
           .variable_def_statement x t2 q2 init2]) scope ctx s
        = (.error (.redefinition_of x), s₁))) ∧
    (∀ (x : String) (t : type_info) (q : Option variable_qualifier)
        (scope : symbol_table) (ctx : stmt_context) (s : CGState)
        (tinf : llvm_type_info),
      scope.exists_ x = false →
      typename_to_type t.id t.is_ptr = some tinf →
      ∃ s₁ scope₂ s₂,
        codegen_statement (.compound_statement [.variable_def_statement x t q none])
          scope ctx s = (.ok (), s₁) ∧
        statement_visitor (.variable_def_statement x t q none) scope ctx s₁
          = (.ok scope₂, s₂) ∧
        scope₂.exists_ x = true) := by
  constructor
  · intro x t t2 q q2 init init2 scope ctx s scope₁ s₁ h
    have hex : scope₁.exists_ x = true :=
      vardef_success_exists x t q init scope ctx s scope₁ s₁ h
    have herr : statement_visitor (.variable_def_statement x t2 q2 init2) scope₁ ctx s₁
        = (.error (.redefinition_of x), s₁) := by
      simp [statement_visitor, hex]
    refine ⟨herr, fun hterm => ?_⟩
    have hlist : codegen_statement_list
        [statement.variable_def_statement x t q init,
         statement.variable_def_statement x t2 q2 init2] scope ctx s
        = (.error (.redefinition_of x), s₁) := by
      rw [codegen_statement_list.eq_def]
      simp only [h, hterm]
      rw [codegen_statement_list.eq_def]
      simp only [herr]
    unfold codegen_statement
    rw [statement_visitor.eq_def]
    simp only [hlist]
  · intro x t q scope ctx s tinf hex htt
    cases q with
    | none =>
      refine ⟨(create_entry_block_alloca s s.parentName x tinf.type).2,
        scope.regist x ⟨(create_entry_block_alloca
          (create_entry_block_alloca s s.parentName x tinf.type).2
          ((create_entry_block_alloca s s.parentName x tinf.type).2).parentName
          x tinf.type).1, false, tinf.is_signed⟩,
        (create_entry_block_alloca
          (create_entry_block_alloca s s.parentName x tinf.type).2
          ((create_entry_block_alloca s s.parentName x tinf.type).2).parentName
          x tinf.type).2, ?_, ?_, ?_⟩
      · cases hct : ((create_entry_block_alloca s s.parentName x tinf.type).2).currentTerminator with
        | none =>
          simp [codegen_statement, statement_visitor, codegen_statement_list, hex, htt, hct]
        | some tm =>
          simp [codegen_statement, statement_visitor, codegen_statement_list, hex, htt, hct]
      · simp [statement_visitor, hex, htt]
      · exact regist_exists_self _ _ _
    | some m =>
      cases m
      refine ⟨(create_entry_block_alloca s s.parentName x tinf.type).2,
        scope.regist x ⟨(create_entry_block_alloca
          (create_entry_block_alloca s s.parentName x tinf.type).2
          ((create_entry_block_alloca s s.parentName x tinf.type).2).parentName
          x tinf.type).1, true, tinf.is_signed⟩,
        (create_entry_block_alloca
          (create_entry_block_alloca s s.parentName x tinf.type).2
          ((create_entry_block_alloca s s.parentName x tinf.type).2).parentName
          x tinf.type).2, ?_, ?_, ?_⟩
      · cases hct : ((create_entry_block_alloca s s.parentName x tinf.type).2).currentTerminator with
        | none =>
          simp [codegen_statement, statement_visitor, codegen_statement_list, hex, htt, hct]
        | some tm =>
          simp [codegen_statement, statement_visitor, codegen_statement_list, hex, htt, hct]
      · simp [statement_visitor, hex, htt]
      · exact regist_exists_self _ _ _



/-- Witness for C1: concrete same-block double definition of x errors, and a
definition of x after a nested block that defined x succeeds. -/
theorem C1_redefinition_same_block_witness :
    (statement_visitor (.variable_def_statement "x" ⟨.i32, false⟩ none none)
        ⟨[("x", ⟨⟨0, .int 32⟩, false, true⟩)]⟩ ⟨none, 0, none, none⟩
        ⟨[(0, ⟨[], some "f"⟩)], 0, 1, 1, []⟩
      = (.error (.redefinition_of "x"), ⟨[(0, ⟨[], some "f"⟩)], 0, 1, 1, []⟩)) ∧
    (codegen_statement (.compound_statement
        [.variable_def_statement "x" ⟨.i32, false⟩ none none,
         .variable_def_statement "x" ⟨.i32, false⟩ none none])
        ⟨[]⟩ ⟨none, 0, none, none⟩ ⟨[(0, ⟨[], some "f"⟩)], 0, 1, 0, []⟩
      = (.error (.redefinition_of "x"), ⟨[(0, ⟨[], some "f"⟩)], 0, 1, 1, []⟩)) ∧
    (∃ s₁ scope₂ s₂,
      codegen_statement (.compound_statement
        [.variable_def_statement "x" ⟨.i32, false⟩ none none]) ⟨[]⟩
        ⟨none, 0, none, none⟩ ⟨[(0, ⟨[], some "f"⟩)], 0, 1, 0, []⟩ = (.ok (), s₁) ∧
      statement_visitor (.variable_def_statement "x" ⟨.i32, false⟩ none none)
        ⟨[]⟩ ⟨none, 0, none, none⟩ s₁ = (.ok scope₂, s₂) ∧
      scope₂.exists_ "x" = true) :=
  ⟨(C1_redefinition_same_block.1 "x" ⟨.i32, false⟩ ⟨.i32, false⟩ none none none none
      ⟨[]⟩ ⟨none, 0, none, none⟩ ⟨[(0, ⟨[], some "f"⟩)], 0, 1, 0, []⟩
      ⟨[("x", ⟨⟨0, .int 32⟩, false, true⟩)]⟩
      ⟨[(0, ⟨[], some "f"⟩)], 0, 1, 1, []⟩ rfl).1,
   (C1_redefinition_same_block.1 "x" ⟨.i32, false⟩ ⟨.i32, false⟩ none none none none
      ⟨[]⟩ ⟨none, 0, none, none⟩ ⟨[(0, ⟨[], some "f"⟩)], 0, 1, 0, []⟩
      ⟨[("x", ⟨⟨0, .int 32⟩, false, true⟩)]⟩
      ⟨[(0, ⟨[], some "f"⟩)], 0, 1, 1, []⟩ rfl).2 rfl,
   C1_redefinition_same_block.2 "x" ⟨.i32, false⟩ none ⟨[]⟩ ⟨none, 0, none, none⟩
      ⟨[(0, ⟨[], some "f"⟩)], 0, 1, 0, []⟩ ⟨.int 32, true⟩ rfl rfl⟩

/-- C3: for every assignment or compound-assignment operator (=, +=, -=, *=,
/=, %=): a left operand that is not syntactically a variable reference fails
with the left-hand-side-was-not-a-variable error with the state unchanged; a
variable-reference left operand whose name is not registered fails with the
unknown-variable error after the right-hand side was lowered; a registered
but immutable binding fails with the read-only error after the right-hand
side was lowered. -/
theorem C3_assignment_error_cases (op : String)
    (hop : op = "=" ∨ op = "+=" ∨ op = "-=" ∨ op = "*=" ∨ op = "/=" ∨ op = "%=") :
    (∀ (lhs rhs : expression) (scope : symbol_table) (s : CGState),
      lhs.is_variable_ref = false →
      expression_visitor (.bin_op_expr lhs op rhs) scope s
        = (.error .left_hand_side_was_not_as_variable, s)) ∧
    (∀ (x : String) (rhs : expression) (scope : symbol_table) (s : CGState)
        (v : Value) (s₁ : CGState),
      expression_visitor rhs scope s = (.ok v, s₁) → v ≠ .null →
      scope.find x = none →
      expression_visitor (.bin_op_expr (.variable_ref x) op rhs) scope s
        = (.error (.unknown_variable_name x), s₁)) ∧
    (∀ (x : String) (rhs : expression) (scope : symbol_table) (s : CGState)
        (v : Value) (s₁ : CGState) (info : variable_info),
      expression_visitor rhs scope s = (.ok v, s₁) → v ≠ .null →
      scope.find x = some info → info.is_mutable = false →
      expression_visitor (.bin_op_expr (.variable_ref x) op rhs) scope s
        = (.error (.assignment_of_read_only x), s₁)) := by
  have hguard : (op == "=" || op == "+=" || op == "-=" || op == "*=" || op == "/="
      || op == "%=") = true := by
    rcases hop with h | h | h | h | h | h <;> subst h <;> rfl
  refine ⟨?_, ?_, ?_⟩
  · intro lhs rhs scope s hlhs
    rw [expression_visitor.eq_def]
    simp only [hguard, if_true]
    cases lhs <;> simp_all [expression.is_variable_ref]
  · intro x rhs scope s v s₁ hrhs hv hfind
    rw [expression_visitor.eq_def]
    simp only [hguard, hrhs, hv, hfind, if_true, if_false, reduceIte]
  · intro x rhs scope s v s₁ info hrhs hv hfind hmut
    rw [expression_visitor.eq_def]
    simp only [hguard, hrhs, hv, hfind, hmut, if_true, if_false, reduceIte]

/-- Witness for C3: the three error cases at concrete inputs, one per
assignment family member. -/
theorem C3_assignment_error_cases_witness :
    expression_visitor (.bin_op_expr (.uint32 1) "+=" (.uint32 2)) ⟨[]⟩ ⟨[], 0, 0, 0, []⟩
        = (.error .left_hand_side_was_not_as_variable, ⟨[], 0, 0, 0, []⟩) ∧
    expression_visitor (.bin_op_expr (.variable_ref "x") "=" (.uint32 2)) ⟨[]⟩ ⟨[], 0, 0, 0, []⟩
        = (.error (.unknown_variable_name "x"), ⟨[], 0, 0, 0, []⟩) ∧
    expression_visitor (.bin_op_expr (.variable_ref "x") "%=" (.uint32 2))
        ⟨[("x", ⟨⟨0, .int 32⟩, false, true⟩)]⟩ ⟨[], 0, 0, 1, []⟩
        = (.error (.assignment_of_read_only "x"), ⟨[], 0, 0, 1, []⟩) :=
  ⟨(C3_assignment_error_cases "+=" (.inr (.inl rfl))).1 _ _ _ _ rfl,
   (C3_assignment_error_cases "=" (.inl rfl)).2.1 "x" _ _ _ _ _ rfl (by decide) rfl,
   (C3_assignment_error_cases "%=" (.inr (.inr (.inr (.inr (.inr rfl)))))).2.2
     "x" _ _ _ _ _ _ rfl (by decide) rfl rfl⟩

/-- Appending to the current block preserves which block ids exist. -/
theorem isSome_getBlock_appendToCurrent (s : CGState) (it : BItem) (bid : Nat) :
    ((s.appendToCurrent it).getBlock bid).isSome = (s.getBlock bid).isSome := by
  rw [getBlock_appendToCurrent]
  split <;> simp

/-- Appending to the current block appends to its body. -/
theorem getBody_appendToCurrent_self (s : CGState) (it : BItem)
    (h : (s.getBlock s.insertPt).isSome = true) :
    (s.appendToCurrent it).getBody s.insertPt = s.getBody s.insertPt ++ [it] := by
  unfold CGState.getBody
  rw [getBlock_appendToCurrent, if_pos rfl]
  cases hb : s.getBlock s.insertPt with
  | none => rw [hb] at h; simp at h
  | some b => simp

/-- C4: plain binary / and % always emit the signed sdiv/srem regardless of
any recorded signedness of the operands, while the compound /= and %= emit
the signed operator exactly when the assigned binding is recorded signed and
the unsigned one exactly when it is recorded unsigned; the compound forms
surround the operation with the load, store and re-load of the variable. -/
theorem C4_division_signedness :
    (∀ (l r : expression) (scope : symbol_table) (s : CGState) (lv : Value)
        (s₁ : CGState) (rv : Value) (s₂ : CGState),
      expression_visitor l scope s = (.ok lv, s₁) →
      expression_visitor r scope s₁ = (.ok rv, s₂) →
      lv ≠ .null → rv ≠ .null →
      (s₂.getBlock s₂.insertPt).isSome = true →
      ∃ id s', expression_visitor (.bin_op_expr l "/" r) scope s
          = (.ok (.vreg id lv.getType), s') ∧
        s'.getBody s₂.insertPt = s₂.getBody s₂.insertPt
          ++ [.instr (.binop id .sdiv lv rv)]) ∧
    (∀ (l r : expression) (scope : symbol_table) (s : CGState) (lv : Value)
        (s₁ : CGState) (rv : Value) (s₂ : CGState),
      expression_visitor l scope s = (.ok lv, s₁) →
      expression_visitor r scope s₁ = (.ok rv, s₂) →
      lv ≠ .null → rv ≠ .null →
      (s₂.getBlock s₂.insertPt).isSome = true →
      ∃ id s', expression_visitor (.bin_op_expr l "%" r) scope s
          = (.ok (.vreg id lv.getType), s') ∧
        s'.getBody s₂.insertPt = s₂.getBody s₂.insertPt
          ++ [.instr (.binop id .srem lv rv)]) ∧
    (∀ (x : String) (r : expression) (scope : symbol_table) (s : CGState)
        (rv : Value) (s₁ : CGState) (info : variable_info),
      expression_visitor r scope s = (.ok rv, s₁) → rv ≠ .null →
      scope.find x = some info → info.is_mutable = true →
      (s₁.getBlock s₁.insertPt).isSome = true →
      ∃ id₁ id₂ id₃ s',
        expression_visitor (.bin_op_expr (.variable_ref x) "/=" r) scope s
          = (.ok (.vreg id₃ info.inst.allocatedType), s') ∧
        s'.getBody s₁.insertPt = s₁.getBody s₁.insertPt
          ++ [.instr (.load id₁ info.inst.allocatedType info.inst.toValue),
              .instr (.binop id₂ (if info.is_signed then .sdiv else .udiv)
                (.vreg id₁ info.inst.allocatedType) rv),
              .instr (.store (.vreg id₂ info.inst.allocatedType) info.inst.toValue),
              .instr (.load id₃ info.inst.allocatedType info.inst.toValue)]) ∧
    (∀ (x : String) (r : expression) (scope : symbol_table) (s : CGState)
        (rv : Value) (s₁ : CGState) (info : variable_info),
      expression_visitor r scope s = (.ok rv, s₁) → rv ≠ .null →
      scope.find x = some info → info.is_mutable = true →
      (s₁.getBlock s₁.insertPt).isSome = true →
      ∃ id₁ id₂ id₃ s',
        expression_visitor (.bin_op_expr (.variable_ref x) "%=" r) scope s
          = (.ok (.vreg id₃ info.inst.allocatedType), s') ∧
        s'.getBody s₁.insertPt = s₁.getBody s₁.insertPt
          ++ [.instr (.load id₁ info.inst.allocatedType info.inst.toValue),
              .instr (.binop id₂ (if info.is_signed then .srem else .urem)
                (.vreg id₁ info.inst.allocatedType) rv),
              .instr (.store (.vreg id₂ info.inst.allocatedType) info.inst.toValue),
              .instr (.load id₃ info.inst.allocatedType info.inst.toValue)]) := by
  have plain : ∀ (bop : BinArith) (opstr : String), opstr = "/" ∨ opstr = "%" →
      (opstr = "/" → bop = .sdiv) → (opstr = "%" → bop = .srem) →
      ∀ (l r : expression) (scope : symbol_table) (s : CGState) (lv : Value)
        (s₁ : CGState) (rv : Value) (s₂ : CGState),
      expression_visitor l scope s = (.ok lv, s₁) →
      expression_visitor r scope s₁ = (.ok rv, s₂) →
      lv ≠ .null → rv ≠ .null →
      (s₂.getBlock s₂.insertPt).isSome = true →
      ∃ id s', expression_visitor (.bin_op_expr l opstr r) scope s
          = (.ok (.vreg id lv.getType), s') ∧
        s'.getBody s₂.insertPt = s₂.getBody s₂.insertPt
          ++ [.instr (.binop id bop lv rv)] := by
    intro bop opstr hops hbd hbr l r scope s lv s₁ rv s₂ hl hr hnl hnr hsome
    refine ⟨s₂.nextValue,
      (s₂.freshVal.2).appendToCurrent (.instr (.binop s₂.nextValue bop lv rv)), ?_, ?_⟩
    · rw [expression_visitor.eq_def]
      rcases hops with h | h <;> subst h
      · rw [hbd rfl]
        simp only [hl, hr, hnl, hnr, if_false, if_true, reduceIte, String.reduceBEq,
          Bool.false_eq_true]
        rfl
      · rw [hbr rfl]
        simp only [hl, hr, hnl, hnr, if_false, if_true, reduceIte, String.reduceBEq,
          Bool.false_eq_true]
        rfl
    · exact getBody_appendToCurrent_self s₂.freshVal.2 _ hsome
  have compound : ∀ (sop uop : BinArith) (opstr : String), opstr = "/=" ∨ opstr = "%=" →
      ∀ (x : String) (r : expression) (scope : symbol_table) (s : CGState)
        (rv : Value) (s₁ : CGState) (info : variable_info),
      expression_visitor r scope s = (.ok rv, s₁) → rv ≠ .null →
      scope.find x = some info → info.is_mutable = true →
      (s₁.getBlock s₁.insertPt).isSome = true →
      (opstr = "/=" → sop = .sdiv ∧ uop = .udiv) →
      (opstr = "%=" → sop = .srem ∧ uop = .urem) →
      ∃ id₁ id₂ id₃ s',
        expression_visitor (.bin_op_expr (.variable_ref x) opstr r) scope s
          = (.ok (.vreg id₃ info.inst.allocatedType), s') ∧
        s'.getBody s₁.insertPt = s₁.getBody s₁.insertPt
          ++ [.instr (.load id₁ info.inst.allocatedType info.inst.toValue),
              .instr (.binop id₂ (if info.is_signed then sop else uop)
                (.vreg id₁ info.inst.allocatedType) rv),
              .instr (.store (.vreg id₂ info.inst.allocatedType) info.inst.toValue),
              .instr (.load id₃ info.inst.allocatedType info.inst.toValue)] := by
    intro sop uop opstr hops x r scope s rv s₁ info hr hnr hfind hmut hsome hbd hbr
    refine ⟨s₁.nextValue, s₁.nextValue + 1, s₁.nextValue + 2,
      ((((((s₁.freshVal.2).appendToCurrent
          (.instr (.load s₁.nextValue info.inst.allocatedType info.inst.toValue))).freshVal.2).appendToCurrent
          (.instr (.binop (s₁.nextValue + 1) (if info.is_signed then sop else uop)
            (.vreg s₁.nextValue info.inst.allocatedType) rv))).appendToCurrent
          (.instr (.store (.vreg (s₁.nextValue + 1) info.inst.allocatedType)
            info.inst.toValue))).freshVal.2).appendToCurrent
          (.instr (.load (s₁.nextValue + 2) info.inst.allocatedType info.inst.toValue)),
      ?_, ?_⟩
    · rw [expression_visitor.eq_def]
      rcases hops with h | h <;> subst h
      · obtain ⟨hs, hu⟩ := hbd rfl
        subst hs; subst hu
        simp only [hr, hnr, hfind, hmut, if_false, if_true, reduceIte, String.reduceBEq,
          Bool.false_eq_true]
        cases hsign : info.is_signed <;> rfl
      · obtain ⟨hs, hu⟩ := hbr rfl
        subst hs; subst hu
        simp only [hr, hnr, hfind, hmut, if_false, if_true, reduceIte, String.reduceBEq,
          Bool.false_eq_true]
        cases hsign : info.is_signed <;> rfl
    · have hsomeA : ((((s₁.freshVal.2).appendToCurrent (BItem.instr (Instr.load s₁.nextValue info.inst.allocatedType info.inst.toValue))).getBlock s₁.insertPt).isSome) = true :=
        (isSome_getBlock_appendToCurrent s₁.freshVal.2 _ s₁.insertPt).trans hsome
      have hsomeB : ((((((s₁.freshVal.2).appendToCurrent (BItem.instr (Instr.load s₁.nextValue info.inst.allocatedType info.inst.toValue))).freshVal.2).appendToCurrent (BItem.instr (Instr.binop (s₁.nextValue + 1) (if info.is_signed then sop else uop) (Value.vreg s₁.nextValue info.inst.allocatedType) rv))).getBlock s₁.insertPt).isSome) = true :=
        (isSome_getBlock_appendToCurrent _ _ s₁.insertPt).trans hsomeA
      have hsomeC : (((((((s₁.freshVal.2).appendToCurrent (BItem.instr (Instr.load s₁.nextValue info.inst.allocatedType info.inst.toValue))).freshVal.2).appendToCurrent (BItem.instr (Instr.binop (s₁.nextValue + 1) (if info.is_signed then sop else uop) (Value.vreg s₁.nextValue info.inst.allocatedType) rv))).appendToCurrent (BItem.instr (Instr.store (Value.vreg (s₁.nextValue + 1) info.inst.allocatedType) info.inst.toValue))).getBlock s₁.insertPt).isSome) = true :=
        (isSome_getBlock_appendToCurrent _ _ s₁.insertPt).trans hsomeB
      have e1 : ((s₁.freshVal.2).appendToCurrent (BItem.instr (Instr.load s₁.nextValue info.inst.allocatedType info.inst.toValue))).getBody s₁.insertPt = s₁.getBody s₁.insertPt ++ [(BItem.instr (Instr.load s₁.nextValue info.inst.allocatedType info.inst.toValue))] :=
        getBody_appendToCurrent_self _ _ hsome
      have e2 : ((((s₁.freshVal.2).appendToCurrent (BItem.instr (Instr.load s₁.nextValue info.inst.allocatedType info.inst.toValue))).freshVal.2).appendToCurrent (BItem.instr (Instr.binop (s₁.nextValue + 1) (if info.is_signed then sop else uop) (Value.vreg s₁.nextValue info.inst.allocatedType) rv))).getBody s₁.insertPt = ((s₁.freshVal.2).appendToCurrent (BItem.instr (Instr.load s₁.nextValue info.inst.allocatedType info.inst.toValue))).getBody s₁.insertPt ++ [(BItem.instr (Instr.binop (s₁.nextValue + 1) (if info.is_signed then sop else uop) (Value.vreg s₁.nextValue info.inst.allocatedType) rv))] :=
        getBody_appendToCurrent_self _ _ hsomeA
      have e3 : (((((s₁.freshVal.2).appendToCurrent (BItem.instr (Instr.load s₁.nextValue info.inst.allocatedType info.inst.toValue))).freshVal.2).appendToCurrent (BItem.instr (Instr.binop (s₁.nextValue + 1) (if info.is_signed then sop else uop) (Value.vreg s₁.nextValue info.inst.allocatedType) rv))).appendToCurrent (BItem.instr (Instr.store (Value.vreg (s₁.nextValue + 1) info.inst.allocatedType) info.inst.toValue))).getBody s₁.insertPt = ((((s₁.freshVal.2).appendToCurrent (BItem.instr (Instr.load s₁.nextValue info.inst.allocatedType info.inst.toValue))).freshVal.2).appendToCurrent (BItem.instr (Instr.binop (s₁.nextValue + 1) (if info.is_signed then sop else uop) (Value.vreg s₁.nextValue info.inst.allocatedType) rv))).getBody s₁.insertPt ++ [(BItem.instr (Instr.store (Value.vreg (s₁.nextValue + 1) info.inst.allocatedType) info.inst.toValue))] :=
        getBody_appendToCurrent_self _ _ hsomeB
      have e4 : (((((((s₁.freshVal.2).appendToCurrent (BItem.instr (Instr.load s₁.nextValue info.inst.allocatedType info.inst.toValue))).freshVal.2).appendToCurrent (BItem.instr (Instr.binop (s₁.nextValue + 1) (if info.is_signed then sop else uop) (Value.vreg s₁.nextValue info.inst.allocatedType) rv))).appendToCurrent (BItem.instr (Instr.store (Value.vreg (s₁.nextValue + 1) info.inst.allocatedType) info.inst.toValue))).freshVal.2).appendToCurrent (BItem.instr (Instr.load (s₁.nextValue + 2) info.inst.allocatedType info.inst.toValue))).getBody s₁.insertPt = (((((s₁.freshVal.2).appendToCurrent (BItem.instr (Instr.load s₁.nextValue info.inst.allocatedType info.inst.toValue))).freshVal.2).appendToCurrent (BItem.instr (Instr.binop (s₁.nextValue + 1) (if info.is_signed then sop else uop) (Value.vreg s₁.nextValue info.inst.allocatedType) rv))).appendToCurrent (BItem.instr (Instr.store (Value.vreg (s₁.nextValue + 1) info.inst.allocatedType) info.inst.toValue))).getBody s₁.insertPt ++ [(BItem.instr (Instr.load (s₁.nextValue + 2) info.inst.allocatedType info.inst.toValue))] :=
        getBody_appendToCurrent_self _ _ hsomeC
      rw [e4, e3, e2, e1]
      simp
  refine ⟨?_, ?_, ?_, ?_⟩
  · exact plain .sdiv "/" (.inl rfl) (fun _ => rfl) (fun h => absurd h (by decide))
  · exact plain .srem "%" (.inr rfl) (fun h => absurd h (by decide)) (fun _ => rfl)
  · intro x r scope s rv s₁ info hr hnr hfind hmut hsome
    exact compound .sdiv .udiv "/=" (.inl rfl) x r scope s rv s₁ info hr hnr hfind hmut
      hsome (fun _ => ⟨rfl, rfl⟩) (fun h => absurd h (by decide))
  · intro x r scope s rv s₁ info hr hnr hfind hmut hsome
    exact compound .srem .urem "%=" (.inr rfl) x r scope s rv s₁ info hr hnr hfind hmut
      hsome (fun h => absurd h (by decide)) (fun _ => ⟨rfl, rfl⟩)



/-- Witness for C4: a signed division of two literals emits sdiv, and a
compound division assignment to an unsigned variable emits udiv. -/
theorem C4_division_signedness_witness :
    (∃ id s', expression_visitor (.bin_op_expr (.uint32 6) "/" (.uint32 2)) ⟨[]⟩
        ⟨[(0, ⟨[], some "f"⟩)], 0, 1, 0, []⟩
      = (.ok (.vreg id (.int 32)), s') ∧
      s'.getBody 0 = [.instr (.binop id .sdiv (.constInt (.int 32) 6)
        (.constInt (.int 32) 2))]) ∧
    (∃ id₁ id₂ id₃ s',
      expression_visitor (.bin_op_expr (.variable_ref "x") "/=" (.uint32 2))
        ⟨[("x", ⟨⟨1, .int 32⟩, true, false⟩)]⟩ ⟨[(0, ⟨[], some "f"⟩)], 0, 1, 0, []⟩
      = (.ok (.vreg id₃ (.int 32)), s') ∧
      s'.getBody 0 = [.instr (.load id₁ (.int 32) (.vreg 1 (.ptr (.int 32)))),
        .instr (.binop id₂ .udiv (.vreg id₁ (.int 32)) (.constInt (.int 32) 2)),
        .instr (.store (.vreg id₂ (.int 32)) (.vreg 1 (.ptr (.int 32)))),
        .instr (.load id₃ (.int 32) (.vreg 1 (.ptr (.int 32))))]) :=
  ⟨C4_division_signedness.1 (.uint32 6) (.uint32 2) ⟨[]⟩
      ⟨[(0, ⟨[], some "f"⟩)], 0, 1, 0, []⟩ (.constInt (.int 32) 6)
      ⟨[(0, ⟨[], some "f"⟩)], 0, 1, 0, []⟩ (.constInt (.int 32) 2)
      ⟨[(0, ⟨[], some "f"⟩)], 0, 1, 0, []⟩ rfl rfl (by decide) (by decide) rfl,
   C4_division_signedness.2.2.1 "x" (.uint32 2)
      ⟨[("x", ⟨⟨1, .int 32⟩, true, false⟩)]⟩ ⟨[(0, ⟨[], some "f"⟩)], 0, 1, 0, []⟩
      (.constInt (.int 32) 2) ⟨[(0, ⟨[], some "f"⟩)], 0, 1, 0, []⟩
      ⟨⟨1, .int 32⟩, true, false⟩ rfl (by decide) rfl rfl rfl⟩

/-- C5: for every call expression whose callee resolves to a non-variadic
function, an argument count different from the parameter count fails with the
incorrect-arguments error before any argument expression is lowered, leaving
the state unchanged (no side effects from argument evaluation). -/
theorem C5_call_arity_checked_before_arguments
    (callee : String) (args : List expression) (scope : symbol_table)
    (s : CGState) (f : LFunction)
    (hf : s.getFunction callee = some f)
    (hva : f.is_vararg = false)
    (hlen : f.param_types.length ≠ args.length) :
    expression_visitor (.function_call_expr callee args) scope s
      = (.error .incorrect_arguments_passed, s) := by
  simp [expression_visitor, hf, hva, hlen]

/-- Witness for C5 on a concrete module: calling a unary function with no
arguments fails with the arity error and an unchanged state. -/
theorem C5_call_arity_witness :
    expression_visitor (.function_call_expr "f" []) ⟨[]⟩
        ⟨[(0, ⟨[], some "f"⟩)], 0, 1, 0,
          [⟨"f", [.int 32], ["a"], .int 32, false, false, [0]⟩]⟩
      = (.error .incorrect_arguments_passed,
         ⟨[(0, ⟨[], some "f"⟩)], 0, 1, 0,
          [⟨"f", [.int 32], ["a"], .int 32, false, false, [0]⟩]⟩) :=
  C5_call_arity_checked_before_arguments "f" [] ⟨[]⟩ _ _ rfl rfl (by decide)

/-- C6 (code bug): the first-argument type mismatch in a call is reported as
argument 2 — the verification loop post-increments the index for the
subscript and then adds one more in the message, so the reported number is
the 1-based position plus one, not the 1-based position the specification
states.  Here f takes one i8 parameter and the sole (first) argument is an
i32 literal. -/
theorem C6_first_argument_mismatch_reported_as_two :
    expression_visitor (.function_call_expr "f" [.uint32 0]) ⟨[]⟩
        ⟨[(0, ⟨[], some "f"⟩)], 0, 1, 0,
          [⟨"f", [.int 8], ["a"], .int 32, false, false, [0]⟩]⟩
      = (.error (.incompatible_type_for_argument 2 "f"),
         ⟨[(0, ⟨[], some "f"⟩)], 0, 1, 0,
          [⟨"f", [.int 8], ["a"], .int 32, false, false, [0]⟩]⟩) := rfl

/-- C7: a break or continue statement outside any loop (no break or continue
target in scope) inserts no branch and raises no error: the lowering returns
the scope and state unchanged. -/
theorem C7_break_continue_outside_loop_noop
    (scope : symbol_table) (ctx : stmt_context) (s : CGState) :
    (ctx.break_bb = none →
      statement_visitor .break_statement scope ctx s = (.ok scope, s)) ∧
    (ctx.continue_bb = none →
      statement_visitor .continue_statement scope ctx s = (.ok scope, s)) := by
  constructor <;> intro h <;> simp [statement_visitor, h]

/-- Witness for C7 at a concrete empty state and loop-free context. -/
theorem C7_break_continue_witness :
    statement_visitor .break_statement ⟨[]⟩ ⟨none, 0, none, none⟩ ⟨[], 0, 0, 0, []⟩
        = (.ok ⟨[]⟩, ⟨[], 0, 0, 0, []⟩) ∧
    statement_visitor .continue_statement ⟨[]⟩ ⟨none, 0, none, none⟩ ⟨[], 0, 0, 0, []⟩
        = (.ok ⟨[]⟩, ⟨[], 0, 0, 0, []⟩) :=
  ⟨(C7_break_continue_outside_loop_noop ⟨[]⟩ ⟨none, 0, none, none⟩ ⟨[], 0, 0, 0, []⟩).1 rfl,
   (C7_break_continue_outside_loop_noop ⟨[]⟩ ⟨none, 0, none, none⟩ ⟨[], 0, 0, 0, []⟩).2 rfl⟩

/-- C9: shadowing is impossible — a variable definition whose name is already
bound anywhere in the enclosing scope (the block's by-value copy carries every
enclosing binding, and the existence check consults that whole copy) fails
with a redefinition error, also from inside nested blocks. -/
theorem C9_shadowing_impossible
    (scope : symbol_table) (ctx : stmt_context) (s : CGState) (x : String)
    (t : type_info) (q : Option variable_qualifier) (init : Option expression)
    (h : scope.exists_ x = true) :
    statement_visitor (.variable_def_statement x t q init) scope ctx s
        = (.error (.redefinition_of x), s) ∧
    codegen_statement (.compound_statement [.compound_statement
        [.variable_def_statement x t q init]]) scope ctx s
      = (.error (.redefinition_of x), s) := by
  have h1 : statement_visitor (.variable_def_statement x t q init) scope ctx s
      = (.error (.redefinition_of x), s) := by
    simp [statement_visitor, h]
  exact ⟨h1, by simp [codegen_statement, statement_visitor, codegen_statement_list, h]⟩

/-- Witness for C9: a parameter-like binding for x makes a doubly nested
definition of x fail with the redefinition error. -/
theorem C9_shadowing_witness :
    codegen_statement (.compound_statement [.compound_statement
        [.variable_def_statement "x" ⟨.i32, false⟩ none none]])
        ⟨[("x", ⟨⟨0, .int 32⟩, true, false⟩)]⟩ ⟨none, 0, none, none⟩
        ⟨[(0, ⟨[], some "f"⟩)], 0, 1, 1, []⟩
      = (.error (.redefinition_of "x"), ⟨[(0, ⟨[], some "f"⟩)], 0, 1, 1, []⟩) :=
  (C9_shadowing_impossible ⟨[("x", ⟨⟨0, .int 32⟩, true, false⟩)]⟩
    ⟨none, 0, none, none⟩ ⟨[(0, ⟨[], some "f"⟩)], 0, 1, 1, []⟩
    "x" ⟨.i32, false⟩ none none rfl).2

/-- C10: as soon as a statement of a compound block leaves the current
insertion block with a terminator, the remaining statements are skipped
entirely: the compound's lowering succeeds with exactly the state after that
statement, whatever the rest contains (so errors in the rest are never
diagnosed). -/
theorem C10_terminator_skips_rest
    (st : statement) (rest : List statement) (scope : symbol_table)
    (ctx : stmt_context) (s : CGState) (scope₁ : symbol_table) (s₁ : CGState)
    (t : Terminator)
    (h : statement_visitor st scope ctx s = (.ok scope₁, s₁))
    (ht : s₁.currentTerminator = some t) :
    codegen_statement (.compound_statement (st :: rest)) scope ctx s = (.ok (), s₁) := by
  simp [codegen_statement, statement_visitor, codegen_statement_list, h, ht]

/-- Witness for C10: after a return statement the rest of the block — here a
reference to the undeclared variable y, which alone would be an error — is
skipped and the compound lowers successfully. -/
theorem C10_terminator_skips_rest_witness :
    codegen_statement (.compound_statement [.return_statement none,
        .expr_statement (.variable_ref "y")]) ⟨[]⟩ ⟨none, 0, none, none⟩
        ⟨[(0, ⟨[], some "f"⟩)], 0, 1, 0, []⟩
      = (.ok (), ⟨[(0, ⟨[.term (.br 0)], some "f"⟩)], 0, 1, 0, []⟩) :=
  C10_terminator_skips_rest (.return_statement none)
    [.expr_statement (.variable_ref "y")] ⟨[]⟩ ⟨none, 0, none, none⟩
    ⟨[(0, ⟨[], some "f"⟩)], 0, 1, 0, []⟩ ⟨[]⟩
    ⟨[(0, ⟨[.term (.br 0)], some "f"⟩)], 0, 1, 0, []⟩ (.br 0) rfl rfl

end Twinkle
namespace Twinkle

theorem alloca_functions (s : CGState) (fn : Option String) (nm : String) (ty : LType) :
    (create_entry_block_alloca s fn nm ty).2.functions = s.functions := by
  unfold create_entry_block_alloca
  cases fn with
  | none => rfl
  | some f =>
    cases hf : s.freshVal.2.getFunction f with
    | none =>
      simp only [hf]
      rfl
    | some g =>
      simp only [hf]
      cases hh : g.basic_blocks.head? with
      | none =>
        simp only [hh]
        rfl
      | some e =>
        simp only [hh]
        rfl

theorem retsIn_appendToCurrent_ne (s : CGState) (it : BItem) (bid : Nat)
    (h : bid ≠ s.insertPt) : retsIn (s.appendToCurrent it) bid = retsIn s bid := by
  unfold retsIn CGState.getBody
  rw [getBlock_appendToCurrent, if_neg h]

theorem isSome_getBlock_push_back (s : CGState) (fn : Option String) (tgt bid : Nat) :
    ((s.push_back fn tgt).getBlock bid).isSome = (s.getBlock bid).isSome := by
  cases fn with
  | none => rfl
  | some nm =>
    show (findBlock (s.blocks.map _) bid).isSome = _
    rw [findBlock_map_if s.blocks tgt bid (fun b => { b with parent := some nm })]
    split
    · show ((CGState.getBlock s bid).map _).isSome = _
      cases s.getBlock bid <;> rfl
    · rfl

theorem retsIn_CreateStore (s : CGState) (v p : Value) (bid : Nat) :
    retsIn (s.CreateStore v p) bid = retsIn s bid :=
  retsIn_appendToCurrent s (BItem.instr (Instr.store v p)) rfl bid

theorem args_loop_facts (ps : List func_parameter) (func : LFunction) :
    ∀ (n idx : Nat) (scope : symbol_table) (s : CGState)
      (r : Except CodegenErr symbol_table) (s1 : CGState),
      define_args_loop ps func n idx scope s = (r, s1) →
      s1.nextBlock = s.nextBlock ∧ s1.insertPt = s.insertPt ∧
      s1.functions = s.functions ∧ (∀ bid, retsIn s1 bid = retsIn s bid) ∧
      (wfPool s → wfPool s1) := by
  intro n
  induction n with
  | zero =>
    intro idx scope s r s1 h
    unfold define_args_loop at h
    injection h with h1 h2
    subst h2
    exact ⟨rfl, rfl, rfl, fun _ => rfl, id⟩
  | succ m ih =>
    intro idx scope s r s1 h
    unfold define_args_loop at h
    cases htt : typename_to_type (ps.getD idx default_parameter).type.id
        (ps.getD idx default_parameter).type.is_ptr with
    | none =>
      simp only [htt] at h
      injection h with h1 h2
      subst h2
      exact ⟨rfl, rfl, rfl, fun _ => rfl, id⟩
    | some at_ =>
      simp only [htt] at h
      cases hal : create_entry_block_alloca s (some func.name)
          (func.param_names.getD idx "") at_.type with
      | mk inst sA =>
        simp only [hal] at h
        obtain ⟨ra, hnbA, hipA⟩ := stmtRelN_alloca_eq (0 : Nat) hal
        have hfA : sA.functions = s.functions := by
          have h2 : (create_entry_block_alloca s (some func.name)
              (func.param_names.getD idx "") at_.type).2.functions = sA.functions :=
            congrArg (fun q => CGState.functions q.2) hal
          rw [alloca_functions] at h2
          exact h2.symm
        cases hq : (ps.getD idx default_parameter).qualifier with
        | none =>
          simp only [hq] at h
          obtain ⟨k1, k2, k3, k4, k5⟩ := ih (idx + 1) _ _ _ _ h
          refine ⟨by rw [k1]; exact hnbA, by rw [k2]; exact hipA,
            by rw [k3]; exact hfA, ?_, ?_⟩
          · intro bid
            rw [k4 bid, retsIn_CreateStore, ra.rets_eq bid]
          · intro hwf
            exact k5 ((stmtRelN_append 0 sA (BItem.instr (Instr.store
              (Value.farg idx (func.param_types.getD idx LType.void)) inst.toValue))
              rfl).wf_pres (ra.wf_pres hwf))
        | some mq =>
          cases mq
          simp only [hq] at h
          obtain ⟨k1, k2, k3, k4, k5⟩ := ih (idx + 1) _ _ _ _ h
          refine ⟨by rw [k1]; exact hnbA, by rw [k2]; exact hipA,
            by rw [k3]; exact hfA, ?_, ?_⟩
          · intro bid
            rw [k4 bid, retsIn_CreateStore, ra.rets_eq bid]
          · intro hwf
            exact k5 ((stmtRelN_append 0 sA (BItem.instr (Instr.store
              (Value.farg idx (func.param_types.getD idx LType.void)) inst.toValue))
              rfl).wf_pres (ra.wf_pres hwf))

end Twinkle

namespace Twinkle

theorem getBlock_CreateStore (s : CGState) (v p : Value) (bid : Nat) :
    (s.CreateStore v p).getBlock bid =
      if bid = s.insertPt then
        (s.getBlock bid).map (fun b => { b with body := b.body ++ [.instr (.store v p)] })
      else s.getBlock bid :=
  getBlock_appendToCurrent s _ bid

theorem getBlock_CreateBr (s : CGState) (t bid : Nat) :
    (s.CreateBr t).getBlock bid =
      if bid = s.insertPt then
        (s.getBlock bid).map (fun b => { b with body := b.body ++ [.term (.br t)] })
      else s.getBlock bid :=
  getBlock_appendToCurrent s _ bid

theorem insertPt_CreateStore (s : CGState) (v p : Value) :
    (s.CreateStore v p).insertPt = s.insertPt := rfl

theorem insertPt_CreateBr (s : CGState) (t : Nat) :
    (s.CreateBr t).insertPt = s.insertPt := rfl

theorem synthRet_getBlock_ne (nm : String) (rid : type_name) (rty : LType)
    (rvo : Option AllocaInst) (eb : Nat) (st : CGState) (bid : Nat)
    (h : bid ≠ st.insertPt) :
    (synthesize_return nm rid rty rvo eb st).getBlock bid = st.getBlock bid := by
  unfold synthesize_return
  split
  · rename_i hcond
    obtain ⟨hct, hnv⟩ := hcond
    split
    all_goals split
    all_goals simp [getBlock_CreateBr, getBlock_CreateStore, insertPt_CreateStore,
      insertPt_CreateBr, h, hnv]
  · show (if rid = type_name.void_ ∧ st.currentTerminator = none
        then st.CreateBr eb else st).getBlock bid = st.getBlock bid
    split
    · simp [getBlock_CreateBr, insertPt_CreateBr, h]
    · rfl

theorem retsIn_CreateBr (s : CGState) (t : Nat) (bid : Nat) :
    retsIn (s.CreateBr t) bid = retsIn s bid :=
  retsIn_appendToCurrent s (BItem.term (Terminator.br t)) rfl bid

theorem synthRet_rets (nm : String) (rid : type_name) (rty : LType)
    (rvo : Option AllocaInst) (eb : Nat) (st : CGState) (bid : Nat) :
    retsIn (synthesize_return nm rid rty rvo eb st) bid = retsIn st bid := by
  unfold synthesize_return
  split
  · rename_i hcond
    obtain ⟨hct, hnv⟩ := hcond
    split
    all_goals split
    all_goals simp [retsIn_CreateBr, retsIn_CreateStore, hnv]
  · show retsIn (if rid = type_name.void_ ∧ st.currentTerminator = none
        then st.CreateBr eb else st) bid = retsIn st bid
    split
    · simp [retsIn_CreateBr]
    · rfl

theorem synthRet_insertPt (nm : String) (rid : type_name) (rty : LType)
    (rvo : Option AllocaInst) (eb : Nat) (st : CGState) :
    (synthesize_return nm rid rty rvo eb st).insertPt = st.insertPt := by
  unfold synthesize_return
  split
  · rename_i hcond
    obtain ⟨hct, hnv⟩ := hcond
    split
    all_goals split
    all_goals simp [insertPt_CreateStore, insertPt_CreateBr, hnv]
  · show (if rid = type_name.void_ ∧ st.currentTerminator = none
        then st.CreateBr eb else st).insertPt = st.insertPt
    split
    · rfl
    · rfl

theorem prolog_facts (decl : function_declare) (func : LFunction) (s : CGState)
    (argvals : symbol_table) (retvar : Option AllocaInst) (e : Nat) (s₁ : CGState)
    (hwfp : wfPool s)
    (hfdet : ∀ f ∈ s.functions, ∀ bid ∈ f.basic_blocks, bid < s.nextBlock)
    (h : define_prolog decl func s = (.ok (argvals, retvar, e), s₁)) :
    e = s.nextBlock + 1 ∧ s₁.nextBlock = s.nextBlock + 2 ∧ s₁.insertPt = s.nextBlock ∧
    s₁.getBlock e = some ⟨[], none⟩ ∧ (∀ f ∈ s₁.functions, e ∉ f.basic_blocks) ∧
    (∀ bid, retsIn s₁ bid = retsIn s bid) ∧ wfPool s₁ := by
  unfold define_prolog at h
  cases hcb : s.createBlock (some func.name) with
  | mk entry sA =>
    simp only [hcb] at h
    have hentry : s.nextBlock = entry := congrArg Prod.fst hcb
    have hAnb : s.nextBlock + 1 = sA.nextBlock :=
      congrArg (fun q => CGState.nextBlock q.2) hcb
    have relA : stmtRelN 0 s sA := by
      have hr := stmtRelN_createBlock 0 s (some func.name) (Nat.zero_le _) hwfp
      rw [hcb] at hr
      exact hr
    have hwfA : wfPool sA := relA.wf_pres hwfp
    have hfdetA : ∀ f ∈ sA.functions, ∀ bid ∈ f.basic_blocks, bid < sA.nextBlock := by
      have hfun : sA.functions = (match (some func.name : Option String) with
          | none => s.functions
          | some n => updateFunc s.functions n
              (fun f => { f with basic_blocks := f.basic_blocks ++ [s.nextBlock] })) :=
        congrArg (fun q => CGState.functions q.2) hcb |>.symm
      intro f hf bid hbid
      rw [hfun] at hf
      rcases mem_updateFunc hf with hmem | ⟨f0, hf0, he⟩
      · have := hfdet f hmem bid hbid
        omega
      · rw [he] at hbid
        simp only [List.mem_append, List.mem_singleton] at hbid
        rcases hbid with hbid | hbid
        · have := hfdet f0 hf0 bid hbid
          omega
        · omega
    have hwfB : wfPool (sA.setInsertPoint entry) := by
      refine ⟨?_, hwfA.2⟩
      show entry < sA.nextBlock
      omega
    cases hargs : define_args_loop decl.params func func.param_types.length 0 ⟨[]⟩
        (sA.setInsertPoint entry) with
    | mk ra sC =>
      simp only [hargs] at h
      cases ra with
      | error er => simp at h
      | ok av =>
        cases htt : typename_to_type decl.return_type.id decl.return_type.is_ptr with
        | none => simp [htt] at h
        | some ri =>
          simp only [htt] at h
          obtain ⟨kC1, kC2, kC3, kC4, kC5⟩ :=
            args_loop_facts decl.params func func.param_types.length 0 ⟨[]⟩
              (sA.setInsertPoint entry) (.ok av) sC hargs
          have hwfC : wfPool sC := kC5 hwfB
          cases hcb2 : sC.createBlock none with
          | mk eb sD =>
            simp only [hcb2] at h
            have heb : sC.nextBlock = eb := congrArg Prod.fst hcb2
            have hDnb : sC.nextBlock + 1 = sD.nextBlock :=
              congrArg (fun q => CGState.nextBlock q.2) hcb2
            have hDip : sC.insertPt = sD.insertPt :=
              congrArg (fun q => CGState.insertPt q.2) hcb2
            have relD : stmtRelN 0 sC sD := by
              have hr := stmtRelN_createBlock 0 sC none (Nat.zero_le _) hwfC
              rw [hcb2] at hr
              exact hr
            have hwfD : wfPool sD := relD.wf_pres hwfC
            have hDfun : sD.functions = sC.functions :=
              congrArg (fun q => CGState.functions q.2) hcb2 |>.symm
            have hgbD : sD.getBlock eb = some ⟨[], none⟩ := by
              have hg := congrArg (fun q => CGState.getBlock q.2 eb) hcb2
              have hg2 : (sC.createBlock none).2.getBlock eb = sD.getBlock eb := hg
              rw [getBlock_createBlock, if_pos (by omega)] at hg2
              exact hg2.symm
            have hretsD : ∀ bid, retsIn sD bid = retsIn sC bid := by
              intro bid
              have hr := retsIn_createBlock sC none (hwfC.2 _ (Nat.le_refl _)) bid
              have hr2 : (sC.createBlock none).2 = sD := congrArg Prod.snd hcb2
              rw [hr2] at hr
              exact hr
            have kC1b : sC.nextBlock = sA.nextBlock := kC1
            have kC2b : sC.insertPt = entry := kC2
            have hdetD : ∀ f ∈ sD.functions, eb ∉ f.basic_blocks := by
              intro f hf
              rw [hDfun, kC3] at hf
              intro hmem
              have := hfdetA f hf eb hmem
              omega
            have hrets1 : ∀ bid, retsIn sD bid = retsIn s bid := by
              intro bid
              rw [hretsD bid, kC4 bid]
              have hset : retsIn (sA.setInsertPoint entry) bid = retsIn sA bid := rfl
              rw [hset, relA.rets_eq bid]
            have hsdip : sD.insertPt = entry := by rw [← hDip, kC2b]
            by_cases hvd : decl.return_type.id = type_name.void_
            · rw [if_pos hvd] at h
              injection h with h1 h2
              injection h1 with h3
              injection h3 with h4 h5
              injection h5 with h6 h7
              subst h2 h7 h4
              refine ⟨by omega, by omega, by omega, hgbD, hdetD, hrets1, hwfD⟩
            · rw [if_neg hvd] at h
              cases hal : create_entry_block_alloca sD (some func.name) "" ri.type with
              | mk rv sE =>
                simp only [hal] at h
                injection h with h1 h2
                injection h1 with h3
                injection h3 with h4 h5
                injection h5 with h6 h7
                subst h2 h7 h4
                obtain ⟨relE, hEnb, hEip⟩ := stmtRelN_alloca_eq (s.nextBlock + 2) hal
                obtain ⟨hgE, hdetE⟩ := relE.untouched eb (by omega) (by omega) hdetD
                refine ⟨by omega, by omega, by omega, ?_, hdetE, ?_, relE.wf_pres hwfD⟩
                · rw [hgE]
                  exact hgbD
                · intro bid
                  rw [relE.rets_eq bid, hrets1 bid]

end Twinkle

namespace Twinkle

/-- C2: for every lowered function definition all return paths funnel to the
single exit block created by the prologue: the exit block id is the second
block created, the lowered body never adds a return terminator to any block
already allocated when the body starts (user return statements lower to a
store plus a branch to the exit block), and the epilogue attaches the exit
block, which alone receives the single return instruction of the function -
a load of the return slot followed by ret, or a ret void.  Further, the
synthesized terminator after an unterminated non-void body stores a literal
zero for a function named main and an undef of the return type otherwise,
each followed by a branch to the exit block, and a void function with an
unterminated block receives a direct branch to the exit block. -/
theorem C2_single_synthesized_exit :
    (∀ (node : function_define) (func : LFunction) (s : CGState)
        (argvals : symbol_table) (retvar : Option AllocaInst) (e : Nat)
        (s₁ s₂ : CGState),
      wfPool s →
      (∀ f ∈ s.functions, ∀ bid ∈ f.basic_blocks, bid < s.nextBlock) →
      define_prolog node.decl func s = (.ok (argvals, retvar, e), s₁) →
      codegen_statement node.body argvals ⟨retvar, e, none, none⟩ s₁ = (.ok (), s₂) →
      e = s.nextBlock + 1 ∧
      ∃ s', define_body node func s = (.ok func.name, s') ∧
        retsIn s' e = 1 ∧
        (∀ bid, bid ≠ e → retsIn s' bid = retsIn s bid) ∧
        (∀ rv, retvar = some rv → ∃ id, s'.getBody e
            = [.instr (.load id rv.allocatedType rv.toValue),
               .term (.ret (.vreg id rv.allocatedType))]) ∧
        (retvar = none → s'.getBody e = [.term .ret_void])) ∧
    (∀ (nm : String) (rid : type_name) (rty : LType) (rv : AllocaInst)
        (eb : Nat) (st : CGState),
      st.currentTerminator = none → rid ≠ type_name.void_ →
      synthesize_return nm rid rty (some rv) eb st
        = if nm = "main" then (st.CreateStore (.constInt rty 0) rv.toValue).CreateBr eb
          else (st.CreateStore (.undef rty) rv.toValue).CreateBr eb) ∧
    (∀ (nm : String) (rty : LType) (rvo : Option AllocaInst) (eb : Nat) (st : CGState),
      st.currentTerminator = none →
      synthesize_return nm type_name.void_ rty rvo eb st = st.CreateBr eb) := by
  refine ⟨?_, ?_, ?_⟩
  · intro node func s argvals retvar e s₁ s₂ hwfp hfdet hpro hbody
    obtain ⟨he, hnb1, hip1, hgb1, hdet1, hrets1, hwf1⟩ :=
      prolog_facts node.decl func s argvals retvar e s₁ hwfp hfdet hpro
    have hv : ∃ sc, statement_visitor node.body argvals ⟨retvar, e, none, none⟩ s₁
        = (.ok sc, s₂) := by
      unfold codegen_statement at hbody
      cases hsv : statement_visitor node.body argvals ⟨retvar, e, none, none⟩ s₁ with
      | mk rr sB =>
        rw [hsv] at hbody
        cases rr with
        | error er => simp at hbody
        | ok sc =>
          injection hbody with h1 h2
          subst h2
          exact ⟨sc, rfl⟩
    obtain ⟨sc, hv⟩ := hv
    have hrel : stmtRelN s₁.nextBlock s₁ s₂ := by
      have hr := stmt_rel_all.1 node.body argvals ⟨retvar, e, none, none⟩ s₁
        s₁.nextBlock (Nat.le_refl _) hwf1
      rw [hv] at hr
      exact hr
    have hene : e ≠ s₁.insertPt := by omega
    obtain ⟨hgb2, hdet2⟩ := hrel.untouched e (by omega) hene hdet1
    have hgb2e : s₂.getBlock e = some ⟨[], none⟩ := by rw [hgb2, hgb1]
    have hip2 : e ≠ s₂.insertPt := by
      rcases hrel.insertPt_ok with hh | hh
      · rw [hh]
        exact hene
      · omega
    refine ⟨he, ?_⟩
    cases retvar with
    | some rv =>
      have hgb3 : (synthesize_return node.decl.name node.decl.return_type.id func.return_type (some rv) e s₂).getBlock e = some ⟨[], none⟩ := by
        rw [synthRet_getBlock_ne node.decl.name node.decl.return_type.id
          func.return_type (some rv) e s₂ e hip2]
        exact hgb2e
      have hsome4 : ((((synthesize_return node.decl.name node.decl.return_type.id func.return_type (some rv) e s₂).push_back (some func.name) e)).getBlock e).isSome = true := by
        rw [isSome_getBlock_push_back, hgb3]
        rfl
      have hbody4 : ((synthesize_return node.decl.name node.decl.return_type.id func.return_type (some rv) e s₂).push_back (some func.name) e).getBody e = [] := by
        rw [getBody_push_back]
        unfold CGState.getBody
        rw [hgb3]
        rfl
      have hbody6 : (((((synthesize_return node.decl.name node.decl.return_type.id func.return_type (some rv) e s₂).push_back (some func.name) e).setInsertPoint e).freshVal.2).appendToCurrent (BItem.instr (Instr.load ((((synthesize_return node.decl.name node.decl.return_type.id func.return_type (some rv) e s₂).push_back (some func.name) e).setInsertPoint e).nextValue) rv.allocatedType rv.toValue))).getBody e = [(BItem.instr (Instr.load ((((synthesize_return node.decl.name node.decl.return_type.id func.return_type (some rv) e s₂).push_back (some func.name) e).setInsertPoint e).nextValue) rv.allocatedType rv.toValue))] := by
        have hga : (((((synthesize_return node.decl.name node.decl.return_type.id func.return_type (some rv) e s₂).push_back (some func.name) e).setInsertPoint e).freshVal.2).appendToCurrent (BItem.instr (Instr.load ((((synthesize_return node.decl.name node.decl.return_type.id func.return_type (some rv) e s₂).push_back (some func.name) e).setInsertPoint e).nextValue) rv.allocatedType rv.toValue))).getBody e = ((((synthesize_return node.decl.name node.decl.return_type.id func.return_type (some rv) e s₂).push_back (some func.name) e).setInsertPoint e).freshVal.2).getBody e ++ [(BItem.instr (Instr.load ((((synthesize_return node.decl.name node.decl.return_type.id func.return_type (some rv) e s₂).push_back (some func.name) e).setInsertPoint e).nextValue) rv.allocatedType rv.toValue))] :=
          getBody_appendToCurrent_self _ _ hsome4
        rw [hga]
        have hb5 : ((((synthesize_return node.decl.name node.decl.return_type.id func.return_type (some rv) e s₂).push_back (some func.name) e).setInsertPoint e).freshVal.2).getBody e = [] := hbody4
        rw [hb5]
        rfl
      have hsome6 : (((((((synthesize_return node.decl.name node.decl.return_type.id func.return_type (some rv) e s₂).push_back (some func.name) e).setInsertPoint e).freshVal.2).appendToCurrent (BItem.instr (Instr.load ((((synthesize_return node.decl.name node.decl.return_type.id func.return_type (some rv) e s₂).push_back (some func.name) e).setInsertPoint e).nextValue) rv.allocatedType rv.toValue)))).getBlock e).isSome = true :=
        (isSome_getBlock_appendToCurrent _ _ e).trans hsome4
      have hbody7 : ((((((synthesize_return node.decl.name node.decl.return_type.id func.return_type (some rv) e s₂).push_back (some func.name) e).setInsertPoint e).freshVal.2).appendToCurrent (BItem.instr (Instr.load ((((synthesize_return node.decl.name node.decl.return_type.id func.return_type (some rv) e s₂).push_back (some func.name) e).setInsertPoint e).nextValue) rv.allocatedType rv.toValue))).appendToCurrent (BItem.term (Terminator.ret (Value.vreg ((((synthesize_return node.decl.name node.decl.return_type.id func.return_type (some rv) e s₂).push_back (some func.name) e).setInsertPoint e).nextValue) rv.allocatedType)))).getBody e = [(BItem.instr (Instr.load ((((synthesize_return node.decl.name node.decl.return_type.id func.return_type (some rv) e s₂).push_back (some func.name) e).setInsertPoint e).nextValue) rv.allocatedType rv.toValue)), (BItem.term (Terminator.ret (Value.vreg ((((synthesize_return node.decl.name node.decl.return_type.id func.return_type (some rv) e s₂).push_back (some func.name) e).setInsertPoint e).nextValue) rv.allocatedType)))] := by
        have hga : ((((((synthesize_return node.decl.name node.decl.return_type.id func.return_type (some rv) e s₂).push_back (some func.name) e).setInsertPoint e).freshVal.2).appendToCurrent (BItem.instr (Instr.load ((((synthesize_return node.decl.name node.decl.return_type.id func.return_type (some rv) e s₂).push_back (some func.name) e).setInsertPoint e).nextValue) rv.allocatedType rv.toValue))).appendToCurrent (BItem.term (Terminator.ret (Value.vreg ((((synthesize_return node.decl.name node.decl.return_type.id func.return_type (some rv) e s₂).push_back (some func.name) e).setInsertPoint e).nextValue) rv.allocatedType)))).getBody e = (((((synthesize_return node.decl.name node.decl.return_type.id func.return_type (some rv) e s₂).push_back (some func.name) e).setInsertPoint e).freshVal.2).appendToCurrent (BItem.instr (Instr.load ((((synthesize_return node.decl.name node.decl.return_type.id func.return_type (some rv) e s₂).push_back (some func.name) e).setInsertPoint e).nextValue) rv.allocatedType rv.toValue))).getBody e ++ [(BItem.term (Terminator.ret (Value.vreg ((((synthesize_return node.decl.name node.decl.return_type.id func.return_type (some rv) e s₂).push_back (some func.name) e).setInsertPoint e).nextValue) rv.allocatedType)))] :=
          getBody_appendToCurrent_self _ _ hsome6
        rw [hga, hbody6]
        rfl
      refine ⟨((((((synthesize_return node.decl.name node.decl.return_type.id func.return_type (some rv) e s₂).push_back (some func.name) e).setInsertPoint e).freshVal.2).appendToCurrent (BItem.instr (Instr.load ((((synthesize_return node.decl.name node.decl.return_type.id func.return_type (some rv) e s₂).push_back (some func.name) e).setInsertPoint e).nextValue) rv.allocatedType rv.toValue))).appendToCurrent (BItem.term (Terminator.ret (Value.vreg ((((synthesize_return node.decl.name node.decl.return_type.id func.return_type (some rv) e s₂).push_back (some func.name) e).setInsertPoint e).nextValue) rv.allocatedType)))), ?_, ?_, ?_, ?_, ?_⟩
      · unfold define_body
        simp only [hpro, hbody]
        rfl
      · unfold retsIn
        rw [hbody7]
        rfl
      · intro bid hbid
        rw [retsIn_appendToCurrent_ne (((((synthesize_return node.decl.name node.decl.return_type.id func.return_type (some rv) e s₂).push_back (some func.name) e).setInsertPoint e).freshVal.2).appendToCurrent (BItem.instr (Instr.load ((((synthesize_return node.decl.name node.decl.return_type.id func.return_type (some rv) e s₂).push_back (some func.name) e).setInsertPoint e).nextValue) rv.allocatedType rv.toValue))) (BItem.term (Terminator.ret (Value.vreg ((((synthesize_return node.decl.name node.decl.return_type.id func.return_type (some rv) e s₂).push_back (some func.name) e).setInsertPoint e).nextValue) rv.allocatedType))) bid hbid]
        rw [retsIn_appendToCurrent_ne ((((synthesize_return node.decl.name node.decl.return_type.id func.return_type (some rv) e s₂).push_back (some func.name) e).setInsertPoint e).freshVal.2) (BItem.instr (Instr.load ((((synthesize_return node.decl.name node.decl.return_type.id func.return_type (some rv) e s₂).push_back (some func.name) e).setInsertPoint e).nextValue) rv.allocatedType rv.toValue)) bid hbid]
        have hfrf : retsIn ((((synthesize_return node.decl.name node.decl.return_type.id func.return_type (some rv) e s₂).push_back (some func.name) e).setInsertPoint e).freshVal.2) bid = retsIn ((synthesize_return node.decl.name node.decl.return_type.id func.return_type (some rv) e s₂).push_back (some func.name) e) bid := rfl
        rw [hfrf, retsIn_push_back, synthRet_rets, hrel.rets_eq bid, hrets1 bid]
      · intro rv2 hrv2
        injection hrv2 with hrv3
        subst hrv3
        exact ⟨(((synthesize_return node.decl.name node.decl.return_type.id func.return_type (some rv) e s₂).push_back (some func.name) e).setInsertPoint e).nextValue, hbody7⟩
      · intro hc
        exact absurd hc (by simp)
    | none =>
      have hgb3 : (synthesize_return node.decl.name node.decl.return_type.id func.return_type none e s₂).getBlock e = some ⟨[], none⟩ := by
        rw [synthRet_getBlock_ne node.decl.name node.decl.return_type.id
          func.return_type none e s₂ e hip2]
        exact hgb2e
      have hsome4 : ((((synthesize_return node.decl.name node.decl.return_type.id func.return_type none e s₂).push_back (some func.name) e)).getBlock e).isSome = true := by
        rw [isSome_getBlock_push_back, hgb3]
        rfl
      have hbody4 : ((synthesize_return node.decl.name node.decl.return_type.id func.return_type none e s₂).push_back (some func.name) e).getBody e = [] := by
        rw [getBody_push_back]
        unfold CGState.getBody
        rw [hgb3]
        rfl
      have hbody6 : ((((synthesize_return node.decl.name node.decl.return_type.id func.return_type none e s₂).push_back (some func.name) e).setInsertPoint e).appendToCurrent (BItem.term Terminator.ret_void)).getBody e = [(BItem.term Terminator.ret_void)] := by
        have hga : ((((synthesize_return node.decl.name node.decl.return_type.id func.return_type none e s₂).push_back (some func.name) e).setInsertPoint e).appendToCurrent (BItem.term Terminator.ret_void)).getBody e = (((synthesize_return node.decl.name node.decl.return_type.id func.return_type none e s₂).push_back (some func.name) e).setInsertPoint e).getBody e ++ [(BItem.term Terminator.ret_void)] :=
          getBody_appendToCurrent_self _ _ hsome4
        rw [hga]
        have hb5 : (((synthesize_return node.decl.name node.decl.return_type.id func.return_type none e s₂).push_back (some func.name) e).setInsertPoint e).getBody e = [] := hbody4
        rw [hb5]
        rfl
      refine ⟨((((synthesize_return node.decl.name node.decl.return_type.id func.return_type none e s₂).push_back (some func.name) e).setInsertPoint e).appendToCurrent (BItem.term Terminator.ret_void)), ?_, ?_, ?_, ?_, ?_⟩
      · unfold define_body
        simp only [hpro, hbody]
        rfl
      · unfold retsIn
        rw [hbody6]
        rfl
      · intro bid hbid
        rw [retsIn_appendToCurrent_ne (((synthesize_return node.decl.name node.decl.return_type.id func.return_type none e s₂).push_back (some func.name) e).setInsertPoint e) (BItem.term Terminator.ret_void) bid hbid]
        have hfrf : retsIn (((synthesize_return node.decl.name node.decl.return_type.id func.return_type none e s₂).push_back (some func.name) e).setInsertPoint e) bid = retsIn ((synthesize_return node.decl.name node.decl.return_type.id func.return_type none e s₂).push_back (some func.name) e) bid := rfl
        rw [hfrf, retsIn_push_back, synthRet_rets, hrel.rets_eq bid, hrets1 bid]
      · intro rv2 hrv2
        exact absurd hrv2 (by simp)
      · intro hc
        exact hbody6
  · intro nm rid rty rv eb st hct hnv
    unfold synthesize_return
    simp [hct, hnv]
  · intro nm rty rvo eb st hct
    unfold synthesize_return
    simp [hct]

end Twinkle

namespace Twinkle

/-- Witness for C2 at a concrete definition of main with empty body: the exit
block is block 2, the lowered function has exactly one return and it sits in
the exit block, and the synthesis equations hold at a concrete unterminated
state. -/
theorem C2_single_synthesized_exit_witness :
    ((2 : Nat) = 1 + 1 ∧
     ∃ s', define_body (⟨⟨none, "main", [], ⟨type_name.i32, false⟩⟩, statement.nil⟩ : function_define) (⟨"main", [], [], LType.int 32, false, false, []⟩ : LFunction) (⟨[(0, ⟨[], none⟩)], 0, 1, 0, [⟨"main", [], [], LType.int 32, false, false, []⟩]⟩ : CGState) = (.ok "main", s') ∧
       retsIn s' 2 = 1 ∧
       (∀ bid, bid ≠ 2 → retsIn s' bid = retsIn (⟨[(0, ⟨[], none⟩)], 0, 1, 0, [⟨"main", [], [], LType.int 32, false, false, []⟩]⟩ : CGState) bid) ∧
       (∀ rv, some (⟨0, LType.int 32⟩ : AllocaInst) = some rv → ∃ id, s'.getBody 2
           = [.instr (.load id rv.allocatedType rv.toValue),
              .term (.ret (.vreg id rv.allocatedType))]) ∧
       (some (⟨0, LType.int 32⟩ : AllocaInst) = none → s'.getBody 2 = [.term .ret_void])) ∧
    (synthesize_return "x" type_name.i32 (LType.int 32) (some (⟨0, LType.int 32⟩ : AllocaInst)) 0 (⟨[(0, ⟨[], none⟩)], 0, 1, 0, [⟨"main", [], [], LType.int 32, false, false, []⟩]⟩ : CGState)
      = if "x" = "main"
        then (((⟨[(0, ⟨[], none⟩)], 0, 1, 0, [⟨"main", [], [], LType.int 32, false, false, []⟩]⟩ : CGState)).CreateStore (.constInt (LType.int 32) 0) ((⟨0, LType.int 32⟩ : AllocaInst)).toValue).CreateBr 0
        else (((⟨[(0, ⟨[], none⟩)], 0, 1, 0, [⟨"main", [], [], LType.int 32, false, false, []⟩]⟩ : CGState)).CreateStore (.undef (LType.int 32)) ((⟨0, LType.int 32⟩ : AllocaInst)).toValue).CreateBr 0) ∧
    (synthesize_return "v" type_name.void_ (LType.int 32) none 0 (⟨[(0, ⟨[], none⟩)], 0, 1, 0, [⟨"main", [], [], LType.int 32, false, false, []⟩]⟩ : CGState)
      = ((⟨[(0, ⟨[], none⟩)], 0, 1, 0, [⟨"main", [], [], LType.int 32, false, false, []⟩]⟩ : CGState)).CreateBr 0) :=
  ⟨C2_single_synthesized_exit.1 (⟨⟨none, "main", [], ⟨type_name.i32, false⟩⟩, statement.nil⟩ : function_define) (⟨"main", [], [], LType.int 32, false, false, []⟩ : LFunction) (⟨[(0, ⟨[], none⟩)], 0, 1, 0, [⟨"main", [], [], LType.int 32, false, false, []⟩]⟩ : CGState) ⟨[]⟩ (some (⟨0, LType.int 32⟩ : AllocaInst)) 2 (⟨[(2, ⟨[], none⟩), (1, ⟨[BItem.instr (Instr.alloca 0 (LType.int 32) "")], some "main"⟩), (0, ⟨[], none⟩)], 1, 3, 1, [⟨"main", [], [], LType.int 32, false, false, [1]⟩]⟩ : CGState) (⟨[(2, ⟨[], none⟩), (1, ⟨[BItem.instr (Instr.alloca 0 (LType.int 32) "")], some "main"⟩), (0, ⟨[], none⟩)], 1, 3, 1, [⟨"main", [], [], LType.int 32, false, false, [1]⟩]⟩ : CGState)
      ⟨by decide, fun bid hb => by
        have hb1 : 1 ≤ bid := hb
        have h0 : (0 : Nat) ≠ bid := by omega
        simp [CGState.getBlock, findBlock, h0]⟩
      (by decide) rfl rfl,
   C2_single_synthesized_exit.2.1 "x" type_name.i32 (LType.int 32) (⟨0, LType.int 32⟩ : AllocaInst) 0 (⟨[(0, ⟨[], none⟩)], 0, 1, 0, [⟨"main", [], [], LType.int 32, false, false, []⟩]⟩ : CGState)
      rfl (by decide),
   C2_single_synthesized_exit.2.2 "v" (LType.int 32) none 0 (⟨[(0, ⟨[], none⟩)], 0, 1, 0, [⟨"main", [], [], LType.int 32, false, false, []⟩]⟩ : CGState) rfl⟩

end Twinkle
